import Mathlib

/-!
# libinput `tools/event-debug.c` and `tools/shared.c`

A shallow embedding of the event printer of the libinput debugging tool and of
the configuration applier it calls on hot-plug, with theorems about what the
code prints and calls.

Conventions of the embedding.

* A C `double` is the rational number it holds exactly (`double`).  The one
  arithmetic operation the tool does on doubles, the division by `1000.0` in
  `print_event_time`, is rounded to binary64 (`binary64_div`).  NaN,
  infinities and negative zero are outside the model.
* Every `printf` call is transcribed as the list of its pieces: the literal
  stretches of the format string and one piece per conversion, carrying the
  argument it converts.  `Piece.render` turns a piece into text.  The `%f`
  conversions of the C library are a parameter (`Env.printf_double`).
* An event is the record of the values its libinput getters return while it
  is printed; the getters themselves live in the library, not in the tool.
* `abort()` is `Except.error`, holding what the function had written so far.
-/

namespace EventDebug

/-! ## printf pieces -/

/-- A C `double`, modelled by its exact rational value. -/
abbrev double := ℚ

/-- One piece of a `printf` call: a literal part of the format string or one
conversion together with its argument. -/
inductive Piece where
  /-- literal text of the format string -/
  | lit (s : String)
  /-- `%s`, `%Ns` (right-justified) and `%-Ns` (left-justified) -/
  | str (left : Bool) (width : Nat) (v : String)
  /-- `%d` and `%Nd` -/
  | dec (width : Nat) (v : Int)
  /-- `%u` -/
  | uns (v : Nat)
  /-- `%#` PRIx64 -/
  | hex (v : Nat)
  /-- a `%f` conversion, `spec` being its text in the format string -/
  | flt (spec : String) (v : double)
  deriving DecidableEq

/-- What one print function writes: the pieces of its `printf` calls in order. -/
abbrev Out := List Piece

/-- Pad `s` with blanks to at least `width` characters, on the right when
`left` (the `-` flag), else on the left.  Never truncates. -/
def pad (left : Bool) (width : Nat) (s : String) : String :=
  let fill := String.mk (List.replicate (width - s.length) ' ')
  if left then s ++ fill else fill ++ s

/-- The `%#lx` conversion: zero prints as `0`, anything else as `0x` and the
lower-case hexadecimal digits. -/
def hex_alt (v : Nat) : String :=
  if v = 0 then "0" else "0x" ++ String.mk (Nat.toDigits 16 v)

/-- Reading a 32-bit pattern as a C `int`. -/
def to_int32 (n : Nat) : Int :=
  if n % 2 ^ 32 < 2 ^ 31 then (n % 2 ^ 32 : Nat) else ((n % 2 ^ 32 : Nat) : Int) - 2 ^ 32

/-- Subtraction of two `uint32_t` values. -/
def u32_sub (a b : Nat) : Nat :=
  (a % 2 ^ 32 + (2 ^ 32 - b % 2 ^ 32)) % 2 ^ 32

/-- The text of one piece, given the C library's `%f` conversions. -/
def Piece.render (printf_double : String → double → String) : Piece → String
  | .lit s => s
  | .str left width v => pad left width v
  | .dec width v => pad false width (toString v)
  | .uns v => toString v
  | .hex v => hex_alt v
  | .flt spec v => printf_double spec v

/-- The bytes written for a list of pieces. -/
def render (printf_double : String → double → String) : Out → String
  | [] => ""
  | piece :: rest => piece.render printf_double ++ render printf_double rest

/-! ## Data model: what the libinput getters return -/

/-- The event tags of `enum libinput_event_type`. -/
inductive libinput_event_type where
  | NONE
  | DEVICE_ADDED
  | DEVICE_REMOVED
  | KEYBOARD_KEY
  | POINTER_MOTION
  | POINTER_MOTION_ABSOLUTE
  | POINTER_BUTTON
  | POINTER_AXIS
  | TOUCH_DOWN
  | TOUCH_UP
  | TOUCH_MOTION
  | TOUCH_CANCEL
  | TOUCH_FRAME
  | TABLET_TOOL_AXIS
  | TABLET_TOOL_PROXIMITY
  | TABLET_TOOL_TIP
  | TABLET_TOOL_BUTTON
  | TABLET_PAD_BUTTON
  | TABLET_PAD_RING
  | TABLET_PAD_STRIP
  | GESTURE_SWIPE_BEGIN
  | GESTURE_SWIPE_UPDATE
  | GESTURE_SWIPE_END
  | GESTURE_PINCH_BEGIN
  | GESTURE_PINCH_UPDATE
  | GESTURE_PINCH_END
  deriving DecidableEq, Repr

/-- A seat: `libinput_seat_get_physical_name` and `_get_logical_name`. -/
structure libinput_seat where
  physical_name : String
  logical_name : String
  deriving DecidableEq

/-- A device as the printer and the applier see it.  `group` is the identity
of its `libinput_device_group`; the integer-valued predicates of the library
are kept as their truth value. -/
structure libinput_device where
  sysname : String
  name : String
  seat : libinput_seat
  group : Nat
  cap_keyboard : Bool
  cap_pointer : Bool
  cap_touch : Bool
  cap_gesture : Bool
  cap_tablet_tool : Bool
  cap_tablet_pad : Bool
  /-- `libinput_device_get_size`: `some (w, h)` when it returns 0 -/
  size : Option (double × double)
  tap_finger_count : Nat
  tap_drag_lock_enabled : Bool
  left_handed_is_available : Bool
  scroll_has_natural_scroll : Bool
  calibration_has_matrix : Bool
  scroll_methods : Nat
  click_methods : Nat
  dwt_is_available : Bool
  /-- `libinput_device_config_dwt_get_enabled(dev) == LIBINPUT_CONFIG_DWT_ENABLED` -/
  dwt_enabled : Bool
  accel_is_available : Bool
  deriving DecidableEq

/-- Getters of `struct libinput_event_keyboard`. -/
structure libinput_event_keyboard where
  time : Nat
  key : Nat
  /-- `state == LIBINPUT_KEY_STATE_PRESSED` -/
  pressed : Bool
  deriving DecidableEq

/-- Getters of `struct libinput_event_pointer`. -/
structure libinput_event_pointer where
  time : Nat
  dx : double
  dy : double
  /-- `libinput_event_pointer_get_absolute_x_transformed(p, 100)` -/
  absolute_x_transformed : double
  /-- `libinput_event_pointer_get_absolute_y_transformed(p, 100)` -/
  absolute_y_transformed : double
  button : Nat
  /-- `state == LIBINPUT_BUTTON_STATE_PRESSED` -/
  button_pressed : Bool
  seat_button_count : Nat
  has_axis_vertical : Bool
  has_axis_horizontal : Bool
  axis_value_vertical : double
  axis_value_horizontal : double
  deriving DecidableEq

/-- Getters of `struct libinput_event_touch`; the transformed coordinates are
the ones for the 100 by 100 surface the tool asks for. -/
structure libinput_event_touch where
  time : Nat
  slot : Int
  seat_slot : Int
  x_transformed : double
  y_transformed : double
  x : double
  y : double
  deriving DecidableEq

/-- Getters of `struct libinput_event_gesture`. -/
structure libinput_event_gesture where
  time : Nat
  finger_count : Int
  cancelled : Int
  dx : double
  dy : double
  dx_unaccelerated : double
  dy_unaccelerated : double
  scale : double
  angle_delta : double
  deriving DecidableEq

/-- Values of `enum libinput_tablet_tool_type`; `invalid` is any value that is
not one of the seven enumerators. -/
inductive libinput_tablet_tool_type where
  | PEN
  | ERASER
  | BRUSH
  | PENCIL
  | AIRBRUSH
  | MOUSE
  | LENS
  | invalid (raw : Nat)
  deriving DecidableEq

/-- Values of `enum libinput_tablet_tool_proximity_state`. -/
inductive libinput_tablet_tool_proximity_state where
  | OUT
  | IN
  | invalid (raw : Nat)
  deriving DecidableEq

/-- Values of the ring and strip source enums. -/
inductive libinput_tablet_pad_source where
  | UNKNOWN
  | FINGER
  | invalid (raw : Nat)
  deriving DecidableEq

/-- A tablet tool: type, serial, tool id, axis capabilities and the button
codes `libinput_tablet_tool_has_button` answers true for. -/
structure libinput_tablet_tool where
  type : libinput_tablet_tool_type
  serial : Nat
  tool_id : Nat
  has_distance : Bool
  has_pressure : Bool
  has_tilt : Bool
  has_rotation : Bool
  has_slider : Bool
  has_wheel : Bool
  buttons : List Nat
  deriving DecidableEq

/-- `libinput_tablet_tool_has_button`. -/
def libinput_tablet_tool.has_button (tool : libinput_tablet_tool) (code : Nat) : Bool :=
  tool.buttons.contains code

/-- Getters of `struct libinput_event_tablet_tool`. -/
structure libinput_event_tablet_tool where
  time : Nat
  tool : libinput_tablet_tool
  x : double
  y : double
  x_has_changed : Bool
  y_has_changed : Bool
  tilt_x : double
  tilt_y : double
  tilt_x_has_changed : Bool
  tilt_y_has_changed : Bool
  distance : double
  distance_has_changed : Bool
  pressure : double
  pressure_has_changed : Bool
  rotation : double
  rotation_has_changed : Bool
  slider_position : double
  slider_has_changed : Bool
  wheel_delta : double
  wheel_delta_discrete : double
  wheel_has_changed : Bool
  proximity_state : libinput_tablet_tool_proximity_state
  /-- `state == LIBINPUT_TABLET_TOOL_TIP_DOWN` -/
  tip_down : Bool
  button : Nat
  /-- `state == LIBINPUT_BUTTON_STATE_PRESSED` -/
  button_pressed : Bool
  seat_button_count : Nat
  deriving DecidableEq

/-- Getters of `struct libinput_event_tablet_pad`. -/
structure libinput_event_tablet_pad where
  time : Nat
  button : Nat
  /-- `state == LIBINPUT_BUTTON_STATE_PRESSED` -/
  button_pressed : Bool
  seat_button_count : Nat
  ring_source : libinput_tablet_pad_source
  ring_number : Nat
  ring_position : double
  strip_source : libinput_tablet_pad_source
  strip_number : Nat
  strip_position : double
  deriving DecidableEq

/-- An event: its tag, its device and what each family of getters returns for
it.  The printer reads only the family its tag selects. -/
structure libinput_event where
  type : libinput_event_type
  device : libinput_device
  keyboard : libinput_event_keyboard
  pointer : libinput_event_pointer
  touch : libinput_event_touch
  gesture : libinput_event_gesture
  tablet_tool : libinput_event_tablet_tool
  tablet_pad : libinput_event_tablet_pad
  deriving DecidableEq

/-! ## `tools/shared.c`: options and the configuration applier -/

/-- The two backends of `enum tools_backend`. -/
inductive tools_backend where
  | BACKEND_DEVICE
  | BACKEND_UDEV
  deriving DecidableEq

/-- The fields of `struct tools_options` that `shared.c` touches.  Integer and
enum fields are integers, so that the sentinel -1 can be stored. -/
structure tools_options where
  backend : tools_backend
  device : Option String
  seat : String
  grab : Int
  verbose : Int
  quiet : Int
  show_keycodes : Bool
  tapping : Int
  tap_map : Int
  drag : Int
  drag_lock : Int
  natural_scroll : Int
  left_handed : Int
  middlebutton : Int
  dwt : Int
  click_method : Int
  scroll_method : Int
  scroll_button : Int
  speed : double
  profile : Int
  deriving DecidableEq

/-- `struct tools_context`: the options and the user data pointer (`none` is
NULL). -/
structure tools_context where
  options : tools_options
  user_data : Option Nat
  deriving DecidableEq

/-- The value of `LIBINPUT_CONFIG_ACCEL_PROFILE_NONE` in libinput.h. -/
def LIBINPUT_CONFIG_ACCEL_PROFILE_NONE : Int := 0

/-- `tools_init_context`: everything zeroed by `memset`, then the listed
fields assigned. -/
def tools_init_context : tools_context :=
  { user_data := none
    options :=
      { device := none
        grab := 0
        verbose := 0
        quiet := 0
        tapping := -1
        tap_map := -1
        drag := -1
        drag_lock := -1
        natural_scroll := -1
        left_handed := -1
        middlebutton := -1
        dwt := -1
        click_method := -1
        scroll_method := -1
        scroll_button := -1
        backend := .BACKEND_UDEV
        seat := "seat0"
        speed := 0
        profile := LIBINPUT_CONFIG_ACCEL_PROFILE_NONE
        show_keycodes := false } }

/-- One call of a `libinput_device_config_*` setter, with the value passed. -/
inductive config_call where
  | tap_set_enabled (v : Int)
  | tap_set_button_map (v : Int)
  | tap_set_drag_enabled (v : Int)
  | tap_set_drag_lock_enabled (v : Int)
  | scroll_set_natural_scroll_enabled (v : Int)
  | left_handed_set (v : Int)
  | middle_emulation_set_enabled (v : Int)
  | dwt_set_enabled (v : Int)
  | click_set_method (v : Int)
  | scroll_set_method (v : Int)
  | scroll_set_button (v : Int)
  | accel_set_speed (v : double)
  | accel_set_profile (v : Int)
  deriving DecidableEq

/-- `tools_device_apply_config`: the setter calls it makes on `device`, in
order.  Each `if` of the source contributes its call or nothing. -/
def tools_device_apply_config (device : libinput_device) (options : tools_options) :
    List config_call :=
  (if options.tapping ≠ -1 then [.tap_set_enabled options.tapping] else []) ++
  (if options.tap_map ≠ -1 then [.tap_set_button_map options.tap_map] else []) ++
  (if options.drag ≠ -1 then [.tap_set_drag_enabled options.drag] else []) ++
  (if options.drag_lock ≠ -1 then [.tap_set_drag_lock_enabled options.drag_lock] else []) ++
  (if options.natural_scroll ≠ -1 then
    [.scroll_set_natural_scroll_enabled options.natural_scroll] else []) ++
  (if options.left_handed ≠ -1 then [.left_handed_set options.left_handed] else []) ++
  (if options.middlebutton ≠ -1 then
    [.middle_emulation_set_enabled options.middlebutton] else []) ++
  (if options.dwt ≠ -1 then [.dwt_set_enabled options.dwt] else []) ++
  (if options.click_method ≠ -1 then [.click_set_method options.click_method] else []) ++
  (if options.scroll_method ≠ -1 then [.scroll_set_method options.scroll_method] else []) ++
  (if options.scroll_button ≠ -1 then [.scroll_set_button options.scroll_button] else []) ++
  (if device.accel_is_available then
    [.accel_set_speed options.speed] ++
    (if options.profile ≠ LIBINPUT_CONFIG_ACCEL_PROFILE_NONE then
      [.accel_set_profile options.profile] else [])
   else [])

/-! ## `tools/event-debug.c` -/

/-- What the printer reads from outside itself: the C library's `%f`
conversions, libevdev's key-name table, and the globals `start_time` and
`context.options`. -/
structure Env where
  /-- `printf` of one `double` under the conversion `spec` -/
  printf_double : String → double → String
  /-- `libevdev_event_code_get_name(EV_KEY, code)`, `none` for NULL -/
  event_code_get_name : Nat → Option String
  start_time : Nat
  options : tools_options

/-! ## `print_event_time` -/

/-- Round the fraction `a / d` to the nearest integer, ties to even. -/
def round_half_even (a d : Nat) : Nat :=
  let f := a / d
  let r := a % d
  if 2 * r < d then f else if d < 2 * r then f + 1 else if f % 2 = 0 then f else f + 1

/-- The scaling exponent of the binary64 quotient of `n` by `d`: the `k` with
`d * 2^52 ≤ n * 2^k < d * 2^53`, which puts the quotient scaled by `2^k` in the
range of a 53-bit significand.  Meant for `0 < n < d * 2^53`. -/
def binary64_shift (n d : Nat) : Nat :=
  let k := 53 + Nat.log2 d - Nat.log2 n
  if d * 2 ^ 53 ≤ n * 2 ^ k then k - 1 else k

/-- The quotient `(double)n / (double)d` of two integers that binary64 holds
exactly, for a quotient below `2^53` and in the normal range: the quotient
rounded to a 53-bit significand, to nearest, ties to even.  The result is
the exact value of the double. -/
def binary64_div (n d : Nat) : double :=
  if n = 0 then 0
  else
    ((round_half_even (n * 2 ^ binary64_shift n d) d : Nat) : double) /
      2 ^ binary64_shift n d

/-- The argument of the `%+6.2f` conversion in `print_event_time`:
`(time - start_time) / 1000.0`, the subtraction being done on `uint32_t`, its
result converted to `double` and divided by `1000.0` in binary64. -/
def event_time_seconds (start_time time : Nat) : double :=
  binary64_div (u32_sub time start_time) 1000

/-- `print_event_time`: `printf("%+6.2fs\t", (time - start_time) / 1000.0)`. -/
def print_event_time (start_time time : Nat) : Out :=
  [.flt "%+6.2f" (event_time_seconds start_time time), .lit "s\t"]

/-! ## `print_pointer_axis_event` -/

/-- `print_pointer_axis_event`. -/
def print_pointer_axis_event (env : Env) (ev : libinput_event) : Out := Id.run do
  let p := ev.pointer
  let mut v : double := 0
  let mut h : double := 0
  let mut have_vert := ""
  let mut have_horiz := ""
  if p.has_axis_vertical then
    v := p.axis_value_vertical
    have_vert := "*"
  if p.has_axis_horizontal then
    h := p.axis_value_horizontal
    have_horiz := "*"
  return print_event_time env.start_time p.time ++
    [.lit "vert ", .flt "%.2f" v, .str false 0 have_vert,
     .lit " horiz ", .flt "%.2f" h, .str false 0 have_horiz, .lit "\n"]

/-! ## `print_event_header` -/

/-- `print_event_header`: the switch over the tag, then
`printf("%-7s\t%-16s ", sysname, type)`.  The no-event tag aborts before
anything is written. -/
def print_event_header (ev : libinput_event) : Except Out Out := do
  let dev := ev.device
  let type ← match ev.type with
    | .NONE => throw []
    | .DEVICE_ADDED => pure "DEVICE_ADDED"
    | .DEVICE_REMOVED => pure "DEVICE_REMOVED"
    | .KEYBOARD_KEY => pure "KEYBOARD_KEY"
    | .POINTER_MOTION => pure "POINTER_MOTION"
    | .POINTER_MOTION_ABSOLUTE => pure "POINTER_MOTION_ABSOLUTE"
    | .POINTER_BUTTON => pure "POINTER_BUTTON"
    | .POINTER_AXIS => pure "POINTER_AXIS"
    | .TOUCH_DOWN => pure "TOUCH_DOWN"
    | .TOUCH_MOTION => pure "TOUCH_MOTION"
    | .TOUCH_UP => pure "TOUCH_UP"
    | .TOUCH_CANCEL => pure "TOUCH_CANCEL"
    | .TOUCH_FRAME => pure "TOUCH_FRAME"
    | .GESTURE_SWIPE_BEGIN => pure "GESTURE_SWIPE_BEGIN"
    | .GESTURE_SWIPE_UPDATE => pure "GESTURE_SWIPE_UPDATE"
    | .GESTURE_SWIPE_END => pure "GESTURE_SWIPE_END"
    | .GESTURE_PINCH_BEGIN => pure "GESTURE_PINCH_BEGIN"
    | .GESTURE_PINCH_UPDATE => pure "GESTURE_PINCH_UPDATE"
    | .GESTURE_PINCH_END => pure "GESTURE_PINCH_END"
    | .TABLET_TOOL_AXIS => pure "TABLET_TOOL_AXIS"
    | .TABLET_TOOL_PROXIMITY => pure "TABLET_TOOL_PROXIMITY"
    | .TABLET_TOOL_TIP => pure "TABLET_TOOL_TIP"
    | .TABLET_TOOL_BUTTON => pure "TABLET_TOOL_BUTTON"
    | .TABLET_PAD_BUTTON => pure "TABLET_PAD_BUTTON"
    | .TABLET_PAD_RING => pure "TABLET_PAD_RING"
    | .TABLET_PAD_STRIP => pure "TABLET_PAD_STRIP"
  return [.str true 7 dev.sysname, .lit "\t", .str true 16 type, .lit " "]

/-! ## `print_device_notify` -/

/-- The state `print_device_notify` keeps between calls: its static counter
`next_group_id` and the user data pointer of every device group (0 is NULL).
The counter is an unbounded integer: overflowing a C `int` is undefined and
would take 2^31 device groups. -/
structure notify_state where
  next_group_id : Int
  group_user_data : Nat → Int

/-- The state at program start: counter 0, no group has user data. -/
def notify_state.initial : notify_state :=
  { next_group_id := 0, group_user_data := fun _ => 0 }

/-- Bits of `enum libinput_config_scroll_method` in libinput.h. -/
def LIBINPUT_CONFIG_SCROLL_NO_SCROLL : Nat := 0
/-- Bit of `enum libinput_config_scroll_method`. -/
def LIBINPUT_CONFIG_SCROLL_2FG : Nat := 1
/-- Bit of `enum libinput_config_scroll_method`. -/
def LIBINPUT_CONFIG_SCROLL_EDGE : Nat := 2
/-- Bit of `enum libinput_config_scroll_method`. -/
def LIBINPUT_CONFIG_SCROLL_ON_BUTTON_DOWN : Nat := 4
/-- Value of `enum libinput_config_click_method` in libinput.h. -/
def LIBINPUT_CONFIG_CLICK_METHOD_NONE : Nat := 0
/-- Bit of `enum libinput_config_click_method`. -/
def LIBINPUT_CONFIG_CLICK_METHOD_BUTTON_AREAS : Nat := 1
/-- Bit of `enum libinput_config_click_method`. -/
def LIBINPUT_CONFIG_CLICK_METHOD_CLICKFINGER : Nat := 2

/-- The first lines of `print_device_notify`: read the group's user data and,
when it is NULL, take the next counter value and store it in the group.
Returns the label and the new state. -/
def lookup_group_id (group : Nat) (st : notify_state) : Int × notify_state :=
  let group_id := st.group_user_data group
  if group_id = 0 then
    let group_id := st.next_group_id + 1
    (group_id,
     { next_group_id := st.next_group_id + 1
       group_user_data := Function.update st.group_user_data group group_id })
  else
    (group_id, st)

/-- The `printf` calls of `print_device_notify`, given the group label.  Each
`if` of the source contributes its pieces or nothing. -/
def print_device_notify_line (dev : libinput_device) (group_id : Int) : Out :=
  let seat := dev.seat
  [.str true 33 dev.name, .lit " ", .str false 5 seat.physical_name, .lit " ",
   .str false 7 seat.logical_name, .lit " group", .dec 0 group_id] ++
  [.lit " cap:"] ++
  (if dev.cap_keyboard then [.lit "k"] else []) ++
  (if dev.cap_pointer then [.lit "p"] else []) ++
  (if dev.cap_touch then [.lit "t"] else []) ++
  (if dev.cap_gesture then [.lit "g"] else []) ++
  (if dev.cap_tablet_tool then [.lit "T"] else []) ++
  (if dev.cap_tablet_pad then [.lit "P"] else []) ++
  (match dev.size with
   | some (w, h) => [.lit "\tsize ", .flt "%.2f" w, .lit "/", .flt "%.2f" h, .lit "mm"]
   | none => []) ++
  (if dev.tap_finger_count ≠ 0 then
    [.lit " tap"] ++
    (if dev.tap_drag_lock_enabled then [.lit "(dl on)"] else [.lit "(dl off)"])
   else []) ++
  (if dev.left_handed_is_available then [.lit " left"] else []) ++
  (if dev.scroll_has_natural_scroll then [.lit " scroll-nat"] else []) ++
  (if dev.calibration_has_matrix then [.lit " calib"] else []) ++
  (let scroll_methods := dev.scroll_methods
   if scroll_methods ≠ LIBINPUT_CONFIG_SCROLL_NO_SCROLL then
    [.lit " scroll"] ++
    (if scroll_methods &&& LIBINPUT_CONFIG_SCROLL_2FG ≠ 0 then [.lit "-2fg"] else []) ++
    (if scroll_methods &&& LIBINPUT_CONFIG_SCROLL_EDGE ≠ 0 then [.lit "-edge"] else []) ++
    (if scroll_methods &&& LIBINPUT_CONFIG_SCROLL_ON_BUTTON_DOWN ≠ 0 then
      [.lit "-button"] else [])
   else []) ++
  (let click_methods := dev.click_methods
   if click_methods ≠ LIBINPUT_CONFIG_CLICK_METHOD_NONE then
    [.lit " click"] ++
    (if click_methods &&& LIBINPUT_CONFIG_CLICK_METHOD_BUTTON_AREAS ≠ 0 then
      [.lit "-buttonareas"] else []) ++
    (if click_methods &&& LIBINPUT_CONFIG_CLICK_METHOD_CLICKFINGER ≠ 0 then
      [.lit "-clickfinger"] else [])
   else []) ++
  (if dev.dwt_is_available then
    (if dev.dwt_enabled then [.lit " dwt-on"] else [.lit " dwt-off)"])
   else []) ++
  [.lit "\n"]

/-- `print_device_notify`: look up or allocate the group label, then print the
device line.  Returns what was written and the new state. -/
def print_device_notify (ev : libinput_event) (st : notify_state) : Out × notify_state :=
  let dev := ev.device
  let r := lookup_group_id dev.group st
  (print_device_notify_line dev r.1, r.2)

/-! ## Keyboard and pointer events -/

/-- `print_key_event`. -/
def print_key_event (env : Env) (ev : libinput_event) : Out :=
  let k := ev.keyboard
  let key := k.key
  let keyname := env.event_code_get_name key
  print_event_time env.start_time k.time ++
    [.str false 0 (match keyname with | some n => n | none => "???"),
     .lit " (", .dec 0 (to_int32 key), .lit ") ",
     .str false 0 (if k.pressed then "pressed" else "released"), .lit "\n"]

/-- `print_motion_event`. -/
def print_motion_event (env : Env) (ev : libinput_event) : Out :=
  let p := ev.pointer
  let x := p.dx
  let y := p.dy
  print_event_time env.start_time p.time ++
    [.flt "%6.2f" x, .lit "/", .flt "%6.2f" y, .lit "\n"]

/-- `print_absmotion_event`. -/
def print_absmotion_event (env : Env) (ev : libinput_event) : Out :=
  let p := ev.pointer
  let x := p.absolute_x_transformed
  let y := p.absolute_y_transformed
  print_event_time env.start_time p.time ++
    [.flt "%6.2f" x, .lit "/", .flt "%6.2f" y, .lit "\n"]

/-- `print_pointer_button_event`; `button` is held in an `int`. -/
def print_pointer_button_event (env : Env) (ev : libinput_event) : Out :=
  let p := ev.pointer
  let button := to_int32 p.button
  let buttonname := env.event_code_get_name (p.button % 2 ^ 32)
  print_event_time env.start_time p.time ++
    [.str false 0 (match buttonname with | some n => n | none => "???"),
     .lit " (", .dec 0 button, .lit ") ",
     .str false 0 (if p.button_pressed then "pressed" else "released"),
     .lit ", seat count: ", .uns p.seat_button_count, .lit "\n"]

/-! ## Tablet tool events -/

/-- `print_tablet_tip_event`. -/
def print_tablet_tip_event (env : Env) (ev : libinput_event) : Out :=
  let p := ev.tablet_tool
  print_event_time env.start_time p.time ++
    [.str false 0 (if p.tip_down then "down" else "up"), .lit "\n"]

/-- `print_tablet_button_event`. -/
def print_tablet_button_event (env : Env) (ev : libinput_event) : Out :=
  let p := ev.tablet_tool
  print_event_time env.start_time p.time ++
    [.dec 3 (to_int32 p.button), .lit " ",
     .str false 0 (if p.button_pressed then "pressed" else "released"),
     .lit ", seat count: ", .uns p.seat_button_count, .lit "\n"]

/-- The `changed_sym` macro of `print_tablet_axes`. -/
def changed_sym (has_changed : Bool) : String :=
  if has_changed then "*" else ""

/-- The cast `(int)delta` of a `double`: truncation toward zero. -/
def double_to_int (d : double) : Int :=
  Int.tdiv d.num d.den

/-- `print_tablet_axes`: the shared axis block.  As in the source, `y` is read
with `libinput_event_tablet_tool_get_x`.  Each `if` of the source contributes
its pieces or nothing. -/
def print_tablet_axes (t : libinput_event_tablet_tool) : Out :=
  let tool := t.tool
  (let x := t.x
   let y := t.x
   [.lit "\t", .flt "%.2f" x, .str false 0 (changed_sym t.x_has_changed),
    .lit "/", .flt "%.2f" y, .str false 0 (changed_sym t.y_has_changed)]) ++
  (if tool.has_tilt then
    let x := t.tilt_x
    let y := t.tilt_y
    [.lit "\ttilt: ", .flt "%.2f" x, .str false 0 (changed_sym t.tilt_x_has_changed),
     .lit "/", .flt "%.2f" y, .str false 0 (changed_sym t.tilt_y_has_changed)]
   else []) ++
  (if tool.has_distance || tool.has_pressure then
    let dist := t.distance
    let pressure := t.pressure
    if dist ≠ 0 then
      [.lit "\tdistance: ", .flt "%.2f" dist,
       .str false 0 (changed_sym t.distance_has_changed)]
    else
      [.lit "\tpressure: ", .flt "%.2f" pressure,
       .str false 0 (changed_sym t.pressure_has_changed)]
   else []) ++
  (if tool.has_rotation then
    let rotation := t.rotation
    [.lit "\trotation: ", .flt "%.2f" rotation,
     .str false 0 (changed_sym t.rotation_has_changed)]
   else []) ++
  (if tool.has_slider then
    let slider := t.slider_position
    [.lit "\tslider: ", .flt "%.2f" slider,
     .str false 0 (changed_sym t.slider_has_changed)]
   else []) ++
  (if tool.has_wheel then
    let wheel := t.wheel_delta
    let delta := t.wheel_delta_discrete
    [.lit "\twheel: ", .flt "%.2f" wheel,
     .str false 0 (changed_sym t.wheel_has_changed),
     .lit " (", .dec 0 (double_to_int delta), .lit ")"]
   else [])

/-- `print_tablet_axis_event`. -/
def print_tablet_axis_event (env : Env) (ev : libinput_event) : Out :=
  let t := ev.tablet_tool
  print_event_time env.start_time t.time ++ print_tablet_axes t ++ [.lit "\n"]

/-- `print_touch_event_without_coords`. -/
def print_touch_event_without_coords (env : Env) (ev : libinput_event) : Out :=
  let t := ev.touch
  print_event_time env.start_time t.time ++ [.lit "\n"]

/-- Button codes of linux/input.h that `print_proximity_event` asks about. -/
def BTN_LEFT : Nat := 0x110
/-- Button code of linux/input.h. -/
def BTN_RIGHT : Nat := 0x111
/-- Button code of linux/input.h. -/
def BTN_MIDDLE : Nat := 0x112
/-- Button code of linux/input.h. -/
def BTN_SIDE : Nat := 0x113
/-- Button code of linux/input.h. -/
def BTN_EXTRA : Nat := 0x114
/-- Button code of linux/input.h. -/
def BTN_TOUCH : Nat := 0x14a
/-- Button code of linux/input.h. -/
def BTN_STYLUS : Nat := 0x14b
/-- Button code of linux/input.h. -/
def BTN_STYLUS2 : Nat := 0x14c

/-- The `printf` calls of `print_proximity_event` after the proximity state
was looked at: tool descriptor, `axes:` letters, `btn:` letters, newline. -/
def print_proximity_tail (tool : libinput_tablet_tool) (tool_str state_str : String) : Out :=
  [.lit "\t", .str false 0 tool_str, .lit " (", .hex tool.serial, .lit ", id ",
   .hex tool.tool_id, .lit ") ", .str false 0 state_str] ++
  [.lit "\taxes:"] ++
  (if tool.has_distance then [.lit "d"] else []) ++
  (if tool.has_pressure then [.lit "p"] else []) ++
  (if tool.has_tilt then [.lit "t"] else []) ++
  (if tool.has_rotation then [.lit "r"] else []) ++
  (if tool.has_slider then [.lit "s"] else []) ++
  (if tool.has_wheel then [.lit "w"] else []) ++
  [.lit "\tbtn:"] ++
  (if tool.has_button BTN_TOUCH then [.lit "T"] else []) ++
  (if tool.has_button BTN_STYLUS then [.lit "S"] else []) ++
  (if tool.has_button BTN_STYLUS2 then [.lit "S2"] else []) ++
  (if tool.has_button BTN_LEFT then [.lit "L"] else []) ++
  (if tool.has_button BTN_MIDDLE then [.lit "M"] else []) ++
  (if tool.has_button BTN_RIGHT then [.lit "R"] else []) ++
  (if tool.has_button BTN_SIDE then [.lit "Sd"] else []) ++
  (if tool.has_button BTN_EXTRA then [.lit "Ex"] else []) ++
  [.lit "\n"]

/-- `print_proximity_event`.  A tool type outside the seven enumerators aborts
before anything is written; a proximity state that is neither in nor out
aborts after the timestamp. -/
def print_proximity_event (env : Env) (ev : libinput_event) : Except Out Out := do
  let t := ev.tablet_tool
  let tool := t.tool
  let tool_str ← match tool.type with
    | .PEN => pure "pen"
    | .ERASER => pure "eraser"
    | .BRUSH => pure "brush"
    | .PENCIL => pure "pencil"
    | .AIRBRUSH => pure "airbrush"
    | .MOUSE => pure "mouse"
    | .LENS => pure "lens"
    | .invalid _ => throw []
  let state := t.proximity_state
  let mut out : Out := print_event_time env.start_time t.time
  let mut state_str := ""
  if state = .IN then
    out := out ++ print_tablet_axes t
    state_str := "proximity-in"
  else if state = .OUT then
    state_str := "proximity-out"
    out := out ++ [.lit "\t"]
  else
    throw out
  return out ++ print_proximity_tail tool tool_str state_str

/-! ## Touch and gesture events -/

/-- `print_touch_event_with_coords`. -/
def print_touch_event_with_coords (env : Env) (ev : libinput_event) : Out :=
  let t := ev.touch
  let x := t.x_transformed
  let y := t.y_transformed
  let xmm := t.x
  let ymm := t.y
  print_event_time env.start_time t.time ++
    [.dec 0 t.slot, .lit " (", .dec 0 t.seat_slot, .lit ") ",
     .flt "%5.2f" x, .lit "/", .flt "%5.2f" y, .lit " (",
     .flt "%5.2f" xmm, .lit "/", .flt "%5.2f" ymm, .lit "mm)\n"]

/-- `print_gesture_event_without_coords`. -/
def print_gesture_event_without_coords (env : Env) (ev : libinput_event) : Out := Id.run do
  let t := ev.gesture
  let finger_count := t.finger_count
  let mut cancelled : Int := 0
  let type := ev.type
  if type = .GESTURE_SWIPE_END ∨ type = .GESTURE_PINCH_END then
    cancelled := t.cancelled
  return print_event_time env.start_time t.time ++
    [.dec 0 finger_count, .str false 0 (if cancelled ≠ 0 then " cancelled" else ""),
     .lit "\n"]

/-- `print_gesture_event_with_coords`. -/
def print_gesture_event_with_coords (env : Env) (ev : libinput_event) : Out := Id.run do
  let t := ev.gesture
  let dx := t.dx
  let dy := t.dy
  let dx_unaccel := t.dx_unaccelerated
  let dy_unaccel := t.dy_unaccelerated
  let mut out : Out := print_event_time env.start_time t.time
  out := out ++
    [.dec 0 t.finger_count, .lit " ", .flt "%5.2f" dx, .lit "/", .flt "%5.2f" dy,
     .lit " (", .flt "%5.2f" dx_unaccel, .lit "/", .flt "%5.2f" dy_unaccel,
     .lit " unaccelerated)"]
  if ev.type = .GESTURE_PINCH_UPDATE then
    let scale := t.scale
    let angle := t.angle_delta
    out := out ++ [.lit " ", .flt "%5.2f" scale, .lit " @ ", .flt "%5.2f" angle, .lit "\n"]
  else
    out := out ++ [.lit "\n"]
  return out

/-! ## Tablet pad events -/

/-- `print_tablet_pad_button_event`. -/
def print_tablet_pad_button_event (env : Env) (ev : libinput_event) : Out :=
  let p := ev.tablet_pad
  print_event_time env.start_time p.time ++
    [.dec 3 (to_int32 p.button), .lit " ",
     .str false 0 (if p.button_pressed then "pressed" else "released"),
     .lit ", seat count: ", .uns p.seat_button_count, .lit "\n"]

/-- The switch over the ring or strip source, starting from `<invalid>`. -/
def pad_source_name : libinput_tablet_pad_source → String
  | .FINGER => "finger"
  | .UNKNOWN => "unknown"
  | .invalid _ => "<invalid>"

/-- `print_tablet_pad_ring_event`. -/
def print_tablet_pad_ring_event (env : Env) (ev : libinput_event) : Out :=
  let p := ev.tablet_pad
  let source := pad_source_name p.ring_source
  print_event_time env.start_time p.time ++
    [.lit "ring ", .dec 0 (to_int32 p.ring_number), .lit " position ",
     .flt "%.2f" p.ring_position, .lit " (source ", .str false 0 source, .lit ")\n"]

/-- `print_tablet_pad_strip_event`. -/
def print_tablet_pad_strip_event (env : Env) (ev : libinput_event) : Out :=
  let p := ev.tablet_pad
  let source := pad_source_name p.strip_source
  print_event_time env.start_time p.time ++
    [.lit "strip ", .dec 0 (to_int32 p.strip_number), .lit " position ",
     .flt "%.2f" p.strip_position, .lit " (source ", .str false 0 source, .lit ")\n"]

/-! ## `handle_and_print_events` -/

/-- The libinput context as the drain loop sees it: the queue
`libinput_get_event` pops from, and the batches of events that the coming
calls of `libinput_dispatch` will read from the devices. -/
structure libinput where
  queue : List libinput_event
  incoming : List (List libinput_event)

/-- `libinput_dispatch`: move what has arrived into the queue. -/
def libinput_dispatch (li : libinput) : libinput :=
  match li.incoming with
  | [] => li
  | batch :: later => { queue := li.queue ++ batch, incoming := later }

/-- What the drain loop does to the outside, in order. -/
inductive Effect where
  /-- the pieces one print function wrote to standard output -/
  | stdout (out : Out)
  /-- one call `tools_device_apply_config(device, options)` and the setter
  calls it made -/
  | apply_config (device : libinput_device) (options : tools_options)
      (calls : List config_call)

/-- The outcome of a drain: the effects in order, the return code (`none`
when the process aborted), the printer state and the libinput context. -/
structure drain_result where
  trace : List Effect
  rc : Option Int
  st : notify_state
  li : libinput

/-- The body of the `while` loop of `handle_and_print_events` for one event:
the header, then the switch over the tag.  `Except.error` is an abort, with
the effects up to it. -/
def handle_event (env : Env) (ev : libinput_event) (st : notify_state) :
    Except (List Effect) (List Effect × notify_state) :=
  match print_event_header ev with
  | .error out => .error [.stdout out]
  | .ok header =>
    let plain (out : Out) : Except (List Effect) (List Effect × notify_state) :=
      .ok ([.stdout header, .stdout out], st)
    match ev.type with
    | .NONE => .error [.stdout header]
    | .DEVICE_ADDED | .DEVICE_REMOVED =>
      let r := print_device_notify ev st
      .ok ([.stdout header, .stdout r.1,
            .apply_config ev.device env.options
              (tools_device_apply_config ev.device env.options)], r.2)
    | .KEYBOARD_KEY => plain (print_key_event env ev)
    | .POINTER_MOTION => plain (print_motion_event env ev)
    | .POINTER_MOTION_ABSOLUTE => plain (print_absmotion_event env ev)
    | .POINTER_BUTTON => plain (print_pointer_button_event env ev)
    | .POINTER_AXIS => plain (print_pointer_axis_event env ev)
    | .TOUCH_DOWN => plain (print_touch_event_with_coords env ev)
    | .TOUCH_MOTION => plain (print_touch_event_with_coords env ev)
    | .TOUCH_UP => plain (print_touch_event_without_coords env ev)
    | .TOUCH_CANCEL => plain (print_touch_event_without_coords env ev)
    | .TOUCH_FRAME => plain (print_touch_event_without_coords env ev)
    | .GESTURE_SWIPE_BEGIN => plain (print_gesture_event_without_coords env ev)
    | .GESTURE_SWIPE_UPDATE => plain (print_gesture_event_with_coords env ev)
    | .GESTURE_SWIPE_END => plain (print_gesture_event_without_coords env ev)
    | .GESTURE_PINCH_BEGIN => plain (print_gesture_event_without_coords env ev)
    | .GESTURE_PINCH_UPDATE => plain (print_gesture_event_with_coords env ev)
    | .GESTURE_PINCH_END => plain (print_gesture_event_without_coords env ev)
    | .TABLET_TOOL_AXIS => plain (print_tablet_axis_event env ev)
    | .TABLET_TOOL_PROXIMITY =>
      match print_proximity_event env ev with
      | .error out => .error [.stdout header, .stdout out]
      | .ok out => plain out
    | .TABLET_TOOL_TIP => plain (print_tablet_tip_event env ev)
    | .TABLET_TOOL_BUTTON => plain (print_tablet_button_event env ev)
    | .TABLET_PAD_BUTTON => plain (print_tablet_pad_button_event env ev)
    | .TABLET_PAD_RING => plain (print_tablet_pad_ring_event env ev)
    | .TABLET_PAD_STRIP => plain (print_tablet_pad_strip_event env ev)

/-- How much is left to drain: queued events, events still to arrive, and
dispatch calls that will bring something. -/
def libinput.remaining (li : libinput) : Nat :=
  li.queue.length + (li.incoming.map List.length).sum + li.incoming.length

/-- The `while ((ev = libinput_get_event(li)))` loop: `rc` is the value the
variable `rc` holds when the condition is evaluated. -/
def drain_loop (env : Env) (st : notify_state) (li : libinput) (rc : Int) : drain_result :=
  match li with
  | { queue := [], incoming := incoming } =>
    { trace := [], rc := some rc, st := st, li := { queue := [], incoming := incoming } }
  | { queue := ev :: q, incoming := incoming } =>
    match handle_event env ev st with
    | .error effects =>
      { trace := effects, rc := none, st := st, li := { queue := q, incoming := incoming } }
    | .ok (effects, st1) =>
      let r := drain_loop env st1 (libinput_dispatch { queue := q, incoming := incoming }) 0
      { r with trace := effects ++ r.trace }
termination_by li.remaining
decreasing_by
  cases incoming with
  | nil => simp [libinput_dispatch, libinput.remaining]
  | cons batch later =>
    simp [libinput_dispatch, libinput.remaining]
    omega

/-- `handle_and_print_events`: `rc = -1`, one `libinput_dispatch`, then the
loop. -/
def handle_and_print_events (env : Env) (st : notify_state) (li : libinput) : drain_result :=
  drain_loop env st (libinput_dispatch li) (-1)

/-! ## Concrete inputs -/

/-- Sign, integer part, point and two digits of the exact value `q`. -/
def fixed2 (plus : Bool) (q : double) : String :=
  let n := round_half_even (q.num.natAbs * 100) q.den
  let sign := if q.num < 0 then "-" else if plus then "+" else ""
  let frac := n % 100
  sign ++ toString (n / 100) ++ "." ++ (if frac < 10 then "0" else "") ++ toString frac

/-- A rendering of the four `%f` conversions the tool uses, taken on the exact
value; it instantiates `Env.printf_double` on concrete inputs. -/
def printf_double_ref (spec : String) (q : double) : String :=
  if spec = "%.2f" then fixed2 false q
  else if spec = "%6.2f" then pad false 6 (fixed2 false q)
  else if spec = "%5.2f" then pad false 5 (fixed2 false q)
  else if spec = "%+6.2f" then pad false 6 (fixed2 true q)
  else ""

/-- An environment for concrete inputs: the reference `%f` rendering, no key
names, start time 1000 ms and the options of `tools_init_context`. -/
def env0 : Env :=
  { printf_double := printf_double_ref
    event_code_get_name := fun _ => none
    start_time := 1000
    options := tools_init_context.options }

/-- A seat for concrete inputs. -/
def seat0 : libinput_seat :=
  { physical_name := "seat0", logical_name := "default" }

/-- A touchpad-like device for concrete inputs. -/
def dev0 : libinput_device :=
  { sysname := "event4", name := "Touchpad", seat := seat0, group := 7
    cap_keyboard := false, cap_pointer := true, cap_touch := false, cap_gesture := true
    cap_tablet_tool := false, cap_tablet_pad := false
    size := none, tap_finger_count := 3, tap_drag_lock_enabled := false
    left_handed_is_available := true, scroll_has_natural_scroll := true
    calibration_has_matrix := false, scroll_methods := 3, click_methods := 3
    dwt_is_available := true, dwt_enabled := true, accel_is_available := true }

/-- A pen with distance and pressure for concrete inputs. -/
def tool0 : libinput_tablet_tool :=
  { type := .PEN, serial := 0x1234, tool_id := 0x802
    has_distance := true, has_pressure := true, has_tilt := false
    has_rotation := false, has_slider := false, has_wheel := false
    buttons := [BTN_TOUCH, BTN_STYLUS] }

/-- An event for concrete inputs; every family of getters has plain values. -/
def ev0 : libinput_event :=
  { type := .POINTER_AXIS
    device := dev0
    keyboard := { time := 1500, key := 30, pressed := true }
    pointer :=
      { time := 2000, dx := 1, dy := 2, absolute_x_transformed := 10
        absolute_y_transformed := 20, button := 272, button_pressed := true
        seat_button_count := 1, has_axis_vertical := true, has_axis_horizontal := false
        axis_value_vertical := 15, axis_value_horizontal := 3 }
    touch :=
      { time := 2000, slot := 0, seat_slot := 0, x_transformed := 5, y_transformed := 6
        x := 50, y := 60 }
    gesture :=
      { time := 2500, finger_count := 3, cancelled := 1, dx := 1, dy := 1
        dx_unaccelerated := 2, dy_unaccelerated := 2, scale := 1, angle_delta := 0 }
    tablet_tool :=
      { time := 3000, tool := tool0, x := 11, y := 22, x_has_changed := true
        y_has_changed := false, tilt_x := 0, tilt_y := 0, tilt_x_has_changed := false
        tilt_y_has_changed := false, distance := 0, distance_has_changed := false
        pressure := 1, pressure_has_changed := true, rotation := 0
        rotation_has_changed := false, slider_position := 0, slider_has_changed := false
        wheel_delta := 0, wheel_delta_discrete := 0, wheel_has_changed := false
        proximity_state := .IN, tip_down := true, button := 331, button_pressed := true
        seat_button_count := 1 }
    tablet_pad :=
      { time := 3500, button := 2, button_pressed := false, seat_button_count := 0
        ring_source := .FINGER, ring_number := 0, ring_position := 90
        strip_source := .UNKNOWN, strip_number := 1, strip_position := 0 } }

/-! ## Device group labels -/

/-- Successive calls of `print_device_notify` on the events of a list: what
each call writes, the state being carried from one call to the next. -/
def run_device_notify : List libinput_event → notify_state → List Out
  | [], _ => []
  | ev :: rest, st =>
    let r := print_device_notify ev st
    r.1 :: run_device_notify rest r.2

/-- The distinct groups of a list in the order they are first seen, starting
from the groups `seen` so far. -/
def first_seen_from (seen : List Nat) : List Nat → List Nat
  | [] => seen
  | g :: gs => first_seen_from (if g ∈ seen then seen else seen ++ [g]) gs

/-- The distinct groups of a list in the order of their first sighting. -/
def first_seen (groups : List Nat) : List Nat :=
  first_seen_from [] groups

/-- The label the spec gives a group: `k` for the `k`-th distinct group seen,
counting from 1. -/
def group_label (groups : List Nat) (g : Nat) : Int :=
  ((first_seen groups).indexOf g : Nat) + 1

/-- The state after the groups `seen` were labelled in this order. -/
def labelled (seen : List Nat) (st : notify_state) : Prop :=
  st.next_group_id = seen.length ∧
  ∀ g, st.group_user_data g = if g ∈ seen then ((seen.indexOf g : Nat) : Int) + 1 else 0

/-! ## Reading the output -/

/-- The name `print_proximity_event` prints for a tool type of the enumeration. -/
def tool_type_str : libinput_tablet_tool_type → String
  | .PEN => "pen"
  | .ERASER => "eraser"
  | .BRUSH => "brush"
  | .PENCIL => "pencil"
  | .AIRBRUSH => "airbrush"
  | .MOUSE => "mouse"
  | .LENS => "lens"
  | .invalid _ => ""

/-- Whether a piece is a `%f` conversion, the only way a coordinate or axis
value is written. -/
def Piece.is_flt : Piece → Bool
  | .flt _ _ => true
  | _ => false

/-! ## Reading a drain -/

/-- Whether formatting the event completes: the tag is not the no-event tag,
and a proximity event has a tool type and a proximity state of their
enumerations. -/
def event_valid (ev : libinput_event) : Bool :=
  match ev.type with
  | .NONE => false
  | .TABLET_TOOL_PROXIMITY =>
    (match ev.tablet_tool.tool.type with
     | .invalid _ => false
     | _ => true) &&
    (match ev.tablet_tool.proximity_state with
     | .invalid _ => false
     | _ => true)
  | _ => true

/-- Whether the tag is one of the two device-notify tags. -/
def is_device_notify (ev : libinput_event) : Bool :=
  match ev.type with
  | .DEVICE_ADDED | .DEVICE_REMOVED => true
  | _ => false

/-- The effects of handling the events of a list one after the other, the
printer state being carried along; stops at the first abort. -/
def events_effects (env : Env) : List libinput_event → notify_state →
    List Effect × notify_state
  | [], st => ([], st)
  | ev :: rest, st =>
    match handle_event env ev st with
    | .error effects => (effects, st)
    | .ok (effects, st1) =>
      let r := events_effects env rest st1
      (effects ++ r.1, r.2)

/-- Everything written to standard output in a trace, in order. -/
def stdout_of : List Effect → Out
  | [] => []
  | .stdout out :: rest => out ++ stdout_of rest
  | .apply_config _ _ _ :: rest => stdout_of rest

/-- The line written for one event (header and renderer output) and the
printer state after it. -/
def event_line (env : Env) (ev : libinput_event) (st : notify_state) : Out × notify_state :=
  match handle_event env ev st with
  | .error effects => (stdout_of effects, st)
  | .ok (effects, st1) => (stdout_of effects, st1)

/-- The lines written for the events of a list, one per event. -/
def event_lines (env : Env) : List libinput_event → notify_state → List Out
  | [], _ => []
  | ev :: rest, st =>
    let r := event_line env ev st
    r.1 :: event_lines env rest r.2

/-- A trace with the text of every write left out: what remains is the order
of writes and of calls of the configuration applier, with their arguments. -/
def Effect.erase : Effect → Effect
  | .stdout _ => .stdout []
  | .apply_config device options calls => .apply_config device options calls

/-- Whether the last piece written is literal text ending in a newline. -/
def ends_in_newline (out : Out) : Bool :=
  match out.getLast? with
  | some (.lit s) => s.data.getLast? == some '\n'
  | _ => false

/-- The events `libinput_get_event` hands to the loop of
`handle_and_print_events` while nothing aborts: the head of the queue, then
whatever the queue holds after the next `libinput_dispatch`, until the queue
is found empty. -/
def handled_events (li : libinput) : List libinput_event :=
  match li with
  | { queue := [], incoming := _ } => []
  | { queue := ev :: q, incoming := incoming } =>
    ev :: handled_events (libinput_dispatch { queue := q, incoming := incoming })
termination_by li.remaining
decreasing_by
  cases incoming with
  | nil => simp [libinput_dispatch, libinput.remaining]
  | cons batch later =>
    simp [libinput_dispatch, libinput.remaining]
    omega

/-- A device-added event for concrete inputs. -/
def ev_added : libinput_event :=
  { ev0 with type := .DEVICE_ADDED }

/-- A key event for concrete inputs. -/
def ev_key : libinput_event :=
  { ev0 with type := .KEYBOARD_KEY }

/-- A context with one device-added and one key event queued, and nothing
arriving. -/
def li0 : libinput :=
  { queue := [ev_added, ev_key], incoming := [] }

/-- Whether the output holds the field that starts with the literal `label`. -/
def has_field (label : String) (out : Out) : Prop :=
  Piece.lit label ∈ out

/-- A proximity event of a pen whose proximity state is outside the
enumeration. -/
def ev_bad_state : libinput_event :=
  { ev0 with
    type := .TABLET_TOOL_PROXIMITY
    tablet_tool := { ev0.tablet_tool with proximity_state := .invalid 2 } }

/-! ## `tools_parse_args` -/

/-- The values of `enum options` in `shared.c`. -/
inductive options where
  | OPT_DEVICE
  | OPT_UDEV
  | OPT_GRAB
  | OPT_HELP
  | OPT_VERBOSE
  | OPT_TAP_ENABLE
  | OPT_TAP_DISABLE
  | OPT_TAP_MAP
  | OPT_DRAG_ENABLE
  | OPT_DRAG_DISABLE
  | OPT_DRAG_LOCK_ENABLE
  | OPT_DRAG_LOCK_DISABLE
  | OPT_NATURAL_SCROLL_ENABLE
  | OPT_NATURAL_SCROLL_DISABLE
  | OPT_LEFT_HANDED_ENABLE
  | OPT_LEFT_HANDED_DISABLE
  | OPT_MIDDLEBUTTON_ENABLE
  | OPT_MIDDLEBUTTON_DISABLE
  | OPT_DWT_ENABLE
  | OPT_DWT_DISABLE
  | OPT_CLICK_METHOD
  | OPT_SCROLL_METHOD
  | OPT_SCROLL_BUTTON
  | OPT_SPEED
  | OPT_PROFILE
  | OPT_SHOW_KEYCODES
  | OPT_QUIET
  deriving DecidableEq

/-- What one call of `getopt_long(argc, argv, "h", opts, ..)` can return
before it returns -1: the character `h`, the character `?`, or the `val` of a
long option. -/
inductive getopt_c where
  | h
  | question
  | long (val : options)
  deriving DecidableEq

/-- One return of `getopt_long` with the `optarg` it leaves (`none` is NULL). -/
structure getopt_return where
  c : getopt_c
  optarg : Option String
  deriving DecidableEq

/-- What `tools_parse_args` prints: the usage text of `tools_usage`, or the
line `Invalid button <name>` on standard error. -/
inductive parse_print where
  | usage
  | invalid_button (name : String)
  deriving DecidableEq

/-- How `tools_parse_args` ends: `return rc` or `exit(status)`. -/
inductive parse_end where
  | returned (rc : Int)
  | exited (status : Int)
  deriving DecidableEq

/-- The outcome of `tools_parse_args`: what was printed, how it ended, and the
options as it left them. -/
structure parse_result where
  printed : List parse_print
  finish : parse_end
  options : tools_options
  deriving DecidableEq

/-- Library functions `tools_parse_args` calls on option values. -/
structure ParseEnv where
  /-- `libevdev_event_code_from_name(EV_KEY, name)`, -1 for an unknown name -/
  event_code_from_name : String → Int
  /-- `atof` -/
  atof : String → double

/-- Value of `enum libinput_config_tap_button_map` in libinput.h. -/
def LIBINPUT_CONFIG_TAP_MAP_LRM : Int := 0
/-- Value of `enum libinput_config_tap_button_map`. -/
def LIBINPUT_CONFIG_TAP_MAP_LMR : Int := 1
/-- Value of `enum libinput_config_dwt_state` in libinput.h. -/
def LIBINPUT_CONFIG_DWT_DISABLED : Int := 0
/-- Value of `enum libinput_config_dwt_state`. -/
def LIBINPUT_CONFIG_DWT_ENABLED : Int := 1
/-- Value of `enum libinput_config_accel_profile` in libinput.h. -/
def LIBINPUT_CONFIG_ACCEL_PROFILE_FLAT : Int := 1
/-- Value of `enum libinput_config_accel_profile`. -/
def LIBINPUT_CONFIG_ACCEL_PROFILE_ADAPTIVE : Int := 2

/-- The body of the `while (1)` loop of `tools_parse_args` over the returns of
`getopt_long` that are still to come; `leftover` is `optind < argc` at the
time `getopt_long` returns -1. -/
def tools_parse_args_loop (penv : ParseEnv) :
    List getopt_return → Bool → tools_options → parse_result
  | [], leftover, options =>
    if leftover then
      { printed := [.usage], finish := .returned 1, options := options }
    else
      { printed := [], finish := .returned 0, options := options }
  | r :: rest, leftover, options =>
    let optarg := r.optarg
    let usage_fail (options : tools_options) : parse_result :=
      { printed := [.usage], finish := .returned 1, options := options }
    let continue_with (options : tools_options) : parse_result :=
      tools_parse_args_loop penv rest leftover options
    match r.c with
    | .h | .long .OPT_HELP =>
      { printed := [.usage], finish := .exited 0, options := options }
    | .long .OPT_DEVICE =>
      let options := { options with backend := .BACKEND_DEVICE }
      match optarg with
      | none => usage_fail options
      | some a => continue_with { options with device := some a }
    | .long .OPT_UDEV =>
      let options := { options with backend := .BACKEND_UDEV }
      match optarg with
      | some a => continue_with { options with seat := a }
      | none => continue_with options
    | .long .OPT_GRAB => continue_with { options with grab := 1 }
    | .long .OPT_VERBOSE => continue_with { options with verbose := 1 }
    | .long .OPT_TAP_ENABLE => continue_with { options with tapping := 1 }
    | .long .OPT_TAP_DISABLE => continue_with { options with tapping := 0 }
    | .long .OPT_TAP_MAP =>
      match optarg with
      | none => usage_fail options
      | some a =>
        if a = "lrm" then
          continue_with { options with tap_map := LIBINPUT_CONFIG_TAP_MAP_LRM }
        else if a = "lmr" then
          continue_with { options with tap_map := LIBINPUT_CONFIG_TAP_MAP_LMR }
        else usage_fail options
    | .long .OPT_DRAG_ENABLE => continue_with { options with drag := 1 }
    | .long .OPT_DRAG_DISABLE => continue_with { options with drag := 0 }
    | .long .OPT_DRAG_LOCK_ENABLE => continue_with { options with drag_lock := 1 }
    | .long .OPT_DRAG_LOCK_DISABLE => continue_with { options with drag_lock := 0 }
    | .long .OPT_NATURAL_SCROLL_ENABLE => continue_with { options with natural_scroll := 1 }
    | .long .OPT_NATURAL_SCROLL_DISABLE => continue_with { options with natural_scroll := 0 }
    | .long .OPT_LEFT_HANDED_ENABLE => continue_with { options with left_handed := 1 }
    | .long .OPT_LEFT_HANDED_DISABLE => continue_with { options with left_handed := 0 }
    | .long .OPT_MIDDLEBUTTON_ENABLE => continue_with { options with middlebutton := 1 }
    | .long .OPT_MIDDLEBUTTON_DISABLE => continue_with { options with middlebutton := 0 }
    | .long .OPT_DWT_ENABLE =>
      continue_with { options with dwt := LIBINPUT_CONFIG_DWT_ENABLED }
    | .long .OPT_DWT_DISABLE =>
      continue_with { options with dwt := LIBINPUT_CONFIG_DWT_DISABLED }
    | .long .OPT_CLICK_METHOD =>
      match optarg with
      | none => usage_fail options
      | some a =>
        if a = "none" then
          continue_with { options with click_method := LIBINPUT_CONFIG_CLICK_METHOD_NONE }
        else if a = "clickfinger" then
          continue_with
            { options with click_method := LIBINPUT_CONFIG_CLICK_METHOD_CLICKFINGER }
        else if a = "buttonareas" then
          continue_with
            { options with click_method := LIBINPUT_CONFIG_CLICK_METHOD_BUTTON_AREAS }
        else usage_fail options
    | .long .OPT_SCROLL_METHOD =>
      match optarg with
      | none => usage_fail options
      | some a =>
        if a = "none" then
          continue_with { options with scroll_method := LIBINPUT_CONFIG_SCROLL_NO_SCROLL }
        else if a = "twofinger" then
          continue_with { options with scroll_method := LIBINPUT_CONFIG_SCROLL_2FG }
        else if a = "edge" then
          continue_with { options with scroll_method := LIBINPUT_CONFIG_SCROLL_EDGE }
        else if a = "button" then
          continue_with
            { options with scroll_method := LIBINPUT_CONFIG_SCROLL_ON_BUTTON_DOWN }
        else usage_fail options
    | .long .OPT_SCROLL_BUTTON =>
      match optarg with
      | none => usage_fail options
      | some a =>
        let options := { options with scroll_button := penv.event_code_from_name a }
        if options.scroll_button = -1 then
          { printed := [.invalid_button a], finish := .returned 1, options := options }
        else continue_with options
    | .long .OPT_SPEED =>
      match optarg with
      | none => usage_fail options
      | some a => continue_with { options with speed := penv.atof a }
    | .long .OPT_PROFILE =>
      match optarg with
      | none => usage_fail options
      | some a =>
        if a = "adaptive" then
          continue_with { options with profile := LIBINPUT_CONFIG_ACCEL_PROFILE_ADAPTIVE }
        else if a = "flat" then
          continue_with { options with profile := LIBINPUT_CONFIG_ACCEL_PROFILE_FLAT }
        else usage_fail options
    | .long .OPT_SHOW_KEYCODES => continue_with { options with show_keycodes := true }
    | .long .OPT_QUIET => continue_with { options with quiet := 1 }
    | .question => usage_fail options

/-- The `has_arg` values used in the option table. -/
inductive has_arg where
  | no_argument
  | required_argument
  deriving DecidableEq

/-- One row of the `struct option` table (`flag` is 0 in every row). -/
structure long_option where
  name : String
  has_arg : has_arg
  val : options
  deriving DecidableEq

/-- The table `opts` of `tools_parse_args`. -/
def opts : List long_option :=
  [ { name := "device", has_arg := .required_argument, val := .OPT_DEVICE },
    { name := "udev", has_arg := .no_argument, val := .OPT_UDEV },
    { name := "grab", has_arg := .no_argument, val := .OPT_GRAB },
    { name := "help", has_arg := .no_argument, val := .OPT_HELP },
    { name := "verbose", has_arg := .no_argument, val := .OPT_VERBOSE },
    { name := "quiet", has_arg := .no_argument, val := .OPT_QUIET },
    { name := "enable-tap", has_arg := .no_argument, val := .OPT_TAP_ENABLE },
    { name := "disable-tap", has_arg := .no_argument, val := .OPT_TAP_DISABLE },
    { name := "enable-drag", has_arg := .no_argument, val := .OPT_DRAG_ENABLE },
    { name := "disable-drag", has_arg := .no_argument, val := .OPT_DRAG_DISABLE },
    { name := "enable-drag-lock", has_arg := .no_argument, val := .OPT_DRAG_LOCK_ENABLE },
    { name := "disable-drag-lock", has_arg := .no_argument, val := .OPT_DRAG_LOCK_DISABLE },
    { name := "enable-natural-scrolling", has_arg := .no_argument,
      val := .OPT_NATURAL_SCROLL_ENABLE },
    { name := "disable-natural-scrolling", has_arg := .no_argument,
      val := .OPT_NATURAL_SCROLL_DISABLE },
    { name := "enable-left-handed", has_arg := .no_argument, val := .OPT_LEFT_HANDED_ENABLE },
    { name := "disable-left-handed", has_arg := .no_argument,
      val := .OPT_LEFT_HANDED_DISABLE },
    { name := "enable-middlebutton", has_arg := .no_argument,
      val := .OPT_MIDDLEBUTTON_ENABLE },
    { name := "disable-middlebutton", has_arg := .no_argument,
      val := .OPT_MIDDLEBUTTON_DISABLE },
    { name := "enable-dwt", has_arg := .no_argument, val := .OPT_DWT_ENABLE },
    { name := "disable-dwt", has_arg := .no_argument, val := .OPT_DWT_DISABLE },
    { name := "set-click-method", has_arg := .required_argument, val := .OPT_CLICK_METHOD },
    { name := "set-scroll-method", has_arg := .required_argument, val := .OPT_SCROLL_METHOD },
    { name := "set-scroll-button", has_arg := .required_argument, val := .OPT_SCROLL_BUTTON },
    { name := "set-profile", has_arg := .required_argument, val := .OPT_PROFILE },
    { name := "set-tap-map", has_arg := .required_argument, val := .OPT_TAP_MAP },
    { name := "set-speed", has_arg := .required_argument, val := .OPT_SPEED },
    { name := "show-keycodes", has_arg := .no_argument, val := .OPT_SHOW_KEYCODES } ]

/-- The returns of `getopt_long` over a whole argument vector, and whether a
non-option argument is left over (`optind < argc`) when it returns -1. -/
structure getopt_run where
  returns : List getopt_return
  leftover : Bool
  deriving DecidableEq

/-- The long option a name given on the command line stands for, after
getopt(3): the row with exactly this name, else the only row the name is an
abbreviation of; `none` when no row or more than one row fits. -/
def find_long_option (table : List long_option) (name : List Char) : Option long_option :=
  match table.find? (fun o => o.name.data = name) with
  | some o => some o
  | none =>
    match table.filter (fun o => name.isPrefixOf o.name.data) with
    | [o] => some o
    | _ => none

/-- The returns `getopt_long` makes for one argument that starts with a single
dash: one per character, `h` for the character of the option string, `?` for
any other. -/
def getopt_short (chars : List Char) : List getopt_return :=
  chars.map (fun ch => if ch = 'h' then { c := .h, optarg := none }
    else { c := .question, optarg := none })

/-- The C library's `getopt_long(argc, argv, "h", opts, ..)` called until it
returns -1, after getopt(3), on the arguments behind `argv[0]`: `--` ends the
options; `--name`, `--name=value` and `--name value` are looked up in the
table, a missing or unexpected value and an unknown or ambiguous name giving
`?`; `-xyz` is a run of short options; anything else is a non-option, which is
skipped and left over. -/
def getopt_scan (table : List long_option) : List String → getopt_run
  | [] => { returns := [], leftover := false }
  | arg :: rest =>
    match arg.data with
    | ['-', '-'] => { returns := [], leftover := !rest.isEmpty }
    | '-' :: '-' :: long =>
      let name := long.takeWhile (fun ch => ch ≠ '=')
      let value : Option String :=
        if '=' ∈ long then some (String.mk (long.dropWhile (fun ch => ch ≠ '=')).tail)
        else none
      let question (r : getopt_run) : getopt_run :=
        { r with returns := { c := .question, optarg := none } :: r.returns }
      match find_long_option table name with
      | none => question (getopt_scan table rest)
      | some o =>
        match o.has_arg, value with
        | .no_argument, none =>
          let r := getopt_scan table rest
          { r with returns := { c := .long o.val, optarg := none } :: r.returns }
        | .no_argument, some _ => question (getopt_scan table rest)
        | .required_argument, some v =>
          let r := getopt_scan table rest
          { r with returns := { c := .long o.val, optarg := some v } :: r.returns }
        | .required_argument, none =>
          match rest with
          | [] => question { returns := [], leftover := false }
          | v :: rest1 =>
            let r := getopt_scan table rest1
            { r with returns := { c := .long o.val, optarg := some v } :: r.returns }
    | '-' :: ch :: chars =>
      let r := getopt_scan table rest
      { r with returns := getopt_short (ch :: chars) ++ r.returns }
    | _ =>
      let r := getopt_scan table rest
      { r with leftover := true }

/-- `tools_parse_args(command, argc, argv, context)`: the loop over the returns
of `getopt_long`, starting from the options the context holds. -/
def tools_parse_args (penv : ParseEnv) (argv : List String) (options : tools_options) :
    parse_result :=
  let run := getopt_scan opts (argv.drop 1)
  tools_parse_args_loop penv run.returns run.leftover options

/-- Library functions for concrete inputs: three button names are known, and
`atof` is taken on text that holds no number. -/
def penv0 : ParseEnv :=
  { event_code_from_name := fun name =>
      if name = "BTN_LEFT" then 272 else if name = "BTN_RIGHT" then 273
      else if name = "BTN_MIDDLE" then 274 else -1
    atof := fun _ => 0 }

/-- Whether a return of `getopt_long` is the help flag, `-h` or `--help`. -/
def is_help (r : getopt_return) : Bool :=
  r.c = .h || r.c = .long .OPT_HELP

/-- Whether a return of `getopt_long` is an error of the command line that the
usage text answers: `?` (an unknown or ambiguous flag, a missing or unexpected
value), a value-taking flag left without value, or a value that is not one of
the words its flag lists, for `--set-tap-map`, `--set-click-method`,
`--set-scroll-method` and `--set-profile`. -/
def is_malformed (r : getopt_return) : Bool :=
  match r.c, r.optarg with
  | .question, _ => true
  | .long .OPT_TAP_MAP, some a => !(a = "lrm" || a = "lmr")
  | .long .OPT_CLICK_METHOD, some a => !(a = "none" || a = "clickfinger" || a = "buttonareas")
  | .long .OPT_SCROLL_METHOD, some a =>
    !(a = "none" || a = "twofinger" || a = "edge" || a = "button")
  | .long .OPT_PROFILE, some a => !(a = "adaptive" || a = "flat")
  | .long .OPT_DEVICE, none => true
  | .long .OPT_TAP_MAP, none => true
  | .long .OPT_CLICK_METHOD, none => true
  | .long .OPT_SCROLL_METHOD, none => true
  | .long .OPT_SCROLL_BUTTON, none => true
  | .long .OPT_SPEED, none => true
  | .long .OPT_PROFILE, none => true
  | _, _ => false

/-- Whether a return of `getopt_long` is `--set-scroll-button` with a name
libevdev does not know. -/
def is_bad_button (penv : ParseEnv) (r : getopt_return) : Bool :=
  match r.c, r.optarg with
  | .long .OPT_SCROLL_BUTTON, some a => penv.event_code_from_name a = -1
  | _, _ => false

/-- Whether the loop goes on to the next return after this one. -/
def passes (penv : ParseEnv) (r : getopt_return) : Bool :=
  !is_help r && !is_malformed r && !is_bad_button penv r

/-! ## `sighandler` and `mainloop` -/

/-- What the outside does in one turn of `while (!stop && poll(..) > -1)`
once `poll` has been entered: an interrupt is delivered while `poll` blocks,
so that `sighandler` sets `stop` and `poll` returns -1; `poll` fails for
another reason; or `poll` returns a non-negative value, `sigint` telling
whether an interrupt is delivered while the following drain runs. -/
inductive poll_round where
  | interrupted
  | failed
  | ready (sigint : Bool)
  deriving DecidableEq

/-- How the loop of `mainloop` ends: the loop condition finds `stop` set;
`poll` was interrupted; `poll` failed; the process aborted inside a drain; or
the rounds given are used up and the loop is blocked in `poll`. -/
inductive loop_end where
  | stopped
  | interrupted
  | poll_failed
  | aborted
  | blocked
  deriving DecidableEq

/-- The loop `while (!stop && poll(&fds, 1, -1) > -1) handle_and_print_events(li)`:
the outcome of every call of `handle_and_print_events`, in order, and how the
loop ends.  `stop` is the flag as the loop condition reads it. -/
def mainloop_loop (env : Env) :
    List poll_round → Bool → notify_state → libinput → List drain_result × loop_end
  | _, true, _, _ => ([], .stopped)
  | [], false, _, _ => ([], .blocked)
  | .interrupted :: _, false, _, _ => ([], .interrupted)
  | .failed :: _, false, _, _ => ([], .poll_failed)
  | .ready sigint :: rest, false, st, li =>
    let r := handle_and_print_events env st li
    match r.rc with
    | none => ([r], .aborted)
    | some _ =>
      let stop := sigint
      let tail := mainloop_loop env rest stop r.st r.li
      (r :: tail.1, tail.2)

/-- What `mainloop` does: `none` when `sigaction` fails (an error message and
return); else whether the warning about missing device-added events was
printed, the outcome of every call of `handle_and_print_events`, and how the
loop ended.  `sigint` tells whether an interrupt is delivered during the
first drain. -/
def mainloop (env : Env) (sigaction_ok : Bool) (sigint : Bool) (rounds : List poll_round)
    (st : notify_state) (li : libinput) : Option (Bool × List drain_result × loop_end) :=
  if !sigaction_ok then none
  else
    let r := handle_and_print_events env st li
    match r.rc with
    | none => some (false, [r], .aborted)
    | some rc =>
      let warned := rc ≠ 0
      let tail := mainloop_loop env rounds sigint r.st r.li
      some (warned, r :: tail.1, tail.2)

/-- Whether a round is a `poll` that returned a non-negative value. -/
def poll_round.is_ready : poll_round → Bool
  | .ready _ => true
  | _ => false

/-- A device-added event of another device group for concrete inputs. -/
def ev_other : libinput_event :=
  { ev_added with device := { dev0 with group := 9 } }

/-! ## Lines -/

/-- The text holds no newline character. -/
def no_newline (s : String) : Prop :=
  '\n' ∉ s.data

/-- The text is exactly one line: it ends with a newline character and holds
no other newline. -/
def one_line (s : String) : Prop :=
  s.data.getLast? = some '\n' ∧ '\n' ∉ s.data.dropLast

/-- The strings the library hands to the printer for this event hold no
newline: sysname, device name, the two seat names, and every key or button
name. -/
def strings_clean (env : Env) (ev : libinput_event) : Prop :=
  no_newline ev.device.sysname ∧ no_newline ev.device.name ∧
  no_newline ev.device.seat.physical_name ∧ no_newline ev.device.seat.logical_name ∧
  ∀ code name, env.event_code_get_name code = some name → no_newline name

/-- The pieces are those of one line: every piece but the last is written
without a newline, and the last is literal text that is one line. -/
def line_shaped (f : String → double → String) (out : Out) : Prop :=
  (∀ p ∈ out.dropLast, no_newline (p.render f)) ∧
  ∃ s, out.getLast? = some (.lit s) ∧ one_line s

/-- The text a piece carries holds no newline: the literal of a `lit`, the
string of a `str`; the conversions of numbers carry no text of their own. -/
def Piece.text_clean : Piece → Prop
  | .lit s => no_newline s
  | .str _ _ v => no_newline v
  | _ => True

/-- Every piece of the list is written without a newline. -/
def all_clean (f : String → double → String) (out : Out) : Prop :=
  ∀ p ∈ out, no_newline (p.render f)

/-! ## The dispatch table of the spec -/

/-- The kind-specific renderers, one name per function of `event-debug.c`. -/
inductive renderer_kind where
  | device_notify
  | key
  | motion
  | absmotion
  | pointer_button
  | pointer_axis
  | touch_with_coords
  | touch_without_coords
  | gesture_without_coords
  | gesture_with_coords
  | tablet_axis
  | proximity
  | tablet_tip
  | tablet_button
  | tablet_pad_button
  | tablet_pad_ring
  | tablet_pad_strip
  deriving DecidableEq

/-- The table of the spec: the renderer assigned to each of the 25 valid tags;
the no-event tag has none. -/
def table_kind : libinput_event_type → Option renderer_kind
  | .NONE => none
  | .DEVICE_ADDED => some .device_notify
  | .DEVICE_REMOVED => some .device_notify
  | .KEYBOARD_KEY => some .key
  | .POINTER_MOTION => some .motion
  | .POINTER_MOTION_ABSOLUTE => some .absmotion
  | .POINTER_BUTTON => some .pointer_button
  | .POINTER_AXIS => some .pointer_axis
  | .TOUCH_DOWN => some .touch_with_coords
  | .TOUCH_MOTION => some .touch_with_coords
  | .TOUCH_UP => some .touch_without_coords
  | .TOUCH_CANCEL => some .touch_without_coords
  | .TOUCH_FRAME => some .touch_without_coords
  | .GESTURE_SWIPE_BEGIN => some .gesture_without_coords
  | .GESTURE_SWIPE_END => some .gesture_without_coords
  | .GESTURE_PINCH_BEGIN => some .gesture_without_coords
  | .GESTURE_PINCH_END => some .gesture_without_coords
  | .GESTURE_SWIPE_UPDATE => some .gesture_with_coords
  | .GESTURE_PINCH_UPDATE => some .gesture_with_coords
  | .TABLET_TOOL_AXIS => some .tablet_axis
  | .TABLET_TOOL_PROXIMITY => some .proximity
  | .TABLET_TOOL_TIP => some .tablet_tip
  | .TABLET_TOOL_BUTTON => some .tablet_button
  | .TABLET_PAD_BUTTON => some .tablet_pad_button
  | .TABLET_PAD_RING => some .tablet_pad_ring
  | .TABLET_PAD_STRIP => some .tablet_pad_strip

/-- Running the renderer of a kind on an event: what it writes and the printer
state after it, `Except.error` when it aborts. -/
def run_renderer (env : Env) (ev : libinput_event) (st : notify_state) :
    renderer_kind → Except Out (Out × notify_state)
  | .device_notify => .ok (print_device_notify ev st)
  | .key => .ok (print_key_event env ev, st)
  | .motion => .ok (print_motion_event env ev, st)
  | .absmotion => .ok (print_absmotion_event env ev, st)
  | .pointer_button => .ok (print_pointer_button_event env ev, st)
  | .pointer_axis => .ok (print_pointer_axis_event env ev, st)
  | .touch_with_coords => .ok (print_touch_event_with_coords env ev, st)
  | .touch_without_coords => .ok (print_touch_event_without_coords env ev, st)
  | .gesture_without_coords => .ok (print_gesture_event_without_coords env ev, st)
  | .gesture_with_coords => .ok (print_gesture_event_with_coords env ev, st)
  | .tablet_axis => .ok (print_tablet_axis_event env ev, st)
  | .proximity =>
    match print_proximity_event env ev with
    | .ok out => .ok (out, st)
    | .error out => .error out
  | .tablet_tip => .ok (print_tablet_tip_event env ev, st)
  | .tablet_button => .ok (print_tablet_button_event env ev, st)
  | .tablet_pad_button => .ok (print_tablet_pad_button_event env ev, st)
  | .tablet_pad_ring => .ok (print_tablet_pad_ring_event env ev, st)
  | .tablet_pad_strip => .ok (print_tablet_pad_strip_event env ev, st)

/-- The kind name of a tag: the name of its enumerator without the prefix
`LIBINPUT_EVENT_`; the no-event tag has none. -/
def kind_name : libinput_event_type → String
  | .NONE => ""
  | .DEVICE_ADDED => "DEVICE_ADDED"
  | .DEVICE_REMOVED => "DEVICE_REMOVED"
  | .KEYBOARD_KEY => "KEYBOARD_KEY"
  | .POINTER_MOTION => "POINTER_MOTION"
  | .POINTER_MOTION_ABSOLUTE => "POINTER_MOTION_ABSOLUTE"
  | .POINTER_BUTTON => "POINTER_BUTTON"
  | .POINTER_AXIS => "POINTER_AXIS"
  | .TOUCH_DOWN => "TOUCH_DOWN"
  | .TOUCH_MOTION => "TOUCH_MOTION"
  | .TOUCH_UP => "TOUCH_UP"
  | .TOUCH_CANCEL => "TOUCH_CANCEL"
  | .TOUCH_FRAME => "TOUCH_FRAME"
  | .GESTURE_SWIPE_BEGIN => "GESTURE_SWIPE_BEGIN"
  | .GESTURE_SWIPE_UPDATE => "GESTURE_SWIPE_UPDATE"
  | .GESTURE_SWIPE_END => "GESTURE_SWIPE_END"
  | .GESTURE_PINCH_BEGIN => "GESTURE_PINCH_BEGIN"
  | .GESTURE_PINCH_UPDATE => "GESTURE_PINCH_UPDATE"
  | .GESTURE_PINCH_END => "GESTURE_PINCH_END"
  | .TABLET_TOOL_AXIS => "TABLET_TOOL_AXIS"
  | .TABLET_TOOL_PROXIMITY => "TABLET_TOOL_PROXIMITY"
  | .TABLET_TOOL_TIP => "TABLET_TOOL_TIP"
  | .TABLET_TOOL_BUTTON => "TABLET_TOOL_BUTTON"
  | .TABLET_PAD_BUTTON => "TABLET_PAD_BUTTON"
  | .TABLET_PAD_RING => "TABLET_PAD_RING"
  | .TABLET_PAD_STRIP => "TABLET_PAD_STRIP"

/-- The pieces of the header of an event with a valid tag. -/
def header_of (ev : libinput_event) : Out :=
  [.str true 7 ev.device.sysname, .lit "\t", .str true 16 (kind_name ev.type), .lit " "]

/-- The time field of the event's own family of getters: the keyboard time for
a key event, the pointer time for a pointer event, and so on; device-notify
events have no time field. -/
def own_time (ev : libinput_event) : Nat :=
  match ev.type with
  | .NONE | .DEVICE_ADDED | .DEVICE_REMOVED => 0
  | .KEYBOARD_KEY => ev.keyboard.time
  | .POINTER_MOTION | .POINTER_MOTION_ABSOLUTE | .POINTER_BUTTON | .POINTER_AXIS =>
    ev.pointer.time
  | .TOUCH_DOWN | .TOUCH_UP | .TOUCH_MOTION | .TOUCH_CANCEL | .TOUCH_FRAME => ev.touch.time
  | .GESTURE_SWIPE_BEGIN | .GESTURE_SWIPE_UPDATE | .GESTURE_SWIPE_END
  | .GESTURE_PINCH_BEGIN | .GESTURE_PINCH_UPDATE | .GESTURE_PINCH_END => ev.gesture.time
  | .TABLET_TOOL_AXIS | .TABLET_TOOL_PROXIMITY | .TABLET_TOOL_TIP | .TABLET_TOOL_BUTTON =>
    ev.tablet_tool.time
  | .TABLET_PAD_BUTTON | .TABLET_PAD_RING | .TABLET_PAD_STRIP => ev.tablet_pad.time

/-- Whether a piece is the `%+6.2f` conversion, which only `print_event_time`
uses. -/
def Piece.is_time : Piece → Bool
  | .flt spec _ => spec = "%+6.2f"
  | _ => false

/-! ## Capability letters -/

/-- The letters `print_device_notify` writes after ` cap:`, one `if` of the
source per letter. -/
def cap_letters (dev : libinput_device) : Out :=
  (if dev.cap_keyboard then [.lit "k"] else []) ++
  (if dev.cap_pointer then [.lit "p"] else []) ++
  (if dev.cap_touch then [.lit "t"] else []) ++
  (if dev.cap_gesture then [.lit "g"] else []) ++
  (if dev.cap_tablet_tool then [.lit "T"] else []) ++
  (if dev.cap_tablet_pad then [.lit "P"] else [])

/-- The letters `print_proximity_event` writes after `axes:`. -/
def axes_letters (tool : libinput_tablet_tool) : Out :=
  (if tool.has_distance then [.lit "d"] else []) ++
  (if tool.has_pressure then [.lit "p"] else []) ++
  (if tool.has_tilt then [.lit "t"] else []) ++
  (if tool.has_rotation then [.lit "r"] else []) ++
  (if tool.has_slider then [.lit "s"] else []) ++
  (if tool.has_wheel then [.lit "w"] else [])

/-- The letters written after `btn:` for the answers of
`libinput_tablet_tool_has_button` on BTN_TOUCH, BTN_STYLUS, BTN_STYLUS2,
BTN_LEFT, BTN_MIDDLE, BTN_RIGHT, BTN_SIDE and BTN_EXTRA, in this order. -/
def btn_letters_of (touch stylus stylus2 left middle right side extra : Bool) : Out :=
  (if touch then [.lit "T"] else []) ++
  (if stylus then [.lit "S"] else []) ++
  (if stylus2 then [.lit "S2"] else []) ++
  (if left then [.lit "L"] else []) ++
  (if middle then [.lit "M"] else []) ++
  (if right then [.lit "R"] else []) ++
  (if side then [.lit "Sd"] else []) ++
  (if extra then [.lit "Ex"] else [])

/-- The letters `print_proximity_event` writes after `btn:`. -/
def btn_letters (tool : libinput_tablet_tool) : Out :=
  btn_letters_of (tool.has_button BTN_TOUCH) (tool.has_button BTN_STYLUS)
    (tool.has_button BTN_STYLUS2) (tool.has_button BTN_LEFT) (tool.has_button BTN_MIDDLE)
    (tool.has_button BTN_RIGHT) (tool.has_button BTN_SIDE) (tool.has_button BTN_EXTRA)

/-- A touchpad whose disable-while-typing is available and switched off. -/
def dev_dwt_off : libinput_device :=
  { dev0 with dwt_is_available := true, dwt_enabled := false }

/-- Reads the eight button answers back from the text written after `btn:`:
`S` occurs once for each of `S`, `S2` and `Sd`, the other characters belong
to one letter group each. -/
def btn_decode (s : String) : List Bool :=
  let cs := s.data
  [cs.contains 'T', decide (cs.count '2' + cs.count 'd' < cs.count 'S'), cs.contains '2',
   cs.contains 'L', cs.contains 'M', cs.contains 'R', cs.contains 'd', cs.contains 'E']

/-- Reads six one-letter answers back from a letter string. -/
def letters_decode (a b c d e g : Char) (s : String) : List Bool :=
  let cs := s.data
  [cs.contains a, cs.contains b, cs.contains c, cs.contains d, cs.contains e, cs.contains g]

/-- The output starts with a literal whose first character is a tab, a blank
or the newline. -/
def starts_blank (out : Out) : Prop :=
  ∃ s rest, out = .lit s :: rest ∧
    (s.data.head? = some '\t' ∨ s.data.head? = some ' ' ∨ s.data.head? = some '\n')

/-- A proximity event whose tool type is outside the enumeration. -/
def ev_bad_tool : libinput_event :=
  { ev0 with
    type := .TABLET_TOOL_PROXIMITY
    tablet_tool := { ev0.tablet_tool with tool := { tool0 with type := .invalid 99 } } }

/-! ## Theorems -/

/-- Writing two lists of pieces one after the other concatenates their text. -/
theorem render_append (f : String → double → String) (a b : Out) :
    render f (a ++ b) = render f a ++ render f b := by
  induction a with
  | nil => simp [render]
  | cons p ps ih => simp [render, ih, String.append_assoc]

/-- A conversion without a width prints its argument unchanged. -/
theorem pad_zero (left : Bool) (s : String) : pad left 0 s = s := by
  cases left <;> simp [pad]

/-- C1: `print_pointer_axis_event` passes to each of the two `%.2f` conversions
the axis value of the event when that axis is present and 0 otherwise, and to
the following `%s` a star when the axis is present and the empty string
otherwise, the two axes being decided independently; with a C library that
prints zero as `0.00`, the text after the timestamp is `vert <v>* ` or
`vert 0.00` followed by ` horiz <h>*` or ` horiz 0.00` and a newline. -/
theorem print_pointer_axis_event_presence (env : Env) (ev : libinput_event)
    (h0 : env.printf_double "%.2f" 0 = "0.00") :
    print_pointer_axis_event env ev =
      print_event_time env.start_time ev.pointer.time ++
        [.lit "vert ",
         .flt "%.2f" (if ev.pointer.has_axis_vertical then ev.pointer.axis_value_vertical else 0),
         .str false 0 (if ev.pointer.has_axis_vertical then "*" else ""),
         .lit " horiz ",
         .flt "%.2f"
           (if ev.pointer.has_axis_horizontal then ev.pointer.axis_value_horizontal else 0),
         .str false 0 (if ev.pointer.has_axis_horizontal then "*" else ""),
         .lit "\n"] ∧
    render env.printf_double (print_pointer_axis_event env ev) =
      render env.printf_double (print_event_time env.start_time ev.pointer.time) ++
        ("vert " ++
          (if ev.pointer.has_axis_vertical then
            env.printf_double "%.2f" ev.pointer.axis_value_vertical ++ "*" else "0.00") ++
         " horiz " ++
          (if ev.pointer.has_axis_horizontal then
            env.printf_double "%.2f" ev.pointer.axis_value_horizontal ++ "*" else "0.00") ++
         "\n") := by
  have hp : print_pointer_axis_event env ev =
      print_event_time env.start_time ev.pointer.time ++
        [.lit "vert ",
         .flt "%.2f" (if ev.pointer.has_axis_vertical then ev.pointer.axis_value_vertical else 0),
         .str false 0 (if ev.pointer.has_axis_vertical then "*" else ""),
         .lit " horiz ",
         .flt "%.2f"
           (if ev.pointer.has_axis_horizontal then ev.pointer.axis_value_horizontal else 0),
         .str false 0 (if ev.pointer.has_axis_horizontal then "*" else ""),
         .lit "\n"] := by
    cases hv : ev.pointer.has_axis_vertical <;> cases hh : ev.pointer.has_axis_horizontal <;>
      simp [print_pointer_axis_event, hv, hh, Id.run]
  refine ⟨hp, ?_⟩
  rw [hp, render_append]
  cases hv : ev.pointer.has_axis_vertical <;> cases hh : ev.pointer.has_axis_horizontal <;>
    simp [render, Piece.render, pad_zero, h0, String.append_assoc, -String.reduceAppend]

/-- The hypothesis of C1 holds for the reference rendering, and on an event
with only the vertical axis present the star is on the vertical axis alone. -/
theorem print_pointer_axis_event_presence_witness :
    env0.printf_double "%.2f" 0 = "0.00" ∧
    print_pointer_axis_event env0 ev0 =
      print_event_time 1000 2000 ++
        [.lit "vert ", .flt "%.2f" 15, .str false 0 "*",
         .lit " horiz ", .flt "%.2f" 0, .str false 0 "", .lit "\n"] :=
  ⟨by decide, (print_pointer_axis_event_presence env0 ev0 (by decide)).1⟩

/-! ### Device group labels -/

/-- The groups seen so far stay at the front, in the same order. -/
theorem first_seen_from_prefix (seen gs : List Nat) :
    ∃ t, first_seen_from seen gs = seen ++ t := by
  induction gs generalizing seen with
  | nil => exact ⟨[], by simp [first_seen_from]⟩
  | cons g gs ih =>
    by_cases hg : g ∈ seen
    · simpa [first_seen_from, hg] using ih seen
    · obtain ⟨t, ht⟩ := ih (seen ++ [g])
      exact ⟨g :: t, by simp [first_seen_from, hg, ht]⟩

/-- A group already seen keeps its position. -/
theorem indexOf_first_seen_from (seen gs : List Nat) (g : Nat) (hg : g ∈ seen) :
    (first_seen_from seen gs).indexOf g = seen.indexOf g := by
  obtain ⟨t, ht⟩ := first_seen_from_prefix seen gs
  rw [ht, List.indexOf_append_of_mem hg]

/-- No group is listed twice. -/
theorem first_seen_from_nodup (seen gs : List Nat) (h : seen.Nodup) :
    (first_seen_from seen gs).Nodup := by
  induction gs generalizing seen with
  | nil => simpa [first_seen_from] using h
  | cons g gs ih =>
    by_cases hg : g ∈ seen
    · simpa [first_seen_from, hg] using ih seen h
    · have : (seen ++ [g]).Nodup := by
        rw [List.nodup_append]
        refine ⟨h, List.nodup_singleton g, ?_⟩
        intro a ha hb
        simp at hb
        exact hg (hb ▸ ha)
      simpa [first_seen_from, hg] using ih (seen ++ [g]) this

/-- Exactly the groups seen are listed. -/
theorem mem_first_seen_from (seen gs : List Nat) (g : Nat) :
    g ∈ first_seen_from seen gs ↔ g ∈ seen ∨ g ∈ gs := by
  induction gs generalizing seen with
  | nil => simp [first_seen_from]
  | cons x gs ih =>
    by_cases hx : x ∈ seen
    · simp only [first_seen_from, hx, if_true, ih, List.mem_cons]
      constructor
      · rintro (h | h)
        · exact Or.inl h
        · exact Or.inr (Or.inr h)
      · rintro (h | h | h)
        · exact Or.inl h
        · exact Or.inl (h ▸ hx)
        · exact Or.inr h
    · simp only [first_seen_from, hx, if_false, ih, List.mem_cons, List.mem_append,
        List.mem_singleton]
      tauto

/-- Labelling from a state that has labelled `seen`: every call prints the line
with the position of the event's group among the groups first seen. -/
theorem run_device_notify_labelled (evs : List libinput_event) (seen : List Nat)
    (st : notify_state) (h : labelled seen st) :
    run_device_notify evs st =
      evs.map (fun ev => print_device_notify_line ev.device
        (((first_seen_from seen (evs.map (fun e => e.device.group))).indexOf
          ev.device.group : Nat) + 1)) := by
  induction evs generalizing seen st with
  | nil => simp [run_device_notify]
  | cons ev rest ih =>
    obtain ⟨hn, hu⟩ := h
    by_cases hg : ev.device.group ∈ seen
    · have hne : st.group_user_data ev.device.group ≠ 0 := by
        rw [hu, if_pos hg]; omega
      have hl : lookup_group_id ev.device.group st =
          (((seen.indexOf ev.device.group : Nat) : Int) + 1, st) := by
        have hv := hu ev.device.group
        rw [if_pos hg] at hv
        rw [hv] at hne
        simp only [lookup_group_id, hv, if_neg hne]
      simp only [run_device_notify, print_device_notify, hl, List.map_cons, first_seen_from,
        if_pos hg]
      rw [ih seen st ⟨hn, hu⟩, indexOf_first_seen_from _ _ _ hg]
    · have hz : st.group_user_data ev.device.group = 0 := by
        rw [hu, if_neg hg]
      have hl : lookup_group_id ev.device.group st =
          ((seen.length : Int) + 1,
           { next_group_id := (seen.length : Int) + 1
             group_user_data :=
               Function.update st.group_user_data ev.device.group ((seen.length : Int) + 1) }) := by
        simp [lookup_group_id, hz, hn]
      have hnew : labelled (seen ++ [ev.device.group])
          { next_group_id := (seen.length : Int) + 1
            group_user_data :=
              Function.update st.group_user_data ev.device.group ((seen.length : Int) + 1) } := by
        refine ⟨by simp, ?_⟩
        intro g
        by_cases hgg : g = ev.device.group
        · subst hgg
          simp [List.indexOf_append_of_not_mem hg]
        · have hgs : g ∈ seen ++ [ev.device.group] ↔ g ∈ seen := by simp [hgg]
          simp only [Function.update_noteq hgg, hu, hgs]
          by_cases hm : g ∈ seen
          · simp [hm, List.indexOf_append_of_mem hm]
          · simp [hm]
      have hidx : (first_seen_from (seen ++ [ev.device.group])
          (rest.map (fun e => e.device.group))).indexOf ev.device.group = seen.length := by
        rw [indexOf_first_seen_from _ _ _ (by simp), List.indexOf_append_of_not_mem hg]
        simp
      simp only [run_device_notify, print_device_notify, hl, List.map_cons, first_seen_from,
        if_neg hg]
      rw [ih _ _ hnew, hidx]

/-- C2: from the initial state (counter 0, no group has user data), the calls
of `print_device_notify` on any sequence of device-notify events print, for
every event, the device line carrying the label of its group, where the label
of a group is its position (counted from 1) among the distinct groups in order
of first sighting: so every sighting of a group prints the same label,
different groups print different labels, and the `k`-th distinct group seen
gets the label `k`. -/
theorem device_group_labels (evs : List libinput_event) :
    run_device_notify evs notify_state.initial =
      evs.map (fun ev => print_device_notify_line ev.device
        (group_label (evs.map (fun e => e.device.group)) ev.device.group)) ∧
    (∀ g1 ∈ evs.map (fun e => e.device.group), ∀ g2 ∈ evs.map (fun e => e.device.group),
      group_label (evs.map (fun e => e.device.group)) g1 =
        group_label (evs.map (fun e => e.device.group)) g2 → g1 = g2) ∧
    (∀ (k : Nat) (h : k < (first_seen (evs.map (fun e => e.device.group))).length),
      group_label (evs.map (fun e => e.device.group))
        ((first_seen (evs.map (fun e => e.device.group)))[k]) = (k : Int) + 1) ∧
    (first_seen (evs.map (fun e => e.device.group))).Nodup ∧
    (∀ g, g ∈ first_seen (evs.map (fun e => e.device.group)) ↔
      g ∈ evs.map (fun e => e.device.group)) := by
  have hmem : ∀ g, g ∈ first_seen (evs.map (fun e => e.device.group)) ↔
      g ∈ evs.map (fun e => e.device.group) := by
    intro g
    simp [first_seen, mem_first_seen_from]
  have hnd : (first_seen (evs.map (fun e => e.device.group))).Nodup :=
    first_seen_from_nodup [] _ List.nodup_nil
  refine ⟨?_, ?_, ?_, hnd, hmem⟩
  · have h0 : labelled [] notify_state.initial := by
      simp [labelled, notify_state.initial]
    simpa [group_label, first_seen] using run_device_notify_labelled evs [] _ h0
  · intro g1 h1 g2 h2 h
    have h' : (first_seen (evs.map (fun e => e.device.group))).indexOf g1 =
        (first_seen (evs.map (fun e => e.device.group))).indexOf g2 := by
      simp only [group_label] at h
      omega
    exact (List.indexOf_inj ((hmem g1).2 h1) ((hmem g2).2 h2)).1 h'
  · intro k h
    simp only [group_label]
    rw [List.indexOf_getElem hnd k h]

/-- Three device-notify events, the first and third of the same group: the
labels printed are 1, 2, 1. -/
theorem device_group_labels_witness :
    run_device_notify
        [ev0, { ev0 with device := { dev0 with group := 9 } }, ev0] notify_state.initial =
      [print_device_notify_line dev0 1,
       print_device_notify_line { dev0 with group := 9 } 2,
       print_device_notify_line dev0 1] := by
  rw [(device_group_labels _).1]
  decide

/-! ### Tablet tool proximity -/

/-- What `print_proximity_event` writes for a tool type of the enumeration:
with state IN the timestamp, the axis block and the descriptor; with state OUT
the timestamp, a tab and the descriptor. -/
theorem print_proximity_event_eq (env : Env) (ev : libinput_event)
    (htype : ∀ raw, ev.tablet_tool.tool.type ≠ .invalid raw) :
    (ev.tablet_tool.proximity_state = .IN →
      print_proximity_event env ev =
        .ok (print_event_time env.start_time ev.tablet_tool.time ++
          print_tablet_axes ev.tablet_tool ++
          print_proximity_tail ev.tablet_tool.tool
            (tool_type_str ev.tablet_tool.tool.type) "proximity-in")) ∧
    (ev.tablet_tool.proximity_state = .OUT →
      print_proximity_event env ev =
        .ok (print_event_time env.start_time ev.tablet_tool.time ++
          ([.lit "\t"] ++
          print_proximity_tail ev.tablet_tool.tool
            (tool_type_str ev.tablet_tool.tool.type) "proximity-out"))) := by
  refine ⟨?_, ?_⟩
  · intro hin
    cases ht : ev.tablet_tool.tool.type <;>
      first
      | exact absurd ht (htype _)
      | simp [print_proximity_event, ht, hin, tool_type_str, bind, Except.bind, pure,
          Except.pure]
  · intro hout
    cases ht : ev.tablet_tool.tool.type <;>
      first
      | exact absurd ht (htype _)
      | simp [print_proximity_event, ht, hout, tool_type_str, bind, Except.bind, pure,
          Except.pure]

/-- C3: for a proximity event whose tool type is one of the seven enumerators,
`print_proximity_event` completes; with state IN it writes the timestamp, then
the whole output of `print_tablet_axes` for the event, then the tool
descriptor; with state OUT it writes the timestamp, a tab and the tool
descriptor, and nothing after the timestamp is a `%f` conversion, so no axis
value is written whatever the tool's capabilities. -/
theorem print_proximity_event_axis_block (env : Env) (ev : libinput_event)
    (htype : ∀ raw, ev.tablet_tool.tool.type ≠ .invalid raw) :
    (ev.tablet_tool.proximity_state = .IN →
      print_proximity_event env ev =
        .ok (print_event_time env.start_time ev.tablet_tool.time ++
          print_tablet_axes ev.tablet_tool ++
          print_proximity_tail ev.tablet_tool.tool
            (tool_type_str ev.tablet_tool.tool.type) "proximity-in")) ∧
    (ev.tablet_tool.proximity_state = .OUT →
      print_proximity_event env ev =
        .ok (print_event_time env.start_time ev.tablet_tool.time ++
          ([.lit "\t"] ++
          print_proximity_tail ev.tablet_tool.tool
            (tool_type_str ev.tablet_tool.tool.type) "proximity-out")) ∧
      ∀ p ∈ ([.lit "\t"] ++ print_proximity_tail ev.tablet_tool.tool
            (tool_type_str ev.tablet_tool.tool.type) "proximity-out" : Out),
        p.is_flt = false) := by
  refine ⟨(print_proximity_event_eq env ev htype).1, ?_⟩
  · intro hout
    refine ⟨(print_proximity_event_eq env ev htype).2 hout, ?_⟩
    · intro p hp
      have hall : List.all ([.lit "\t"] ++ print_proximity_tail ev.tablet_tool.tool
          (tool_type_str ev.tablet_tool.tool.type) "proximity-out" : Out)
          (fun q => !q.is_flt) = true := by
        simp only [print_proximity_tail, List.all_append, Bool.and_eq_true]
        repeat' constructor
        all_goals first | rfl | (split <;> rfl)
      have := List.all_eq_true.1 hall p hp
      simpa using this

/-- A pen coming into proximity: the hypothesis of C3 holds and the axis block
stands between the timestamp and the descriptor. -/
theorem print_proximity_event_axis_block_witness :
    (∀ raw, ev0.tablet_tool.tool.type ≠ .invalid raw) ∧
    print_proximity_event env0 ev0 =
      .ok (print_event_time 1000 3000 ++ print_tablet_axes ev0.tablet_tool ++
        print_proximity_tail tool0 "pen" "proximity-in") :=
  ⟨fun _ h => (by cases h),
   (print_proximity_event_axis_block env0 ev0 (fun _ h => (by cases h))).1 rfl⟩

/-! ### Relative timestamps -/

/-- With nothing arriving, `libinput_dispatch` leaves the queue as it is. -/
theorem libinput_dispatch_quiet (q : List libinput_event) (inc : List (List libinput_event))
    (h : ∀ b ∈ inc, b = []) :
    libinput_dispatch { queue := q, incoming := inc } = { queue := q, incoming := inc.tail } := by
  cases inc with
  | nil => simp [libinput_dispatch]
  | cons b later =>
    have : b = [] := h b (by simp)
    simp [libinput_dispatch, this]

/-- A proximity event with a tool type and a state of their enumerations is
printed to the end. -/
theorem print_proximity_event_ok (env : Env) (ev : libinput_event)
    (htype : (match ev.tablet_tool.tool.type with
      | .invalid _ => false
      | _ => true) = true)
    (hstate : (match ev.tablet_tool.proximity_state with
      | .invalid _ => false
      | _ => true) = true) :
    ∃ out, print_proximity_event env ev = .ok out := by
  cases ht : ev.tablet_tool.tool.type <;> simp [ht] at htype <;>
    cases hs : ev.tablet_tool.proximity_state <;> simp [hs] at hstate <;>
    exact ⟨_, by
      simp [print_proximity_event, ht, hs, bind, Except.bind, pure, Except.pure]
      rfl⟩

/-- Handling a valid event completes: the header is written, then the output
of one renderer, then the applier is called if and only if the tag is a
device-notify tag. -/
theorem handle_event_valid (env : Env) (ev : libinput_event) (st : notify_state)
    (hv : event_valid ev = true) :
    ∃ r, handle_event env ev st = .ok r ∧
      r.1.map Effect.erase =
        .stdout [] :: .stdout [] ::
          (if is_device_notify ev = true then
            [.apply_config ev.device env.options
              (tools_device_apply_config ev.device env.options)]
           else []) := by
  cases ht : ev.type
  case NONE => simp [event_valid, ht] at hv
  case TABLET_TOOL_PROXIMITY =>
    simp only [event_valid, ht, Bool.and_eq_true] at hv
    obtain ⟨out, hout⟩ := print_proximity_event_ok env ev hv.1 hv.2
    simp [handle_event, print_event_header, ht, hout, is_device_notify, Effect.erase, bind,
      Except.bind, pure, Except.pure]
  all_goals
    simp [handle_event, print_event_header, ht, is_device_notify, Effect.erase, bind,
      Except.bind, pure, Except.pure]

/-- A drain of valid events with nothing arriving: every queued event is
handled in order, the queue ends empty, and `rc` is 0 as soon as one event
was handled. -/
theorem drain_loop_quiet (env : Env) (evs : List libinput_event) (st : notify_state)
    (inc : List (List libinput_event)) (rc : Int)
    (hin : ∀ b ∈ inc, b = []) (hv : ∀ ev ∈ evs, event_valid ev = true) :
    (drain_loop env st { queue := evs, incoming := inc } rc).trace =
      (events_effects env evs st).1 ∧
    (drain_loop env st { queue := evs, incoming := inc } rc).st =
      (events_effects env evs st).2 ∧
    (drain_loop env st { queue := evs, incoming := inc } rc).rc =
      some (if evs = [] then rc else 0) ∧
    (drain_loop env st { queue := evs, incoming := inc } rc).li.queue = [] := by
  induction evs generalizing st inc rc with
  | nil =>
    rw [drain_loop]
    simp [events_effects]
  | cons ev rest ih =>
    obtain ⟨r, hr, -⟩ := handle_event_valid env ev st (hv ev (by simp))
    have hin1 : ∀ b ∈ inc.tail, b = [] := fun b hb => hin b (List.mem_of_mem_tail hb)
    have hv1 : ∀ e ∈ rest, event_valid e = true := fun e he => hv e (by simp [he])
    obtain ⟨h1, h2, h3, h4⟩ := ih r.2 inc.tail 0 hin1 hv1
    rw [drain_loop]
    simp only [hr, libinput_dispatch_quiet rest inc hin, events_effects, h1, h2, h3, h4]
    simp

/-- What ends a list of pieces ends every list it is appended to. -/
theorem ends_in_newline_append (a b : Out) (h : ends_in_newline b = true) :
    ends_in_newline (a ++ b) = true := by
  unfold ends_in_newline at h ⊢
  rw [List.getLast?_append]
  cases hb : b.getLast? with
  | none => simp [hb] at h
  | some p => simpa [hb] using h

/-- The output of `print_key_event` ends in a newline. -/
theorem print_key_event_newline (env : Env) (ev : libinput_event) :
    ends_in_newline (print_key_event env ev) = true :=
  ends_in_newline_append _ _ rfl

/-- The output of `print_motion_event` ends in a newline. -/
theorem print_motion_event_newline (env : Env) (ev : libinput_event) :
    ends_in_newline (print_motion_event env ev) = true :=
  ends_in_newline_append _ _ rfl

/-- The output of `print_absmotion_event` ends in a newline. -/
theorem print_absmotion_event_newline (env : Env) (ev : libinput_event) :
    ends_in_newline (print_absmotion_event env ev) = true :=
  ends_in_newline_append _ _ rfl

/-- The output of `print_pointer_button_event` ends in a newline. -/
theorem print_pointer_button_event_newline (env : Env) (ev : libinput_event) :
    ends_in_newline (print_pointer_button_event env ev) = true :=
  ends_in_newline_append _ _ rfl

/-- The output of `print_touch_event_with_coords` ends in a newline. -/
theorem print_touch_event_with_coords_newline (env : Env) (ev : libinput_event) :
    ends_in_newline (print_touch_event_with_coords env ev) = true :=
  ends_in_newline_append _ _ rfl

/-- The output of `print_touch_event_without_coords` ends in a newline. -/
theorem print_touch_event_without_coords_newline (env : Env) (ev : libinput_event) :
    ends_in_newline (print_touch_event_without_coords env ev) = true :=
  ends_in_newline_append _ _ rfl

/-- The output of `print_tablet_tip_event` ends in a newline. -/
theorem print_tablet_tip_event_newline (env : Env) (ev : libinput_event) :
    ends_in_newline (print_tablet_tip_event env ev) = true :=
  ends_in_newline_append _ _ rfl

/-- The output of `print_tablet_button_event` ends in a newline. -/
theorem print_tablet_button_event_newline (env : Env) (ev : libinput_event) :
    ends_in_newline (print_tablet_button_event env ev) = true :=
  ends_in_newline_append _ _ rfl

/-- The output of `print_tablet_pad_button_event` ends in a newline. -/
theorem print_tablet_pad_button_event_newline (env : Env) (ev : libinput_event) :
    ends_in_newline (print_tablet_pad_button_event env ev) = true :=
  ends_in_newline_append _ _ rfl

/-- The output of `print_tablet_pad_ring_event` ends in a newline. -/
theorem print_tablet_pad_ring_event_newline (env : Env) (ev : libinput_event) :
    ends_in_newline (print_tablet_pad_ring_event env ev) = true :=
  ends_in_newline_append _ _ rfl

/-- The output of `print_tablet_pad_strip_event` ends in a newline. -/
theorem print_tablet_pad_strip_event_newline (env : Env) (ev : libinput_event) :
    ends_in_newline (print_tablet_pad_strip_event env ev) = true :=
  ends_in_newline_append _ _ rfl

/-- The output of `print_pointer_axis_event` ends in a newline. -/
theorem print_pointer_axis_event_newline (env : Env) (ev : libinput_event) :
    ends_in_newline (print_pointer_axis_event env ev) = true := by
  cases hv : ev.pointer.has_axis_vertical <;> cases hh : ev.pointer.has_axis_horizontal <;>
    simp only [print_pointer_axis_event, hv, hh, Id.run] <;>
    exact ends_in_newline_append _ _ rfl

/-- The output of `print_gesture_event_without_coords` ends in a newline. -/
theorem print_gesture_event_without_coords_newline (env : Env) (ev : libinput_event) :
    ends_in_newline (print_gesture_event_without_coords env ev) = true := by
  simp only [print_gesture_event_without_coords, Id.run, pure, bind]
  split_ifs <;> exact ends_in_newline_append _ _ rfl

/-- The output of `print_gesture_event_with_coords` ends in a newline. -/
theorem print_gesture_event_with_coords_newline (env : Env) (ev : libinput_event) :
    ends_in_newline (print_gesture_event_with_coords env ev) = true := by
  simp only [print_gesture_event_with_coords, Id.run, pure, bind]
  split_ifs <;> exact ends_in_newline_append _ _ rfl

/-- The output of `print_tablet_axis_event` ends in a newline. -/
theorem print_tablet_axis_event_newline (env : Env) (ev : libinput_event) :
    ends_in_newline (print_tablet_axis_event env ev) = true :=
  ends_in_newline_append _ _ rfl

/-- The device line ends in a newline. -/
theorem print_device_notify_newline (ev : libinput_event) (st : notify_state) :
    ends_in_newline (print_device_notify ev st).1 = true := by
  simp only [print_device_notify, print_device_notify_line]
  exact ends_in_newline_append _ _ rfl

/-- The output of a completed `print_proximity_event` ends in a newline. -/
theorem print_proximity_event_newline (env : Env) (ev : libinput_event) (out : Out)
    (h : print_proximity_event env ev = .ok out) : ends_in_newline out = true := by
  have htail : ∀ tool a b, ends_in_newline (print_proximity_tail tool a b) = true := by
    intro tool a b
    simp only [print_proximity_tail]
    exact ends_in_newline_append _ _ rfl
  have htype : ∀ raw, ev.tablet_tool.tool.type ≠ .invalid raw := by
    intro raw ht
    simp [print_proximity_event, ht, bind, Except.bind] at h
  cases hs : ev.tablet_tool.proximity_state with
  | IN =>
    rw [(print_proximity_event_eq env ev htype).1 hs] at h
    injection h with h
    subst h
    exact ends_in_newline_append
      (print_event_time env.start_time ev.tablet_tool.time ++ print_tablet_axes ev.tablet_tool)
      (print_proximity_tail ev.tablet_tool.tool (tool_type_str ev.tablet_tool.tool.type)
        "proximity-in") (htail _ _ _)
  | OUT =>
    rw [(print_proximity_event_eq env ev htype).2 hs] at h
    injection h with h
    subst h
    apply ends_in_newline_append
    apply ends_in_newline_append
    exact htail _ _ _
  | invalid raw =>
    cases ht : ev.tablet_tool.tool.type <;>
      simp [print_proximity_event, ht, hs, bind, Except.bind, pure, Except.pure] at h

/-- The line of a valid event ends in a newline. -/
theorem event_line_ends_in_newline (env : Env) (ev : libinput_event) (st : notify_state)
    (hv : event_valid ev = true) :
    ends_in_newline (event_line env ev st).1 = true := by
  cases ht : ev.type
  case NONE => simp [event_valid, ht] at hv
  case TABLET_TOOL_PROXIMITY =>
    simp only [event_valid, ht, Bool.and_eq_true] at hv
    obtain ⟨out, hout⟩ := print_proximity_event_ok env ev hv.1 hv.2
    simp only [event_line, handle_event, print_event_header, ht, hout, bind, Except.bind, pure,
      Except.pure, stdout_of, List.append_nil]
    exact ends_in_newline_append _ _ (print_proximity_event_newline env ev out hout)
  case DEVICE_ADDED =>
    simp only [event_line, handle_event, print_event_header, ht, bind, Except.bind, pure,
      Except.pure, stdout_of, List.append_nil]
    exact ends_in_newline_append _ _ (print_device_notify_newline ev st)
  case DEVICE_REMOVED =>
    simp only [event_line, handle_event, print_event_header, ht, bind, Except.bind, pure,
      Except.pure, stdout_of, List.append_nil]
    exact ends_in_newline_append _ _ (print_device_notify_newline ev st)
  case KEYBOARD_KEY =>
    simp only [event_line, handle_event, print_event_header, ht, bind, Except.bind, pure,
      Except.pure, stdout_of, List.append_nil]
    exact ends_in_newline_append _ _ (print_key_event_newline env ev)
  case POINTER_MOTION =>
    simp only [event_line, handle_event, print_event_header, ht, bind, Except.bind, pure,
      Except.pure, stdout_of, List.append_nil]
    exact ends_in_newline_append _ _ (print_motion_event_newline env ev)
  case POINTER_MOTION_ABSOLUTE =>
    simp only [event_line, handle_event, print_event_header, ht, bind, Except.bind, pure,
      Except.pure, stdout_of, List.append_nil]
    exact ends_in_newline_append _ _ (print_absmotion_event_newline env ev)
  case POINTER_BUTTON =>
    simp only [event_line, handle_event, print_event_header, ht, bind, Except.bind, pure,
      Except.pure, stdout_of, List.append_nil]
    exact ends_in_newline_append _ _ (print_pointer_button_event_newline env ev)
  case POINTER_AXIS =>
    simp only [event_line, handle_event, print_event_header, ht, bind, Except.bind, pure,
      Except.pure, stdout_of, List.append_nil]
    exact ends_in_newline_append _ _ (print_pointer_axis_event_newline env ev)
  case TOUCH_DOWN =>
    simp only [event_line, handle_event, print_event_header, ht, bind, Except.bind, pure,
      Except.pure, stdout_of, List.append_nil]
    exact ends_in_newline_append _ _ (print_touch_event_with_coords_newline env ev)
  case TOUCH_MOTION =>
    simp only [event_line, handle_event, print_event_header, ht, bind, Except.bind, pure,
      Except.pure, stdout_of, List.append_nil]
    exact ends_in_newline_append _ _ (print_touch_event_with_coords_newline env ev)
  case TOUCH_UP =>
    simp only [event_line, handle_event, print_event_header, ht, bind, Except.bind, pure,
      Except.pure, stdout_of, List.append_nil]
    exact ends_in_newline_append _ _ (print_touch_event_without_coords_newline env ev)
  case TOUCH_CANCEL =>
    simp only [event_line, handle_event, print_event_header, ht, bind, Except.bind, pure,
      Except.pure, stdout_of, List.append_nil]
    exact ends_in_newline_append _ _ (print_touch_event_without_coords_newline env ev)
  case TOUCH_FRAME =>
    simp only [event_line, handle_event, print_event_header, ht, bind, Except.bind, pure,
      Except.pure, stdout_of, List.append_nil]
    exact ends_in_newline_append _ _ (print_touch_event_without_coords_newline env ev)
  case GESTURE_SWIPE_BEGIN =>
    simp only [event_line, handle_event, print_event_header, ht, bind, Except.bind, pure,
      Except.pure, stdout_of, List.append_nil]
    exact ends_in_newline_append _ _ (print_gesture_event_without_coords_newline env ev)
  case GESTURE_SWIPE_UPDATE =>
    simp only [event_line, handle_event, print_event_header, ht, bind, Except.bind, pure,
      Except.pure, stdout_of, List.append_nil]
    exact ends_in_newline_append _ _ (print_gesture_event_with_coords_newline env ev)
  case GESTURE_SWIPE_END =>
    simp only [event_line, handle_event, print_event_header, ht, bind, Except.bind, pure,
      Except.pure, stdout_of, List.append_nil]
    exact ends_in_newline_append _ _ (print_gesture_event_without_coords_newline env ev)
  case GESTURE_PINCH_BEGIN =>
    simp only [event_line, handle_event, print_event_header, ht, bind, Except.bind, pure,
      Except.pure, stdout_of, List.append_nil]
    exact ends_in_newline_append _ _ (print_gesture_event_without_coords_newline env ev)
  case GESTURE_PINCH_UPDATE =>
    simp only [event_line, handle_event, print_event_header, ht, bind, Except.bind, pure,
      Except.pure, stdout_of, List.append_nil]
    exact ends_in_newline_append _ _ (print_gesture_event_with_coords_newline env ev)
  case GESTURE_PINCH_END =>
    simp only [event_line, handle_event, print_event_header, ht, bind, Except.bind, pure,
      Except.pure, stdout_of, List.append_nil]
    exact ends_in_newline_append _ _ (print_gesture_event_without_coords_newline env ev)
  case TABLET_TOOL_AXIS =>
    simp only [event_line, handle_event, print_event_header, ht, bind, Except.bind, pure,
      Except.pure, stdout_of, List.append_nil]
    exact ends_in_newline_append _ _ (print_tablet_axis_event_newline env ev)
  case TABLET_TOOL_TIP =>
    simp only [event_line, handle_event, print_event_header, ht, bind, Except.bind, pure,
      Except.pure, stdout_of, List.append_nil]
    exact ends_in_newline_append _ _ (print_tablet_tip_event_newline env ev)
  case TABLET_TOOL_BUTTON =>
    simp only [event_line, handle_event, print_event_header, ht, bind, Except.bind, pure,
      Except.pure, stdout_of, List.append_nil]
    exact ends_in_newline_append _ _ (print_tablet_button_event_newline env ev)
  case TABLET_PAD_BUTTON =>
    simp only [event_line, handle_event, print_event_header, ht, bind, Except.bind, pure,
      Except.pure, stdout_of, List.append_nil]
    exact ends_in_newline_append _ _ (print_tablet_pad_button_event_newline env ev)
  case TABLET_PAD_RING =>
    simp only [event_line, handle_event, print_event_header, ht, bind, Except.bind, pure,
      Except.pure, stdout_of, List.append_nil]
    exact ends_in_newline_append _ _ (print_tablet_pad_ring_event_newline env ev)
  case TABLET_PAD_STRIP =>
    simp only [event_line, handle_event, print_event_header, ht, bind, Except.bind, pure,
      Except.pure, stdout_of, List.append_nil]
    exact ends_in_newline_append _ _ (print_tablet_pad_strip_event_newline env ev)

/-- The writes of two traces put one after the other. -/
theorem stdout_of_append (a b : List Effect) :
    stdout_of (a ++ b) = stdout_of a ++ stdout_of b := by
  induction a with
  | nil => simp [stdout_of]
  | cons e rest ih => cases e <;> simp [stdout_of, ih]

/-- The writes of a run of valid events are the lines of the events in order. -/
theorem stdout_of_events_effects (env : Env) (evs : List libinput_event) (st : notify_state)
    (hv : ∀ ev ∈ evs, event_valid ev = true) :
    stdout_of (events_effects env evs st).1 = (event_lines env evs st).flatten := by
  induction evs generalizing st with
  | nil => simp [events_effects, event_lines, stdout_of]
  | cons ev rest ih =>
    obtain ⟨r, hr, -⟩ := handle_event_valid env ev st (hv ev (by simp))
    have hv1 : ∀ e ∈ rest, event_valid e = true := fun e he => hv e (by simp [he])
    simp [events_effects, event_lines, event_line, hr, stdout_of_append, ih r.2 hv1]

/-- A run of valid events, texts left out: per event two writes, then one call
of the applier exactly for the device-notify tags. -/
theorem erase_events_effects (env : Env) (evs : List libinput_event) (st : notify_state)
    (hv : ∀ ev ∈ evs, event_valid ev = true) :
    (events_effects env evs st).1.map Effect.erase =
      evs.flatMap (fun ev =>
        .stdout [] :: .stdout [] ::
          (if is_device_notify ev = true then
            [.apply_config ev.device env.options
              (tools_device_apply_config ev.device env.options)]
           else [])) := by
  induction evs generalizing st with
  | nil => simp [events_effects]
  | cons ev rest ih =>
    obtain ⟨r, hr, he⟩ := handle_event_valid env ev st (hv ev (by simp))
    have hv1 : ∀ e ∈ rest, event_valid e = true := fun e he => hv e (by simp [he])
    simp only [events_effects, hr, List.map_append, he, ih r.2 hv1, List.flatMap_cons]

/-- The lines of a list of events are as many as the events. -/
theorem length_event_lines (env : Env) (evs : List libinput_event) (st : notify_state) :
    (event_lines env evs st).length = evs.length := by
  induction evs generalizing st with
  | nil => simp [event_lines]
  | cons ev rest ih => simp [event_lines, ih]

/-- Every line of a list of valid events ends in a newline. -/
theorem event_lines_end_in_newline (env : Env) (evs : List libinput_event)
    (st : notify_state) (hv : ∀ ev ∈ evs, event_valid ev = true) :
    ∀ line ∈ event_lines env evs st, ends_in_newline line = true := by
  induction evs generalizing st with
  | nil => simp [event_lines]
  | cons ev rest ih =>
    have hv1 : ∀ e ∈ rest, event_valid e = true := fun e he => hv e (by simp [he])
    intro line hl
    simp only [event_lines, List.mem_cons] at hl
    rcases hl with h | h
    · rw [h]
      exact event_line_ends_in_newline env ev st (hv ev (by simp))
    · exact ih _ hv1 line h

/-- C5: for a queue of N valid events and no event arriving during the call,
`handle_and_print_events` writes exactly the lines of the N events, one line
per event, in queue order, each ending in a newline; it leaves the queue
empty and returns 0 if N > 0 and -1 if N = 0. -/
theorem handle_and_print_events_drains (env : Env) (st : notify_state)
    (evs : List libinput_event) (inc : List (List libinput_event))
    (hin : ∀ b ∈ inc, b = []) (hv : ∀ ev ∈ evs, event_valid ev = true) :
    stdout_of (handle_and_print_events env st { queue := evs, incoming := inc }).trace =
      (event_lines env evs st).flatten ∧
    (event_lines env evs st).length = evs.length ∧
    (∀ line ∈ event_lines env evs st, ends_in_newline line = true) ∧
    (handle_and_print_events env st { queue := evs, incoming := inc }).li.queue = [] ∧
    (handle_and_print_events env st { queue := evs, incoming := inc }).rc =
      some (if 0 < evs.length then 0 else -1) := by
  have hin1 : ∀ b ∈ inc.tail, b = [] := fun b hb => hin b (List.mem_of_mem_tail hb)
  obtain ⟨h1, -, h3, h4⟩ := drain_loop_quiet env evs st inc.tail (-1) hin1 hv
  simp only [handle_and_print_events, libinput_dispatch_quiet evs inc hin]
  refine ⟨?_, length_event_lines env evs st, event_lines_end_in_newline env evs st hv, h4, ?_⟩
  · rw [h1, stdout_of_events_effects env evs st hv]
  · rw [h3]
    cases evs <;> simp

/-- Taking one event and dispatching leaves less to drain. -/
theorem remaining_dispatch_lt (ev : libinput_event) (q : List libinput_event)
    (inc : List (List libinput_event)) :
    (libinput_dispatch { queue := q, incoming := inc }).remaining <
      libinput.remaining { queue := ev :: q, incoming := inc } := by
  cases inc with
  | nil => simp [libinput_dispatch, libinput.remaining]
  | cons b later =>
    simp [libinput_dispatch, libinput.remaining]
    omega

/-- Every event in the context after a dispatch was in it before. -/
theorem libinput_dispatch_valid (q : List libinput_event) (inc : List (List libinput_event))
    (hq : ∀ ev ∈ q, event_valid ev = true)
    (hi : ∀ b ∈ inc, ∀ ev ∈ b, event_valid ev = true) :
    (∀ ev ∈ (libinput_dispatch { queue := q, incoming := inc }).queue, event_valid ev = true) ∧
    (∀ b ∈ (libinput_dispatch { queue := q, incoming := inc }).incoming,
      ∀ ev ∈ b, event_valid ev = true) := by
  cases inc with
  | nil => exact ⟨by simpa [libinput_dispatch] using hq, by simp [libinput_dispatch]⟩
  | cons b later =>
    refine ⟨?_, ?_⟩
    · intro ev hev
      simp only [libinput_dispatch, List.mem_append] at hev
      rcases hev with h | h
      · exact hq ev h
      · exact hi b (by simp) ev h
    · intro b1 hb1
      simp only [libinput_dispatch] at hb1
      exact hi b1 (by simp [hb1])

/-- A drain of valid events, whatever arrives during it: the events handled
are the ones `libinput_get_event` hands out, in that order. -/
theorem drain_loop_handled (env : Env) (n : Nat) :
    ∀ (li : libinput) (st : notify_state) (rc : Int), li.remaining = n →
      (∀ ev ∈ li.queue, event_valid ev = true) →
      (∀ b ∈ li.incoming, ∀ ev ∈ b, event_valid ev = true) →
      (drain_loop env st li rc).trace = (events_effects env (handled_events li) st).1 ∧
      (∀ ev ∈ handled_events li, event_valid ev = true) := by
  induction n using Nat.strong_induction_on with
  | _ n ih =>
    intro li st rc hn hq hi
    obtain ⟨queue, inc⟩ := li
    cases queue with
    | nil =>
      rw [drain_loop, handled_events]
      simp [events_effects]
    | cons ev q =>
      obtain ⟨r, hr, -⟩ := handle_event_valid env ev st (hq ev (by simp))
      have hq1 : ∀ e ∈ q, event_valid e = true := fun e he => hq e (by simp [he])
      obtain ⟨hq2, hi2⟩ := libinput_dispatch_valid q inc hq1 hi
      have hlt := remaining_dispatch_lt ev q inc
      rw [hn] at hlt
      obtain ⟨h1, h2⟩ := ih _ hlt (libinput_dispatch { queue := q, incoming := inc }) r.2 0 rfl
        hq2 hi2
      rw [drain_loop, handled_events]
      refine ⟨?_, ?_⟩
      · simp only [hr, events_effects, h1]
      · intro e he
        simp only [List.mem_cons] at he
        rcases he with h | h
        · exact h ▸ hq ev (by simp)
        · exact h2 e h

/-- With nothing arriving the events handled are the queued ones. -/
theorem handled_events_quiet (evs : List libinput_event) (inc : List (List libinput_event))
    (hin : ∀ b ∈ inc, b = []) :
    handled_events { queue := evs, incoming := inc } = evs := by
  induction evs generalizing inc with
  | nil => rw [handled_events]
  | cons ev rest ih =>
    rw [handled_events, libinput_dispatch_quiet rest inc hin,
      ih inc.tail (fun b hb => hin b (List.mem_of_mem_tail hb))]

/-- Two valid events queued, nothing arriving: the hypotheses of C5 hold and
the call returns 0 with the queue empty. -/
theorem handle_and_print_events_drains_witness :
    (∀ b ∈ ([] : List (List libinput_event)), b = []) ∧
    (∀ ev ∈ [ev_added, ev_key], event_valid ev = true) ∧
    (handle_and_print_events env0 notify_state.initial
      { queue := [ev_added, ev_key], incoming := [] }).li.queue = [] ∧
    (handle_and_print_events env0 notify_state.initial
      { queue := [ev_added, ev_key], incoming := [] }).rc = some 0 := by
  have hv : ∀ ev ∈ [ev_added, ev_key], event_valid ev = true := by
    intro ev hev
    simp only [List.mem_cons, List.mem_singleton, List.not_mem_nil, or_false] at hev
    rcases hev with h | h <;> subst h <;> rfl
  have h := handle_and_print_events_drains env0 notify_state.initial [ev_added, ev_key] []
    (by simp) hv
  exact ⟨by simp, hv, h.2.2.2.1, h.2.2.2.2⟩

/-! ### The configuration applier -/

/-- C6, the code at the default options: on every device where pointer
acceleration is available, `tools_device_apply_config` with the options of
`tools_init_context` calls `libinput_device_config_accel_set_speed` with the
speed 0 that no flag set; only on a device without pointer acceleration does
it call no setter. -/
theorem tools_device_apply_config_default (device : libinput_device) :
    tools_device_apply_config device tools_init_context.options =
      (if device.accel_is_available = true then [.accel_set_speed 0] else []) ∧
    tools_device_apply_config dev0 tools_init_context.options = [.accel_set_speed 0] := by
  refine ⟨?_, ?_⟩
  · simp [tools_device_apply_config, tools_init_context, LIBINPUT_CONFIG_ACCEL_PROFILE_NONE]
  · simp [tools_device_apply_config, tools_init_context, LIBINPUT_CONFIG_ACCEL_PROFILE_NONE,
      dev0]

/-! ### Distance and pressure in the axis block -/

/-- The `distance:` field is written exactly when the tool has the distance or
the pressure capability and the reported distance is not zero. -/
theorem distance_field_iff (t : libinput_event_tablet_tool) :
    has_field "\tdistance: " (print_tablet_axes t) ↔
      (t.tool.has_distance = true ∨ t.tool.has_pressure = true) ∧ t.distance ≠ 0 := by
  by_cases hd : t.distance = 0 <;>
    cases h1 : t.tool.has_distance <;> cases h2 : t.tool.has_pressure <;>
    cases h3 : t.tool.has_tilt <;> cases h4 : t.tool.has_rotation <;>
    cases h5 : t.tool.has_slider <;> cases h6 : t.tool.has_wheel <;>
    simp [has_field, print_tablet_axes, h1, h2, h3, h4, h5, h6, hd]

/-- The `pressure:` field is written exactly when the tool has the distance or
the pressure capability and the reported distance is zero. -/
theorem pressure_field_iff (t : libinput_event_tablet_tool) :
    has_field "\tpressure: " (print_tablet_axes t) ↔
      (t.tool.has_distance = true ∨ t.tool.has_pressure = true) ∧ t.distance = 0 := by
  by_cases hd : t.distance = 0 <;>
    cases h1 : t.tool.has_distance <;> cases h2 : t.tool.has_pressure <;>
    cases h3 : t.tool.has_tilt <;> cases h4 : t.tool.has_rotation <;>
    cases h5 : t.tool.has_slider <;> cases h6 : t.tool.has_wheel <;>
    simp [has_field, print_tablet_axes, h1, h2, h3, h4, h5, h6, hd]

/-- When a field is due and the reported distance is not zero, the field is
`distance:` with the distance value and the distance changed-marker. -/
theorem distance_field_value (t : libinput_event_tablet_tool)
    (hc : (t.tool.has_distance || t.tool.has_pressure) = true) (hd : t.distance ≠ 0) :
    [.lit "\tdistance: ", .flt "%.2f" t.distance,
      .str false 0 (changed_sym t.distance_has_changed)] <:+: print_tablet_axes t := by
  simp only [print_tablet_axes, hc, if_true, if_pos hd]
  exact ((List.infix_append _ _ _).trans (List.prefix_append _ _).isInfix).trans
    (List.prefix_append _ _).isInfix

/-- When a field is due and the reported distance is zero, the field is
`pressure:` with the pressure value and the pressure changed-marker. -/
theorem pressure_field_value (t : libinput_event_tablet_tool)
    (hc : (t.tool.has_distance || t.tool.has_pressure) = true) (hd : t.distance = 0) :
    [.lit "\tpressure: ", .flt "%.2f" t.pressure,
      .str false 0 (changed_sym t.pressure_has_changed)] <:+: print_tablet_axes t := by
  have hd1 : ¬ t.distance ≠ 0 := fun h => h hd
  simp only [print_tablet_axes, hc, if_true, if_neg hd1]
  exact ((List.infix_append _ _ _).trans (List.prefix_append _ _).isInfix).trans
    (List.prefix_append _ _).isInfix

/-- C8, the claim as stated fails: a tool with the distance capability and
without the pressure capability, reporting distance 0, gets a `pressure:`
field and no `distance:` field. -/
theorem print_tablet_axes_capability_counterexample :
    ({ ev0.tablet_tool with
        tool := { tool0 with has_distance := true, has_pressure := false }
        distance := 0 } : libinput_event_tablet_tool).tool.has_pressure = false ∧
    has_field "\tpressure: " (print_tablet_axes
      { ev0.tablet_tool with
        tool := { tool0 with has_distance := true, has_pressure := false }
        distance := 0 }) ∧
    ¬ has_field "\tdistance: " (print_tablet_axes
      { ev0.tablet_tool with
        tool := { tool0 with has_distance := true, has_pressure := false }
        distance := 0 }) := by
  refine ⟨rfl, ?_, ?_⟩
  · rw [pressure_field_iff]
    exact ⟨Or.inl rfl, rfl⟩
  · rw [distance_field_iff]
    simp

/-- C8 as amended: the axis block holds a `distance:` or a `pressure:` field
only if the tool has the distance or the pressure capability, and then exactly
one of the two: `distance:` when the reported distance is not zero, otherwise
`pressure:`; a tool with neither capability gets neither field. -/
theorem print_tablet_axes_distance_or_pressure (t : libinput_event_tablet_tool) :
    (t.tool.has_distance = false ∧ t.tool.has_pressure = false →
      ¬ has_field "\tdistance: " (print_tablet_axes t) ∧
      ¬ has_field "\tpressure: " (print_tablet_axes t)) ∧
    (t.tool.has_distance = true ∨ t.tool.has_pressure = true →
      (t.distance ≠ 0 →
        has_field "\tdistance: " (print_tablet_axes t) ∧
        ¬ has_field "\tpressure: " (print_tablet_axes t)) ∧
      (t.distance = 0 →
        has_field "\tpressure: " (print_tablet_axes t) ∧
        ¬ has_field "\tdistance: " (print_tablet_axes t))) := by
  rw [distance_field_iff, pressure_field_iff]
  refine ⟨?_, ?_⟩
  · rintro ⟨h1, h2⟩
    simp [h1, h2]
  · intro hc
    refine ⟨fun hd => ⟨⟨hc, hd⟩, fun h => hd h.2⟩, fun hd => ⟨⟨hc, hd⟩, fun h => h.2 hd⟩⟩

/-- C9: for a tool that lists both the distance and the pressure capability,
`print_tablet_axes` writes exactly one of the two fields: `distance:`, with
the distance value and the distance changed-marker, if and only if the
reported distance is not zero, and `pressure:`, with the pressure value and
the pressure changed-marker, if and only if the reported distance is zero. -/
theorem print_tablet_axes_both_capabilities (t : libinput_event_tablet_tool)
    (hdist : t.tool.has_distance = true) (hpres : t.tool.has_pressure = true) :
    (has_field "\tdistance: " (print_tablet_axes t) ↔ t.distance ≠ 0) ∧
    (has_field "\tpressure: " (print_tablet_axes t) ↔ t.distance = 0) ∧
    (t.distance ≠ 0 →
      [.lit "\tdistance: ", .flt "%.2f" t.distance,
        .str false 0 (changed_sym t.distance_has_changed)] <:+: print_tablet_axes t) ∧
    (t.distance = 0 →
      [.lit "\tpressure: ", .flt "%.2f" t.pressure,
        .str false 0 (changed_sym t.pressure_has_changed)] <:+: print_tablet_axes t) := by
  have hc : (t.tool.has_distance || t.tool.has_pressure) = true := by simp [hdist, hpres]
  refine ⟨?_, ?_, distance_field_value t hc, pressure_field_value t hc⟩
  · rw [distance_field_iff]
    simp [hdist]
  · rw [pressure_field_iff]
    simp [hdist]

/-- A pen with both capabilities touching the tablet (distance 0): the
hypotheses of C9 hold and the field written is `pressure:`. -/
theorem print_tablet_axes_both_capabilities_witness :
    ev0.tablet_tool.tool.has_distance = true ∧ ev0.tablet_tool.tool.has_pressure = true ∧
    (has_field "\tpressure: " (print_tablet_axes ev0.tablet_tool) ↔
      ev0.tablet_tool.distance = 0) :=
  ⟨rfl, rfl, (print_tablet_axes_both_capabilities ev0.tablet_tool rfl rfl).2.1⟩

/-- A tool with both capabilities reporting distance 0: the second half of the
amended C8 applies and gives the `pressure:` field alone. -/
theorem print_tablet_axes_distance_or_pressure_witness :
    (ev0.tablet_tool.tool.has_distance = true ∨ ev0.tablet_tool.tool.has_pressure = true) ∧
    ev0.tablet_tool.distance = 0 ∧
    has_field "\tpressure: " (print_tablet_axes ev0.tablet_tool) ∧
    ¬ has_field "\tdistance: " (print_tablet_axes ev0.tablet_tool) :=
  ⟨Or.inl rfl, rfl,
   ((print_tablet_axes_distance_or_pressure ev0.tablet_tool).2 (Or.inl rfl)).2 rfl⟩

/-! ### Gestures without coordinates -/

/-- C10: for a GESTURE_SWIPE_BEGIN or GESTURE_PINCH_BEGIN event
`print_gesture_event_without_coords` writes the timestamp, the finger count
and an empty marker, whatever the cancelled flag of the event holds; for a
GESTURE_SWIPE_END or GESTURE_PINCH_END event it writes the timestamp, the
finger count and the marker ` cancelled` if and only if the cancelled flag is
not zero. -/
theorem print_gesture_event_without_coords_cancelled (env : Env) (ev : libinput_event) :
    (ev.type = .GESTURE_SWIPE_BEGIN ∨ ev.type = .GESTURE_PINCH_BEGIN →
      print_gesture_event_without_coords env ev =
        print_event_time env.start_time ev.gesture.time ++
          [.dec 0 ev.gesture.finger_count, .str false 0 "", .lit "\n"]) ∧
    (ev.type = .GESTURE_SWIPE_END ∨ ev.type = .GESTURE_PINCH_END →
      print_gesture_event_without_coords env ev =
        print_event_time env.start_time ev.gesture.time ++
          [.dec 0 ev.gesture.finger_count,
           .str false 0 (if ev.gesture.cancelled ≠ 0 then " cancelled" else ""),
           .lit "\n"]) := by
  refine ⟨?_, ?_⟩
  · rintro (h | h) <;> simp [print_gesture_event_without_coords, h, Id.run]
  · rintro (h | h) <;> simp [print_gesture_event_without_coords, h, Id.run]

/-- A swipe-begin event whose cancelled flag is set prints no marker, and the
same event as swipe-end prints ` cancelled`. -/
theorem print_gesture_event_without_coords_cancelled_witness :
    ({ ev0 with type := .GESTURE_SWIPE_BEGIN } : libinput_event).gesture.cancelled = 1 ∧
    print_gesture_event_without_coords env0 { ev0 with type := .GESTURE_SWIPE_BEGIN } =
      print_event_time 1000 2500 ++ [.dec 0 3, .str false 0 "", .lit "\n"] ∧
    print_gesture_event_without_coords env0 { ev0 with type := .GESTURE_SWIPE_END } =
      print_event_time 1000 2500 ++ [.dec 0 3, .str false 0 " cancelled", .lit "\n"] :=
  ⟨rfl,
   (print_gesture_event_without_coords_cancelled env0
     { ev0 with type := .GESTURE_SWIPE_BEGIN }).1 (Or.inl rfl),
   (print_gesture_event_without_coords_cancelled env0
     { ev0 with type := .GESTURE_SWIPE_END }).2 (Or.inl rfl)⟩

/-! ### Aborts -/

/-- An event is not valid exactly when its tag is the no-event tag, or it is
a proximity event whose tool type or proximity state is outside its
enumeration. -/
theorem event_valid_eq_false_iff (ev : libinput_event) :
    event_valid ev = false ↔
      (ev.type = .NONE ∨
        (ev.type = .TABLET_TOOL_PROXIMITY ∧
          ((∃ raw, ev.tablet_tool.tool.type = .invalid raw) ∨
           (∃ raw, ev.tablet_tool.proximity_state = .invalid raw)))) := by
  cases ht : ev.type <;> simp [event_valid, ht]
  cases hty : ev.tablet_tool.tool.type <;> cases hs : ev.tablet_tool.proximity_state <;>
    simp [hty, hs]

/-- Handling an event that is not valid aborts. -/
theorem handle_event_invalid (env : Env) (ev : libinput_event) (st : notify_state)
    (hv : event_valid ev = false) :
    ∃ effects, handle_event env ev st = .error effects := by
  cases ht : ev.type
  case NONE => exact ⟨_, by simp [handle_event, print_event_header, ht, bind, Except.bind]; rfl⟩
  case TABLET_TOOL_PROXIMITY =>
    simp only [event_valid, ht] at hv
    cases hty : ev.tablet_tool.tool.type <;> cases hs : ev.tablet_tool.proximity_state <;>
      simp [hty, hs] at hv <;>
      simp [handle_event, print_event_header, print_proximity_event, ht, hty, hs, bind,
        Except.bind, pure, Except.pure]
  all_goals simp [event_valid, ht] at hv

/-- C11, the claim as stated fails: a proximity event of a pen (a tool type of
the enumeration) whose proximity state is neither in nor out aborts, after the
header and the timestamp were written. -/
theorem handle_event_abort_counterexample :
    ev_bad_state.type = .TABLET_TOOL_PROXIMITY ∧
    ev_bad_state.tablet_tool.tool.type = .PEN ∧
    handle_event env0 ev_bad_state notify_state.initial =
      .error [.stdout [.str true 7 "event4", .lit "\t", .str true 16 "TABLET_TOOL_PROXIMITY",
                .lit " "],
              .stdout (print_event_time 1000 3000)] := by
  refine ⟨rfl, rfl, ?_⟩
  simp [handle_event, print_event_header, print_proximity_event, ev_bad_state, ev0, dev0,
    tool0, env0, bind, Except.bind, pure, Except.pure]

/-- C11 as amended: handling one event aborts if and only if its tag is the
no-event tag, or it is a proximity event whose tool type is outside the seven
enumerators or whose proximity state is neither in nor out; on the no-event
tag nothing has been written when it aborts; every other event, whatever its
fields hold, is handled to the end and its line ends in a newline; a key or
button code without a name is written as `???` and a ring or strip source
outside the enumeration as `<invalid>`. -/
theorem handle_event_aborts_iff (env : Env) (ev : libinput_event) (st : notify_state) :
    ((∃ effects, handle_event env ev st = .error effects) ↔
      (ev.type = .NONE ∨
        (ev.type = .TABLET_TOOL_PROXIMITY ∧
          ((∃ raw, ev.tablet_tool.tool.type = .invalid raw) ∨
           (∃ raw, ev.tablet_tool.proximity_state = .invalid raw))))) ∧
    (ev.type = .NONE →
      ∃ effects, handle_event env ev st = .error effects ∧ stdout_of effects = []) ∧
    (event_valid ev = true →
      ∃ r, handle_event env ev st = .ok r ∧ ends_in_newline (stdout_of r.1) = true) ∧
    (env.event_code_get_name ev.keyboard.key = none →
      print_key_event env ev =
        print_event_time env.start_time ev.keyboard.time ++
          [.str false 0 "???", .lit " (", .dec 0 (to_int32 ev.keyboard.key), .lit ") ",
           .str false 0 (if ev.keyboard.pressed then "pressed" else "released"),
           .lit "\n"]) ∧
    (env.event_code_get_name (ev.pointer.button % 2 ^ 32) = none →
      print_pointer_button_event env ev =
        print_event_time env.start_time ev.pointer.time ++
          [.str false 0 "???", .lit " (", .dec 0 (to_int32 ev.pointer.button), .lit ") ",
           .str false 0 (if ev.pointer.button_pressed then "pressed" else "released"),
           .lit ", seat count: ", .uns ev.pointer.seat_button_count, .lit "\n"]) ∧
    (∀ raw, ev.tablet_pad.ring_source = .invalid raw →
      print_tablet_pad_ring_event env ev =
        print_event_time env.start_time ev.tablet_pad.time ++
          [.lit "ring ", .dec 0 (to_int32 ev.tablet_pad.ring_number), .lit " position ",
           .flt "%.2f" ev.tablet_pad.ring_position, .lit " (source ",
           .str false 0 "<invalid>", .lit ")\n"]) ∧
    (∀ raw, ev.tablet_pad.strip_source = .invalid raw →
      print_tablet_pad_strip_event env ev =
        print_event_time env.start_time ev.tablet_pad.time ++
          [.lit "strip ", .dec 0 (to_int32 ev.tablet_pad.strip_number), .lit " position ",
           .flt "%.2f" ev.tablet_pad.strip_position, .lit " (source ",
           .str false 0 "<invalid>", .lit ")\n"]) := by
  refine ⟨?_, ?_, ?_, ?_, ?_, ?_, ?_⟩
  · rw [← event_valid_eq_false_iff]
    constructor
    · rintro ⟨effects, he⟩
      cases hv : event_valid ev
      · rfl
      · obtain ⟨r, hr, -⟩ := handle_event_valid env ev st hv
        rw [hr] at he
        cases he
    · exact handle_event_invalid env ev st
  · intro ht
    exact ⟨[.stdout []], by
      simp [handle_event, print_event_header, ht, bind, Except.bind], rfl⟩
  · intro hv
    obtain ⟨r, hr, -⟩ := handle_event_valid env ev st hv
    refine ⟨r, hr, ?_⟩
    have h := event_line_ends_in_newline env ev st hv
    simpa [event_line, hr] using h
  · intro h
    simp [print_key_event, h]
  · intro h
    simp only [print_pointer_button_event, h]
  · intro raw h
    simp [print_tablet_pad_ring_event, h, pad_source_name]
  · intro raw h
    simp [print_tablet_pad_strip_event, h, pad_source_name]

/-- A key event without a key name: it is valid, it is handled to the end, and
the name is written as `???`. -/
theorem handle_event_aborts_iff_witness :
    event_valid ev_key = true ∧
    env0.event_code_get_name ev_key.keyboard.key = none ∧
    (∃ r, handle_event env0 ev_key notify_state.initial = .ok r ∧
      ends_in_newline (stdout_of r.1) = true) ∧
    print_key_event env0 ev_key =
      print_event_time 1000 1500 ++
        [.str false 0 "???", .lit " (", .dec 0 (to_int32 30), .lit ") ",
         .str false 0 "pressed", .lit "\n"] :=
  ⟨rfl, rfl,
   (handle_event_aborts_iff env0 ev_key notify_state.initial).2.2.1 rfl,
   (handle_event_aborts_iff env0 ev_key notify_state.initial).2.2.2.1 rfl⟩

/-! ### Command-line arguments -/

/-- A return that passes only changes the options. -/
theorem tools_parse_args_loop_passes (penv : ParseEnv) (r : getopt_return)
    (rest : List getopt_return) (leftover : Bool) (options : tools_options)
    (h : passes penv r = true) :
    ∃ options1, tools_parse_args_loop penv (r :: rest) leftover options =
      tools_parse_args_loop penv rest leftover options1 := by
  obtain ⟨c, optarg⟩ := r
  cases c with
  | h => simp [passes, is_help] at h
  | question => simp [passes, is_help, is_malformed] at h
  | long val =>
    cases val <;> cases optarg <;>
      simp [passes, is_help, is_malformed, is_bad_button] at h <;>
      simp only [tools_parse_args_loop] <;>
      (try split_ifs) <;>
      first
        | exact ⟨_, rfl⟩
        | (exfalso; simp_all)

/-- Returns that pass only change the options the loop goes on with. -/
theorem tools_parse_args_loop_skip (penv : ParseEnv) (pre tail : List getopt_return)
    (leftover : Bool) (options : tools_options) (h : ∀ x ∈ pre, passes penv x = true) :
    ∃ options1, tools_parse_args_loop penv (pre ++ tail) leftover options =
      tools_parse_args_loop penv tail leftover options1 := by
  induction pre generalizing options with
  | nil => exact ⟨options, rfl⟩
  | cons x pre ih =>
    obtain ⟨o1, h1⟩ := tools_parse_args_loop_passes penv x (pre ++ tail) leftover options
      (h x (by simp))
    obtain ⟨o2, h2⟩ := ih o1 (fun y hy => h y (by simp [hy]))
    exact ⟨o2, by rw [List.cons_append, h1, h2]⟩

/-- At the help flag the loop prints the usage text and exits with status 0. -/
theorem tools_parse_args_loop_help (penv : ParseEnv) (r : getopt_return)
    (rest : List getopt_return) (leftover : Bool) (options : tools_options)
    (h : is_help r = true) :
    (tools_parse_args_loop penv (r :: rest) leftover options).printed = [.usage] ∧
    (tools_parse_args_loop penv (r :: rest) leftover options).finish = .exited 0 := by
  obtain ⟨c, optarg⟩ := r
  cases c with
  | h => simp [tools_parse_args_loop]
  | question => simp [is_help] at h
  | long val =>
    cases val <;> simp [is_help] at h
    simp [tools_parse_args_loop]

/-- At a malformed return the loop prints the usage text and returns 1. -/
theorem tools_parse_args_loop_malformed (penv : ParseEnv) (r : getopt_return)
    (rest : List getopt_return) (leftover : Bool) (options : tools_options)
    (h : is_malformed r = true) :
    (tools_parse_args_loop penv (r :: rest) leftover options).printed = [.usage] ∧
    (tools_parse_args_loop penv (r :: rest) leftover options).finish = .returned 1 := by
  obtain ⟨c, optarg⟩ := r
  cases c with
  | h => simp [is_malformed] at h
  | question => simp [tools_parse_args_loop]
  | long val =>
    cases val <;> cases optarg <;> simp [is_malformed] at h <;>
      simp [tools_parse_args_loop, h]

/-- At `--set-scroll-button` with an unknown name the loop prints
`Invalid button` and returns 1, without the usage text. -/
theorem tools_parse_args_loop_bad_button (penv : ParseEnv) (r : getopt_return)
    (rest : List getopt_return) (leftover : Bool) (options : tools_options)
    (h : is_bad_button penv r = true) :
    ∃ name, r.optarg = some name ∧
      (tools_parse_args_loop penv (r :: rest) leftover options).printed =
        [.invalid_button name] ∧
      (tools_parse_args_loop penv (r :: rest) leftover options).finish = .returned 1 := by
  obtain ⟨c, optarg⟩ := r
  cases c with
  | h => simp [is_bad_button] at h
  | question => simp [is_bad_button] at h
  | long val =>
    cases val <;> cases optarg <;> simp [is_bad_button] at h
    simp [tools_parse_args_loop, h]

/-- C12, the claim as stated fails for two of the value-taking flags: with
`--set-speed=fast` nothing is printed and 0 is returned, and with
`--set-scroll-button=BTN_NOPE` the line `Invalid button BTN_NOPE` is printed
instead of the usage text. -/
theorem tools_parse_args_malformed_counterexample :
    (tools_parse_args penv0 ["libinput-debug-events", "--set-speed=fast"]
      tools_init_context.options).printed = [] ∧
    (tools_parse_args penv0 ["libinput-debug-events", "--set-speed=fast"]
      tools_init_context.options).finish = .returned 0 ∧
    (tools_parse_args penv0 ["libinput-debug-events", "--set-scroll-button=BTN_NOPE"]
      tools_init_context.options).printed = [.invalid_button "BTN_NOPE"] ∧
    (tools_parse_args penv0 ["libinput-debug-events", "--set-scroll-button=BTN_NOPE"]
      tools_init_context.options).finish = .returned 1 := by
  refine ⟨?_, ?_, ?_, ?_⟩ <;> rfl

/-- C12 as amended: let the returns of `getopt_long` over the argument vector
be `pre`, then `r`, then `post`, every return of `pre` passing.  If `r` is an
unknown flag, a flag with a missing or unexpected value, or one of
`--set-click-method`, `--set-scroll-method`, `--set-profile`, `--set-tap-map`
with a value outside its list, `tools_parse_args` prints the usage text and
returns 1; if `r` is `--help` or `-h` it prints the usage text and exits with
status 0; if `r` is `--set-scroll-button` with an unknown button name it
prints `Invalid button` with the name and returns 1; and `--set-speed` passes
with every value. -/
theorem tools_parse_args_first_error (penv : ParseEnv) (argv : List String)
    (options : tools_options) (pre post : List getopt_return) (r : getopt_return)
    (hrun : (getopt_scan opts (argv.drop 1)).returns = pre ++ r :: post)
    (hpre : ∀ x ∈ pre, passes penv x = true) :
    (is_malformed r = true →
      (tools_parse_args penv argv options).printed = [.usage] ∧
      (tools_parse_args penv argv options).finish = .returned 1) ∧
    (is_help r = true →
      (tools_parse_args penv argv options).printed = [.usage] ∧
      (tools_parse_args penv argv options).finish = .exited 0) ∧
    (is_bad_button penv r = true →
      ∃ name, r.optarg = some name ∧
        (tools_parse_args penv argv options).printed = [.invalid_button name] ∧
        (tools_parse_args penv argv options).finish = .returned 1) ∧
    (∀ v, passes penv { c := .long .OPT_SPEED, optarg := some v } = true) := by
  obtain ⟨o1, h1⟩ := tools_parse_args_loop_skip penv pre (r :: post)
    (getopt_scan opts (argv.drop 1)).leftover options hpre
  have hp : tools_parse_args penv argv options =
      tools_parse_args_loop penv (r :: post) (getopt_scan opts (argv.drop 1)).leftover o1 := by
    simp only [tools_parse_args, hrun, h1]
  rw [hp]
  exact ⟨tools_parse_args_loop_malformed penv r post _ o1,
    tools_parse_args_loop_help penv r post _ o1,
    tools_parse_args_loop_bad_button penv r post _ o1,
    fun v => rfl⟩

/-- The arguments `--grab --bogus --help`: the hypotheses of the amended C12
hold with the unknown flag as the first return that does not pass, and the
usage text is printed with return code 1. -/
theorem tools_parse_args_first_error_witness :
    (getopt_scan opts (["libinput-debug-events", "--grab", "--bogus", "--help"].drop 1)).returns =
      [{ c := .long .OPT_GRAB, optarg := none }] ++
        { c := .question, optarg := none } :: [{ c := .long .OPT_HELP, optarg := none }] ∧
    (∀ x ∈ [({ c := .long .OPT_GRAB, optarg := none } : getopt_return)],
      passes penv0 x = true) ∧
    (tools_parse_args penv0 ["libinput-debug-events", "--grab", "--bogus", "--help"]
      tools_init_context.options).printed = [.usage] ∧
    (tools_parse_args penv0 ["libinput-debug-events", "--grab", "--bogus", "--help"]
      tools_init_context.options).finish = .returned 1 :=
  ⟨rfl, by decide,
   (tools_parse_args_first_error penv0
      ["libinput-debug-events", "--grab", "--bogus", "--help"] tools_init_context.options
      [{ c := .long .OPT_GRAB, optarg := none }] [{ c := .long .OPT_HELP, optarg := none }]
      { c := .question, optarg := none } rfl (by decide)).1 rfl⟩

/-- C13, the code on `--udev seat1`: `udev` takes no argument in the option
table, so `seat1` is left over as a non-option, the usage text is printed, 1
is returned and the seat is still `seat0`; `--udev=seat1` fails in the same
way; `--udev` alone returns 0 with the udev backend and the seat `seat0`. -/
theorem tools_parse_args_udev_seat :
    tools_parse_args penv0 ["libinput-debug-events", "--udev", "seat1"]
        tools_init_context.options =
      { printed := [.usage], finish := .returned 1, options := tools_init_context.options } ∧
    tools_init_context.options.seat = "seat0" ∧
    tools_parse_args penv0 ["libinput-debug-events", "--udev=seat1"]
        tools_init_context.options =
      { printed := [.usage], finish := .returned 1, options := tools_init_context.options } ∧
    tools_parse_args penv0 ["libinput-debug-events", "--udev"] tools_init_context.options =
      { printed := [], finish := .returned 0, options := tools_init_context.options } ∧
    tools_init_context.options.backend = .BACKEND_UDEV := by
  refine ⟨?_, ?_, ?_, ?_, ?_⟩ <;> rfl

/-! ### The main loop -/

/-- What follows an interrupt in `poll` has no effect, and the calls of
`handle_and_print_events` are those made before it. -/
theorem mainloop_loop_interrupted (env : Env) (pre post : List poll_round) (stop : Bool)
    (st : notify_state) (li : libinput) :
    mainloop_loop env (pre ++ .interrupted :: post) stop st li =
      mainloop_loop env (pre ++ [.interrupted]) stop st li ∧
    (mainloop_loop env (pre ++ .interrupted :: post) stop st li).1 =
      (mainloop_loop env pre stop st li).1 ∧
    (mainloop_loop env (pre ++ .interrupted :: post) stop st li).2 ≠ .blocked := by
  induction pre generalizing stop st li with
  | nil => cases stop <;> simp [mainloop_loop]
  | cons round pre ih =>
    cases stop
    · cases round with
      | interrupted => simp [mainloop_loop]
      | failed => simp [mainloop_loop]
      | ready sigint =>
        simp only [List.cons_append, mainloop_loop]
        cases hrc : (handle_and_print_events env st li).rc with
        | none => simp
        | some rc =>
          obtain ⟨h1, h2, h3⟩ := ih sigint (handle_and_print_events env st li).st
            (handle_and_print_events env st li).li
          have h1a : mainloop_loop env (pre.append (poll_round.interrupted :: post)) sigint
              (handle_and_print_events env st li).st (handle_and_print_events env st li).li =
              mainloop_loop env (pre.append [poll_round.interrupted]) sigint
                (handle_and_print_events env st li).st (handle_and_print_events env st li).li :=
            h1
          have h2a : (mainloop_loop env (pre.append (poll_round.interrupted :: post)) sigint
              (handle_and_print_events env st li).st (handle_and_print_events env st li).li).1 =
              (mainloop_loop env pre sigint
                (handle_and_print_events env st li).st (handle_and_print_events env st li).li).1 :=
            h2
          exact ⟨by rw [h1a], by rw [h2a], h3⟩
    · simp [mainloop_loop]

/-- There are at most as many calls of `handle_and_print_events` as there are
`poll` calls that returned a non-negative value before the first other
round. -/
theorem mainloop_loop_length (env : Env) (rounds : List poll_round) (stop : Bool)
    (st : notify_state) (li : libinput) :
    (mainloop_loop env rounds stop st li).1.length ≤
      (rounds.takeWhile poll_round.is_ready).length := by
  induction rounds generalizing stop st li with
  | nil => cases stop <;> simp [mainloop_loop]
  | cons round rest ih =>
    cases stop
    · cases round with
      | interrupted => simp [mainloop_loop]
      | failed => simp [mainloop_loop]
      | ready sigint =>
        simp only [mainloop_loop]
        cases hrc : (handle_and_print_events env st li).rc with
        | none => simp [poll_round.is_ready]
        | some rc =>
          have := ih sigint (handle_and_print_events env st li).st
            (handle_and_print_events env st li).li
          simpa [poll_round.is_ready] using this
    · simp [mainloop_loop]

/-- C14: in the step model of `mainloop`, (1) an interrupt delivered while the
loop is blocked in `poll` ends the loop: whatever rounds would follow, the
calls of `handle_and_print_events` are exactly those made before the
interrupt; (2) no call is made when the loop condition finds `stop` set, and
the calls number at most the leading `poll` calls that returned a non-negative
value, the first call after such a `poll` with `stop` clear being the drain of
the current state; (3) a drain during which the interrupt arrives is recorded
complete, as the same `handle_and_print_events` outcome as without the
interrupt, and only then the loop ends without another `poll`. -/
theorem mainloop_loop_stop (env : Env) (pre post rounds : List poll_round) (stop : Bool)
    (st : notify_state) (li : libinput) :
    ((mainloop_loop env (pre ++ .interrupted :: post) stop st li).1 =
        (mainloop_loop env pre stop st li).1 ∧
      (mainloop_loop env (pre ++ .interrupted :: post) stop st li).2 ≠ .blocked) ∧
    (mainloop_loop env rounds true st li = ([], .stopped) ∧
      (mainloop_loop env rounds stop st li).1.length ≤
        (rounds.takeWhile poll_round.is_ready).length ∧
      ∀ sigint, (mainloop_loop env (.ready sigint :: rounds) false st li).1.head? =
        some (handle_and_print_events env st li)) ∧
    (mainloop_loop env (.ready true :: rounds) false st li =
      ([handle_and_print_events env st li],
        if (handle_and_print_events env st li).rc = none then .aborted else .stopped)) := by
  refine ⟨(mainloop_loop_interrupted env pre post stop st li).2, ⟨?_, ?_, ?_⟩, ?_⟩
  · cases rounds <;> simp [mainloop_loop]
  · exact mainloop_loop_length env rounds stop st li
  · intro sigint
    simp only [mainloop_loop]
    cases hrc : (handle_and_print_events env st li).rc <;> simp
  · simp only [mainloop_loop]
    cases hrc : (handle_and_print_events env st li).rc with
    | none => simp
    | some rc =>
      cases rounds <;> simp [mainloop_loop]

/-! ### Dependence on the printer state -/

/-- The line of an event that is not a device-notify event does not depend on
the printer state. -/
theorem event_line_of_not_notify (env : Env) (ev : libinput_event) (st1 st2 : notify_state)
    (h : is_device_notify ev = false) :
    (event_line env ev st1).1 = (event_line env ev st2).1 := by
  cases ht : ev.type
  case DEVICE_ADDED => simp [is_device_notify, ht] at h
  case DEVICE_REMOVED => simp [is_device_notify, ht] at h
  case TABLET_TOOL_PROXIMITY =>
    cases hp : print_proximity_event env ev <;>
      simp [event_line, handle_event, print_event_header, ht, hp, bind, Except.bind, pure,
        Except.pure, stdout_of]
  all_goals
    simp [event_line, handle_event, print_event_header, ht, bind, Except.bind, pure,
      Except.pure, stdout_of]

/-- The line of a device-notify event is the header and the device line with
the label the state gives the group. -/
theorem event_line_of_notify (env : Env) (ev : libinput_event)
    (h : is_device_notify ev = true) :
    ∃ header, ∀ st : notify_state,
      (event_line env ev st).1 =
        header ++ print_device_notify_line ev.device (lookup_group_id ev.device.group st).1 ∧
      (event_line env ev st).2 = (lookup_group_id ev.device.group st).2 := by
  cases ht : ev.type
  case DEVICE_ADDED =>
    exact ⟨[.str true 7 ev.device.sysname, .lit "\t", .str true 16 "DEVICE_ADDED", .lit " "],
      fun st => by
        simp [event_line, handle_event, print_event_header, ht, bind, Except.bind, pure,
          Except.pure, stdout_of, print_device_notify]⟩
  case DEVICE_REMOVED =>
    exact ⟨[.str true 7 ev.device.sysname, .lit "\t", .str true 16 "DEVICE_REMOVED", .lit " "],
      fun st => by
        simp [event_line, handle_event, print_event_header, ht, bind, Except.bind, pure,
          Except.pure, stdout_of, print_device_notify]⟩
  all_goals simp [is_device_notify, ht] at h

/-- Looking a group up twice in a row gives the same label, when the counter
is not negative. -/
theorem lookup_group_id_twice (g : Nat) (st : notify_state) (h : 0 ≤ st.next_group_id) :
    (lookup_group_id g (lookup_group_id g st).2).1 = (lookup_group_id g st).1 := by
  by_cases hz : st.group_user_data g = 0
  · have hne : st.next_group_id + 1 ≠ 0 := by omega
    simp [lookup_group_id, hz, hne]
  · simp [lookup_group_id, hz]

/-- Formatting an event keeps the counter from going negative. -/
theorem event_line_counter (env : Env) (ev : libinput_event) (st : notify_state)
    (h : 0 ≤ st.next_group_id) : 0 ≤ (event_line env ev st).2.next_group_id := by
  cases hn : is_device_notify ev
  · have hst : (event_line env ev st).2 = st := by
      cases ht : ev.type
      case DEVICE_ADDED => simp [is_device_notify, ht] at hn
      case DEVICE_REMOVED => simp [is_device_notify, ht] at hn
      case TABLET_TOOL_PROXIMITY =>
        cases hp : print_proximity_event env ev <;>
          simp [event_line, handle_event, print_event_header, ht, hp, bind, Except.bind, pure,
            Except.pure]
      all_goals
        simp [event_line, handle_event, print_event_header, ht, bind, Except.bind, pure,
          Except.pure]
    rw [hst]
    exact h
  · obtain ⟨header, hh⟩ := event_line_of_notify env ev hn
    rw [(hh st).2]
    by_cases hz : st.group_user_data ev.device.group = 0
    · simp only [lookup_group_id, hz, if_true]
      omega
    · simp only [lookup_group_id, hz, if_false]
      exact h

/-- C15, the claim as stated fails: the same device-added event is written with
`group1` from the initial state and with `group2` from the state reached by
first formatting a device-added event of another group; the bytes differ. -/
theorem event_line_history_counterexample :
    render env0.printf_double (event_line env0 ev_added notify_state.initial).1 ≠
      render env0.printf_double
        (event_line env0 ev_added (event_line env0 ev_other notify_state.initial).2).1 := by
  decide

/-- C15 as amended: for two events with the same tag and equal fields (the
same event) and any two printer states, the bytes written are identical when
the event is not a device-notify event; for a device-notify event they are
identical when the two states give the event's device group the same label;
and formatting the same event twice in a row, from a state whose counter is
not negative, writes the same bytes and leaves the counter not negative (so
this holds in every state the printer reaches from counter 0). -/
theorem event_line_state (env : Env) (ev : libinput_event) (st1 st2 : notify_state) :
    (is_device_notify ev = false →
      render env.printf_double (event_line env ev st1).1 =
        render env.printf_double (event_line env ev st2).1) ∧
    (is_device_notify ev = true →
      (lookup_group_id ev.device.group st1).1 = (lookup_group_id ev.device.group st2).1 →
      render env.printf_double (event_line env ev st1).1 =
        render env.printf_double (event_line env ev st2).1) ∧
    (0 ≤ st1.next_group_id →
      render env.printf_double (event_line env ev (event_line env ev st1).2).1 =
        render env.printf_double (event_line env ev st1).1 ∧
      0 ≤ (event_line env ev st1).2.next_group_id) := by
  refine ⟨?_, ?_, ?_⟩
  · intro h
    rw [event_line_of_not_notify env ev st1 st2 h]
  · intro h hl
    obtain ⟨header, hh⟩ := event_line_of_notify env ev h
    rw [(hh st1).1, (hh st2).1, hl]
  · intro hn
    refine ⟨?_, event_line_counter env ev st1 hn⟩
    cases h : is_device_notify ev
    · rw [event_line_of_not_notify env ev _ st1 h]
    · obtain ⟨header, hh⟩ := event_line_of_notify env ev h
      rw [(hh _).1, (hh st1).1, (hh st1).2, lookup_group_id_twice _ _ hn]

/-- The device-added event formatted twice from the initial state: the counter
is not negative and both lines are the same bytes. -/
theorem event_line_state_witness :
    (0 : Int) ≤ notify_state.initial.next_group_id ∧
    render env0.printf_double
        (event_line env0 ev_added (event_line env0 ev_added notify_state.initial).2).1 =
      render env0.printf_double (event_line env0 ev_added notify_state.initial).1 :=
  ⟨by decide, ((event_line_state env0 ev_added notify_state.initial notify_state.initial).2.2
    (by decide)).1⟩

/-! ### One line per event -/

/-- The characters written for a list of pieces. -/
theorem render_data (f : String → double → String) (out : Out) :
    (render f out).data = (out.map (fun p => (p.render f).data)).flatten := by
  induction out with
  | nil => rfl
  | cons p ps ih => simp [render, ih]

/-- No digit character is a newline. -/
theorem digitChar_ne_newline (d : Nat) : Nat.digitChar d ≠ '\n' := by
  rcases Nat.lt_or_ge d 16 with h | h
  · interval_cases d <;> decide
  · have h0 : d ≠ 0 := by omega
    have h1 : d ≠ 1 := by omega
    have h2 : d ≠ 2 := by omega
    have h3 : d ≠ 3 := by omega
    have h4 : d ≠ 4 := by omega
    have h5 : d ≠ 5 := by omega
    have h6 : d ≠ 6 := by omega
    have h7 : d ≠ 7 := by omega
    have h8 : d ≠ 8 := by omega
    have h9 : d ≠ 9 := by omega
    have h10 : d ≠ 10 := by omega
    have h11 : d ≠ 11 := by omega
    have h12 : d ≠ 12 := by omega
    have h13 : d ≠ 13 := by omega
    have h14 : d ≠ 14 := by omega
    have h15 : d ≠ 15 := by omega
    simp only [Nat.digitChar, h0, h1, h2, h3, h4, h5, h6, h7, h8, h9, h10, h11, h12, h13, h14, h15, if_false]
    decide

/-- The digits of a number hold no newline. -/
theorem toDigitsCore_no_newline (b : Nat) (fuel n : Nat) (ds : List Char)
    (h : '\n' ∉ ds) : '\n' ∉ Nat.toDigitsCore b fuel n ds := by
  induction fuel generalizing n ds with
  | zero => simpa [Nat.toDigitsCore] using h
  | succ fuel ih =>
    have hd : '\n' ∉ Nat.digitChar (n % b) :: ds := by
      simp only [List.mem_cons, not_or]
      exact ⟨fun e => digitChar_ne_newline _ e.symm, h⟩
    simp only [Nat.toDigitsCore]
    split_ifs
    · exact hd
    · exact ih _ _ hd

/-- A natural number is written without a newline. -/
theorem no_newline_toString_nat (n : Nat) : no_newline (toString n) := by
  simp only [no_newline, toString, Nat.repr, List.asString]
  exact toDigitsCore_no_newline 10 _ _ [] (by simp)

/-- An integer is written without a newline. -/
theorem no_newline_toString_int (i : Int) : no_newline (toString i) := by
  cases i with
  | ofNat m => exact no_newline_toString_nat m
  | negSucc m =>
    have h := no_newline_toString_nat (m + 1)
    simp only [no_newline] at h
    simp only [no_newline, toString, String.data_append, List.mem_append, not_or]
    exact ⟨by decide, h⟩

/-- Padding adds blanks only. -/
theorem no_newline_pad (left : Bool) (width : Nat) (s : String) (h : no_newline s) :
    no_newline (pad left width s) := by
  simp only [no_newline] at h
  cases left <;> simp [no_newline, pad, h]

/-- The `%#lx` conversion writes no newline. -/
theorem no_newline_hex_alt (v : Nat) : no_newline (hex_alt v) := by
  unfold hex_alt
  split_ifs
  · simp [no_newline]
  · simp only [no_newline, String.data_append, List.mem_append, not_or]
    exact ⟨by decide, toDigitsCore_no_newline 16 _ _ [] (by simp)⟩

/-- The pieces of one line are written as one line. -/
theorem one_line_render (f : String → double → String) (out : Out)
    (h : line_shaped f out) : one_line (render f out) := by
  obtain ⟨hinit, s, hlast, hs1, hs2⟩ := h
  have hout : out = out.dropLast ++ [.lit s] := by
    have hmem : Piece.lit s ∈ out.getLast? := by simp [hlast]
    exact (List.dropLast_append_getLast? (Piece.lit s) hmem).symm
  have hne : s.data ≠ [] := by
    intro he
    simp [he] at hs1
  have hA : '\n' ∉ (out.dropLast.map (fun p => (p.render f).data)).flatten := by
    simp only [List.mem_flatten, List.mem_map, not_exists, not_and]
    rintro l ⟨p, hp, rfl⟩ hmem
    exact hinit p hp hmem
  have hd : (render f out).data =
      (out.dropLast.map (fun p => (p.render f).data)).flatten ++ s.data := by
    rw [render_data]
    conv_lhs => rw [hout]
    simp [Piece.render]
  refine ⟨?_, ?_⟩
  · rw [hd, List.getLast?_append_of_ne_nil _ hne]
    exact hs1
  · rw [hd, List.dropLast_append_of_ne_nil _ hne]
    simp only [List.mem_append, not_or]
    exact ⟨hA, hs2⟩

/-- Pieces written without a newline may stand in front of a line. -/
theorem line_shaped_append (f : String → double → String) (a b : Out)
    (ha : ∀ p ∈ a, no_newline (p.render f)) (hb : line_shaped f b) :
    line_shaped f (a ++ b) := by
  obtain ⟨hinit, s, hlast, hs⟩ := hb
  have hne : b ≠ [] := by
    intro he
    simp [he] at hlast
  refine ⟨?_, s, ?_, hs⟩
  · rw [List.dropLast_append_of_ne_nil _ hne]
    intro p hp
    rcases List.mem_append.1 hp with h | h
    · exact ha p h
    · exact hinit p h
  · rw [List.getLast?_append_of_ne_nil _ hne]
    exact hlast

/-- A piece whose text holds no newline is written without a newline, when
the `%f` conversions write none. -/
theorem no_newline_render (f : String → double → String)
    (hf : ∀ spec v, no_newline (f spec v)) (p : Piece) (h : p.text_clean) :
    no_newline (p.render f) := by
  cases p with
  | lit s => exact h
  | str left width v => exact no_newline_pad left width v h
  | dec width v => exact no_newline_pad false width _ (no_newline_toString_int v)
  | uns v => exact no_newline_toString_nat v
  | hex v => exact no_newline_hex_alt v
  | flt spec v => exact hf spec v

/-- A piece written without a newline may stand in front of a line. -/
theorem line_shaped_cons (f : String → double → String) (p q : Piece) (rest : Out)
    (hp : no_newline (p.render f)) (h : line_shaped f (q :: rest)) :
    line_shaped f (p :: q :: rest) := by
  have := line_shaped_append f [p] (q :: rest) (by simpa using hp) h
  simpa using this

/-- A literal that is one line is a line. -/
theorem line_shaped_singleton (f : String → double → String) (s : String)
    (h : one_line s) : line_shaped f [.lit s] :=
  ⟨by simp, s, rfl, h⟩

/-- The timestamp is written without a newline. -/
theorem print_event_time_clean (f : String → double → String)
    (hf : ∀ spec v, no_newline (f spec v)) (start_time time : Nat) :
    ∀ p ∈ print_event_time start_time time, no_newline (p.render f) := by
  intro p hp
  apply no_newline_render f hf
  simp only [print_event_time, List.mem_cons, List.mem_singleton, List.not_mem_nil,
    or_false] at hp
  rcases hp with rfl | rfl <;> simp [Piece.text_clean, no_newline]

/-- The output of `print_key_event` is one line. -/
theorem print_key_event_line (env : Env) (ev : libinput_event)
    (hf : ∀ spec v, no_newline (env.printf_double spec v)) (hs : strings_clean env ev) :
    line_shaped env.printf_double (print_key_event env ev) := by
  obtain ⟨-, -, -, -, hk⟩ := hs
  apply line_shaped_append _ _ _ (print_event_time_clean _ hf _ _)
  repeat' (first | apply line_shaped_cons | apply line_shaped_singleton)
  all_goals first | apply no_newline_render _ hf | skip
  all_goals simp [Piece.text_clean, no_newline, one_line]
  · split
    · rename_i n h
      exact hk _ _ h
    · simp
  · split <;> simp

/-- The changed-marker holds no newline. -/
theorem changed_sym_clean (b : Bool) : '\n' ∉ (changed_sym b).data := by
  cases b <;> simp [changed_sym]

/-- The source names hold no newline. -/
theorem pad_source_name_clean (x : libinput_tablet_pad_source) :
    '\n' ∉ (pad_source_name x).data := by
  cases x <;> simp [pad_source_name]

/-- The tool names hold no newline. -/
theorem tool_type_str_clean (x : libinput_tablet_tool_type) :
    '\n' ∉ (tool_type_str x).data := by
  cases x <;> simp [tool_type_str]

/-- The output of `print_motion_event` is one line. -/
theorem print_motion_event_line (env : Env) (ev : libinput_event)
    (hf : ∀ spec v, no_newline (env.printf_double spec v)) :
    line_shaped env.printf_double (print_motion_event env ev) := by
  apply line_shaped_append _ _ _ (print_event_time_clean _ hf _ _)
  repeat' (first | apply line_shaped_cons | apply line_shaped_singleton)
  all_goals first | apply no_newline_render _ hf | skip
  all_goals simp [Piece.text_clean, no_newline, one_line, pad_source_name_clean]

/-- The output of `print_absmotion_event` is one line. -/
theorem print_absmotion_event_line (env : Env) (ev : libinput_event)
    (hf : ∀ spec v, no_newline (env.printf_double spec v)) :
    line_shaped env.printf_double (print_absmotion_event env ev) := by
  apply line_shaped_append _ _ _ (print_event_time_clean _ hf _ _)
  repeat' (first | apply line_shaped_cons | apply line_shaped_singleton)
  all_goals first | apply no_newline_render _ hf | skip
  all_goals simp [Piece.text_clean, no_newline, one_line, pad_source_name_clean]

/-- The output of `print_pointer_button_event` is one line. -/
theorem print_pointer_button_event_line (env : Env) (ev : libinput_event)
    (hf : ∀ spec v, no_newline (env.printf_double spec v)) (hs : strings_clean env ev) :
    line_shaped env.printf_double (print_pointer_button_event env ev) := by
  obtain ⟨-, -, -, -, hk⟩ := hs
  apply line_shaped_append _ _ _ (print_event_time_clean _ hf _ _)
  repeat' (first | apply line_shaped_cons | apply line_shaped_singleton)
  all_goals first | apply no_newline_render _ hf | skip
  all_goals simp [Piece.text_clean, no_newline, one_line, pad_source_name_clean]
  · split
    · rename_i n h
      exact hk _ _ h
    · simp
  · split <;> simp

/-- The output of `print_touch_event_with_coords` is one line. -/
theorem print_touch_event_with_coords_line (env : Env) (ev : libinput_event)
    (hf : ∀ spec v, no_newline (env.printf_double spec v)) :
    line_shaped env.printf_double (print_touch_event_with_coords env ev) := by
  apply line_shaped_append _ _ _ (print_event_time_clean _ hf _ _)
  repeat' (first | apply line_shaped_cons | apply line_shaped_singleton)
  all_goals first | apply no_newline_render _ hf | skip
  all_goals simp [Piece.text_clean, no_newline, one_line, pad_source_name_clean]

/-- The output of `print_touch_event_without_coords` is one line. -/
theorem print_touch_event_without_coords_line (env : Env) (ev : libinput_event)
    (hf : ∀ spec v, no_newline (env.printf_double spec v)) :
    line_shaped env.printf_double (print_touch_event_without_coords env ev) := by
  apply line_shaped_append _ _ _ (print_event_time_clean _ hf _ _)
  exact line_shaped_singleton _ _ (by simp [one_line])

/-- The output of `print_tablet_tip_event` is one line. -/
theorem print_tablet_tip_event_line (env : Env) (ev : libinput_event)
    (hf : ∀ spec v, no_newline (env.printf_double spec v)) :
    line_shaped env.printf_double (print_tablet_tip_event env ev) := by
  apply line_shaped_append _ _ _ (print_event_time_clean _ hf _ _)
  repeat' (first | apply line_shaped_cons | apply line_shaped_singleton)
  all_goals first | apply no_newline_render _ hf | skip
  all_goals simp [Piece.text_clean, no_newline, one_line, pad_source_name_clean]
  split <;> simp

/-- The output of `print_tablet_button_event` is one line. -/
theorem print_tablet_button_event_line (env : Env) (ev : libinput_event)
    (hf : ∀ spec v, no_newline (env.printf_double spec v)) :
    line_shaped env.printf_double (print_tablet_button_event env ev) := by
  apply line_shaped_append _ _ _ (print_event_time_clean _ hf _ _)
  repeat' (first | apply line_shaped_cons | apply line_shaped_singleton)
  all_goals first | apply no_newline_render _ hf | skip
  all_goals simp [Piece.text_clean, no_newline, one_line, pad_source_name_clean]
  split <;> simp

/-- The output of `print_tablet_pad_button_event` is one line. -/
theorem print_tablet_pad_button_event_line (env : Env) (ev : libinput_event)
    (hf : ∀ spec v, no_newline (env.printf_double spec v)) :
    line_shaped env.printf_double (print_tablet_pad_button_event env ev) := by
  apply line_shaped_append _ _ _ (print_event_time_clean _ hf _ _)
  repeat' (first | apply line_shaped_cons | apply line_shaped_singleton)
  all_goals first | apply no_newline_render _ hf | skip
  all_goals simp [Piece.text_clean, no_newline, one_line, pad_source_name_clean]
  split <;> simp

/-- The output of `print_tablet_pad_ring_event` is one line. -/
theorem print_tablet_pad_ring_event_line (env : Env) (ev : libinput_event)
    (hf : ∀ spec v, no_newline (env.printf_double spec v)) :
    line_shaped env.printf_double (print_tablet_pad_ring_event env ev) := by
  apply line_shaped_append _ _ _ (print_event_time_clean _ hf _ _)
  repeat' (first | apply line_shaped_cons | apply line_shaped_singleton)
  all_goals first | apply no_newline_render _ hf | skip
  all_goals simp [Piece.text_clean, no_newline, one_line, pad_source_name_clean]

/-- The output of `print_tablet_pad_strip_event` is one line. -/
theorem print_tablet_pad_strip_event_line (env : Env) (ev : libinput_event)
    (hf : ∀ spec v, no_newline (env.printf_double spec v)) :
    line_shaped env.printf_double (print_tablet_pad_strip_event env ev) := by
  apply line_shaped_append _ _ _ (print_event_time_clean _ hf _ _)
  repeat' (first | apply line_shaped_cons | apply line_shaped_singleton)
  all_goals first | apply no_newline_render _ hf | skip
  all_goals simp [Piece.text_clean, no_newline, one_line, pad_source_name_clean]

/-- The output of `print_pointer_axis_event` is one line. -/
theorem print_pointer_axis_event_line (env : Env) (ev : libinput_event)
    (hf : ∀ spec v, no_newline (env.printf_double spec v)) :
    line_shaped env.printf_double (print_pointer_axis_event env ev) := by
  cases hv : ev.pointer.has_axis_vertical <;> cases hh : ev.pointer.has_axis_horizontal <;>
    simp only [print_pointer_axis_event, hv, hh, Id.run] <;>
    apply line_shaped_append _ _ _ (print_event_time_clean _ hf _ _) <;>
    repeat' (first | apply line_shaped_cons | apply line_shaped_singleton)
  all_goals first | apply no_newline_render _ hf | simp [one_line]
  all_goals simp [Piece.text_clean, no_newline]

/-- The output of `print_gesture_event_without_coords` is one line. -/
theorem print_gesture_event_without_coords_line (env : Env) (ev : libinput_event)
    (hf : ∀ spec v, no_newline (env.printf_double spec v)) :
    line_shaped env.printf_double (print_gesture_event_without_coords env ev) := by
  simp only [print_gesture_event_without_coords, Id.run, pure, bind]
  split_ifs <;>
    apply line_shaped_append _ _ _ (print_event_time_clean _ hf _ _) <;>
    repeat' (first | apply line_shaped_cons | apply line_shaped_singleton)
  all_goals first | apply no_newline_render _ hf | skip
  all_goals simp [Piece.text_clean, no_newline, one_line]

/-- The output of `print_gesture_event_with_coords` is one line. -/
theorem print_gesture_event_with_coords_line (env : Env) (ev : libinput_event)
    (hf : ∀ spec v, no_newline (env.printf_double spec v)) :
    line_shaped env.printf_double (print_gesture_event_with_coords env ev) := by
  simp only [print_gesture_event_with_coords, Id.run, pure, bind]
  split_ifs <;>
    simp only [List.append_assoc] <;>
    apply line_shaped_append _ _ _ (print_event_time_clean _ hf _ _) <;>
    simp only [List.cons_append, List.nil_append] <;>
    repeat' (first | apply line_shaped_cons | apply line_shaped_singleton)
  all_goals first | apply no_newline_render _ hf | skip
  all_goals simp [Piece.text_clean, no_newline, one_line]

/-- Nothing is written without a newline. -/
theorem all_clean_nil (f : String → double → String) : all_clean f [] ↔ True := by
  simp [all_clean]

/-- A piece in front of pieces. -/
theorem all_clean_cons (f : String → double → String) (p : Piece) (rest : Out) :
    all_clean f (p :: rest) ↔ no_newline (p.render f) ∧ all_clean f rest := by
  simp [all_clean]

/-- Pieces after pieces. -/
theorem all_clean_append (f : String → double → String) (a b : Out) :
    all_clean f (a ++ b) ↔ all_clean f a ∧ all_clean f b := by
  simp only [all_clean, List.mem_append]
  constructor
  · intro h
    exact ⟨fun p hp => h p (Or.inl hp), fun p hp => h p (Or.inr hp)⟩
  · rintro ⟨ha, hb⟩ p (hp | hp)
    · exact ha p hp
    · exact hb p hp

/-- Pieces on two branches. -/
theorem all_clean_ite (f : String → double → String) (c : Prop) [Decidable c] (a b : Out) :
    all_clean f (if c then a else b) ↔ (c → all_clean f a) ∧ (¬ c → all_clean f b) := by
  split_ifs with h <;> simp [h]

/-- Literal text is written as it is. -/
theorem no_newline_render_lit (f : String → double → String) (s : String) :
    no_newline (Piece.render f (.lit s)) ↔ no_newline s :=
  Iff.rfl

/-- A string conversion writes a newline only if the string holds one. -/
theorem no_newline_render_str (f : String → double → String) (left : Bool) (width : Nat)
    (v : String) : no_newline (Piece.render f (.str left width v)) ↔ no_newline v := by
  cases left <;> simp [Piece.render, no_newline, pad]

/-- The integer conversions write no newline. -/
theorem no_newline_render_dec (f : String → double → String) (width : Nat) (v : Int) :
    no_newline (Piece.render f (.dec width v)) ↔ True :=
  iff_of_true (no_newline_pad false width _ (no_newline_toString_int v)) trivial

/-- The unsigned conversion writes no newline. -/
theorem no_newline_render_uns (f : String → double → String) (v : Nat) :
    no_newline (Piece.render f (.uns v)) ↔ True :=
  iff_of_true (no_newline_toString_nat v) trivial

/-- The hexadecimal conversion writes no newline. -/
theorem no_newline_render_hex (f : String → double → String) (v : Nat) :
    no_newline (Piece.render f (.hex v)) ↔ True :=
  iff_of_true (no_newline_hex_alt v) trivial

/-- A `%f` conversion writes what the C library writes. -/
theorem no_newline_render_flt (f : String → double → String) (spec : String) (v : double) :
    no_newline (Piece.render f (.flt spec v)) ↔ no_newline (f spec v) :=
  Iff.rfl

/-- Every piece of the axis block is written without a newline. -/
theorem print_tablet_axes_clean (f : String → double → String)
    (hf : ∀ spec v, no_newline (f spec v)) (t : libinput_event_tablet_tool) :
    all_clean f (print_tablet_axes t) := by
  simp only [print_tablet_axes, all_clean_append, all_clean_ite, all_clean_cons, all_clean_nil,
    no_newline_render_lit, no_newline_render_str, no_newline_render_dec,
    no_newline_render_flt, hf]
  simp [no_newline, changed_sym_clean]

/-- The tool descriptor is one line. -/
theorem print_proximity_tail_line (f : String → double → String)
    (tool : libinput_tablet_tool)
    (tool_str state_str : String) (h1 : no_newline tool_str) (h2 : no_newline state_str) :
    line_shaped f (print_proximity_tail tool tool_str state_str) := by
  simp only [print_proximity_tail]
  apply line_shaped_append
  · change all_clean f _
    simp only [all_clean_append, all_clean_ite, all_clean_cons, all_clean_nil,
      no_newline_render_lit, no_newline_render_str, no_newline_render_hex, h1, h2]
    simp [no_newline]
  · exact line_shaped_singleton f _ (by simp [one_line])

/-- The device line is one line. -/
theorem print_device_notify_line_line (f : String → double → String)
    (hf : ∀ spec v, no_newline (f spec v)) (dev : libinput_device) (group_id : Int)
    (h1 : no_newline dev.name) (h2 : no_newline dev.seat.physical_name)
    (h3 : no_newline dev.seat.logical_name) :
    line_shaped f (print_device_notify_line dev group_id) := by
  simp only [print_device_notify_line]
  apply line_shaped_append
  · change all_clean f _
    cases hsz : dev.size with
    | none =>
      simp only [all_clean_append, all_clean_ite, all_clean_cons, all_clean_nil,
        no_newline_render_lit, no_newline_render_str, no_newline_render_dec, h1, h2, h3]
      simp [no_newline]
    | some wh =>
      simp only [all_clean_append, all_clean_ite, all_clean_cons, all_clean_nil,
        no_newline_render_lit, no_newline_render_str, no_newline_render_dec,
        no_newline_render_flt, hf, h1, h2, h3]
      simp [no_newline]
  · exact line_shaped_singleton f _ (by simp [one_line])

/-- The output of `print_tablet_axis_event` is one line. -/
theorem print_tablet_axis_event_line (env : Env) (ev : libinput_event)
    (hf : ∀ spec v, no_newline (env.printf_double spec v)) :
    line_shaped env.printf_double (print_tablet_axis_event env ev) := by
  simp only [print_tablet_axis_event]
  apply line_shaped_append
  · change all_clean _ _
    rw [all_clean_append]
    exact ⟨print_event_time_clean _ hf _ _, print_tablet_axes_clean _ hf _⟩
  · exact line_shaped_singleton _ _ (by simp [one_line])

/-- The output of a completed `print_proximity_event` is one line. -/
theorem print_proximity_event_line (env : Env) (ev : libinput_event) (out : Out)
    (hf : ∀ spec v, no_newline (env.printf_double spec v))
    (h : print_proximity_event env ev = .ok out) :
    line_shaped env.printf_double out := by
  have htype : ∀ raw, ev.tablet_tool.tool.type ≠ .invalid raw := by
    intro raw ht
    simp [print_proximity_event, ht, bind, Except.bind] at h
  cases hs : ev.tablet_tool.proximity_state with
  | IN =>
    rw [(print_proximity_event_eq env ev htype).1 hs] at h
    injection h with h
    subst h
    apply line_shaped_append
    · change all_clean _ _
      rw [all_clean_append]
      exact ⟨print_event_time_clean _ hf _ _, print_tablet_axes_clean _ hf _⟩
    · exact print_proximity_tail_line _ _ _ _ (tool_type_str_clean _) (by simp [no_newline])
  | OUT =>
    rw [(print_proximity_event_eq env ev htype).2 hs] at h
    injection h with h
    subst h
    apply line_shaped_append _ _ _ (print_event_time_clean _ hf _ _)
    apply line_shaped_append
    · change all_clean _ _
      simp only [all_clean_cons, all_clean_nil, no_newline_render_lit]
      simp [no_newline]
    · exact print_proximity_tail_line _ _ _ _ (tool_type_str_clean _) (by simp [no_newline])
  | invalid raw =>
    cases ht : ev.tablet_tool.tool.type <;>
      simp [print_proximity_event, ht, hs, bind, Except.bind, pure, Except.pure] at h

/-- The header is written without a newline when the sysname holds none. -/
theorem header_clean (f : String → double → String) (sysname type : String)
    (h1 : no_newline sysname) (h2 : no_newline type) :
    all_clean f [.str true 7 sysname, .lit "\t", .str true 16 type, .lit " "] := by
  simp only [all_clean_cons, all_clean_nil, no_newline_render_lit, no_newline_render_str, h1,
    h2]
  simp [no_newline]

/-- The pieces written for a valid event are those of one line. -/
theorem event_line_shaped (env : Env) (ev : libinput_event) (st : notify_state)
    (hv : event_valid ev = true)
    (hf : ∀ spec v, no_newline (env.printf_double spec v)) (hs : strings_clean env ev) :
    line_shaped env.printf_double (event_line env ev st).1 := by
  have hsys : no_newline ev.device.sysname := hs.1
  cases ht : ev.type
  case NONE => simp [event_valid, ht] at hv
  case TABLET_TOOL_PROXIMITY =>
    simp only [event_valid, ht, Bool.and_eq_true] at hv
    obtain ⟨out, hout⟩ := print_proximity_event_ok env ev hv.1 hv.2
    simp only [event_line, handle_event, print_event_header, ht, hout, bind, Except.bind, pure,
      Except.pure, stdout_of, List.append_nil]
    exact line_shaped_append _ _ _ (header_clean _ _ _ hsys (by simp [no_newline]))
      (print_proximity_event_line env ev out hf hout)
  case DEVICE_ADDED =>
    simp only [event_line, handle_event, print_event_header, ht, bind, Except.bind, pure,
      Except.pure, stdout_of, List.append_nil]
    exact line_shaped_append _ _ _ (header_clean _ _ _ hsys (by simp [no_newline]))
      (by
        simp only [print_device_notify]
        exact print_device_notify_line_line _ hf _ _ hs.2.1 hs.2.2.1 hs.2.2.2.1)
  case DEVICE_REMOVED =>
    simp only [event_line, handle_event, print_event_header, ht, bind, Except.bind, pure,
      Except.pure, stdout_of, List.append_nil]
    exact line_shaped_append _ _ _ (header_clean _ _ _ hsys (by simp [no_newline]))
      (by
        simp only [print_device_notify]
        exact print_device_notify_line_line _ hf _ _ hs.2.1 hs.2.2.1 hs.2.2.2.1)
  case KEYBOARD_KEY =>
    simp only [event_line, handle_event, print_event_header, ht, bind, Except.bind, pure,
      Except.pure, stdout_of, List.append_nil]
    exact line_shaped_append _ _ _ (header_clean _ _ _ hsys (by simp [no_newline]))
      (print_key_event_line env ev hf hs)
  case POINTER_MOTION =>
    simp only [event_line, handle_event, print_event_header, ht, bind, Except.bind, pure,
      Except.pure, stdout_of, List.append_nil]
    exact line_shaped_append _ _ _ (header_clean _ _ _ hsys (by simp [no_newline]))
      (print_motion_event_line env ev hf)
  case POINTER_MOTION_ABSOLUTE =>
    simp only [event_line, handle_event, print_event_header, ht, bind, Except.bind, pure,
      Except.pure, stdout_of, List.append_nil]
    exact line_shaped_append _ _ _ (header_clean _ _ _ hsys (by simp [no_newline]))
      (print_absmotion_event_line env ev hf)
  case POINTER_BUTTON =>
    simp only [event_line, handle_event, print_event_header, ht, bind, Except.bind, pure,
      Except.pure, stdout_of, List.append_nil]
    exact line_shaped_append _ _ _ (header_clean _ _ _ hsys (by simp [no_newline]))
      (print_pointer_button_event_line env ev hf hs)
  case POINTER_AXIS =>
    simp only [event_line, handle_event, print_event_header, ht, bind, Except.bind, pure,
      Except.pure, stdout_of, List.append_nil]
    exact line_shaped_append _ _ _ (header_clean _ _ _ hsys (by simp [no_newline]))
      (print_pointer_axis_event_line env ev hf)
  case TOUCH_DOWN =>
    simp only [event_line, handle_event, print_event_header, ht, bind, Except.bind, pure,
      Except.pure, stdout_of, List.append_nil]
    exact line_shaped_append _ _ _ (header_clean _ _ _ hsys (by simp [no_newline]))
      (print_touch_event_with_coords_line env ev hf)
  case TOUCH_MOTION =>
    simp only [event_line, handle_event, print_event_header, ht, bind, Except.bind, pure,
      Except.pure, stdout_of, List.append_nil]
    exact line_shaped_append _ _ _ (header_clean _ _ _ hsys (by simp [no_newline]))
      (print_touch_event_with_coords_line env ev hf)
  case TOUCH_UP =>
    simp only [event_line, handle_event, print_event_header, ht, bind, Except.bind, pure,
      Except.pure, stdout_of, List.append_nil]
    exact line_shaped_append _ _ _ (header_clean _ _ _ hsys (by simp [no_newline]))
      (print_touch_event_without_coords_line env ev hf)
  case TOUCH_CANCEL =>
    simp only [event_line, handle_event, print_event_header, ht, bind, Except.bind, pure,
      Except.pure, stdout_of, List.append_nil]
    exact line_shaped_append _ _ _ (header_clean _ _ _ hsys (by simp [no_newline]))
      (print_touch_event_without_coords_line env ev hf)
  case TOUCH_FRAME =>
    simp only [event_line, handle_event, print_event_header, ht, bind, Except.bind, pure,
      Except.pure, stdout_of, List.append_nil]
    exact line_shaped_append _ _ _ (header_clean _ _ _ hsys (by simp [no_newline]))
      (print_touch_event_without_coords_line env ev hf)
  case GESTURE_SWIPE_BEGIN =>
    simp only [event_line, handle_event, print_event_header, ht, bind, Except.bind, pure,
      Except.pure, stdout_of, List.append_nil]
    exact line_shaped_append _ _ _ (header_clean _ _ _ hsys (by simp [no_newline]))
      (print_gesture_event_without_coords_line env ev hf)
  case GESTURE_SWIPE_UPDATE =>
    simp only [event_line, handle_event, print_event_header, ht, bind, Except.bind, pure,
      Except.pure, stdout_of, List.append_nil]
    exact line_shaped_append _ _ _ (header_clean _ _ _ hsys (by simp [no_newline]))
      (print_gesture_event_with_coords_line env ev hf)
  case GESTURE_SWIPE_END =>
    simp only [event_line, handle_event, print_event_header, ht, bind, Except.bind, pure,
      Except.pure, stdout_of, List.append_nil]
    exact line_shaped_append _ _ _ (header_clean _ _ _ hsys (by simp [no_newline]))
      (print_gesture_event_without_coords_line env ev hf)
  case GESTURE_PINCH_BEGIN =>
    simp only [event_line, handle_event, print_event_header, ht, bind, Except.bind, pure,
      Except.pure, stdout_of, List.append_nil]
    exact line_shaped_append _ _ _ (header_clean _ _ _ hsys (by simp [no_newline]))
      (print_gesture_event_without_coords_line env ev hf)
  case GESTURE_PINCH_UPDATE =>
    simp only [event_line, handle_event, print_event_header, ht, bind, Except.bind, pure,
      Except.pure, stdout_of, List.append_nil]
    exact line_shaped_append _ _ _ (header_clean _ _ _ hsys (by simp [no_newline]))
      (print_gesture_event_with_coords_line env ev hf)
  case GESTURE_PINCH_END =>
    simp only [event_line, handle_event, print_event_header, ht, bind, Except.bind, pure,
      Except.pure, stdout_of, List.append_nil]
    exact line_shaped_append _ _ _ (header_clean _ _ _ hsys (by simp [no_newline]))
      (print_gesture_event_without_coords_line env ev hf)
  case TABLET_TOOL_AXIS =>
    simp only [event_line, handle_event, print_event_header, ht, bind, Except.bind, pure,
      Except.pure, stdout_of, List.append_nil]
    exact line_shaped_append _ _ _ (header_clean _ _ _ hsys (by simp [no_newline]))
      (print_tablet_axis_event_line env ev hf)
  case TABLET_TOOL_TIP =>
    simp only [event_line, handle_event, print_event_header, ht, bind, Except.bind, pure,
      Except.pure, stdout_of, List.append_nil]
    exact line_shaped_append _ _ _ (header_clean _ _ _ hsys (by simp [no_newline]))
      (print_tablet_tip_event_line env ev hf)
  case TABLET_TOOL_BUTTON =>
    simp only [event_line, handle_event, print_event_header, ht, bind, Except.bind, pure,
      Except.pure, stdout_of, List.append_nil]
    exact line_shaped_append _ _ _ (header_clean _ _ _ hsys (by simp [no_newline]))
      (print_tablet_button_event_line env ev hf)
  case TABLET_PAD_BUTTON =>
    simp only [event_line, handle_event, print_event_header, ht, bind, Except.bind, pure,
      Except.pure, stdout_of, List.append_nil]
    exact line_shaped_append _ _ _ (header_clean _ _ _ hsys (by simp [no_newline]))
      (print_tablet_pad_button_event_line env ev hf)
  case TABLET_PAD_RING =>
    simp only [event_line, handle_event, print_event_header, ht, bind, Except.bind, pure,
      Except.pure, stdout_of, List.append_nil]
    exact line_shaped_append _ _ _ (header_clean _ _ _ hsys (by simp [no_newline]))
      (print_tablet_pad_ring_event_line env ev hf)
  case TABLET_PAD_STRIP =>
    simp only [event_line, handle_event, print_event_header, ht, bind, Except.bind, pure,
      Except.pure, stdout_of, List.append_nil]
    exact line_shaped_append _ _ _ (header_clean _ _ _ hsys (by simp [no_newline]))
      (print_tablet_pad_strip_event_line env ev hf)

/-- C16: for every event with a valid tag (and, for a proximity event, a tool
type and a proximity state of their enumerations), when sysname, device name,
seat names and key or button names hold no newline and the `%f` conversions
of the C library write none, the text written by `print_event_header`
followed by the renderer ends with a newline character and holds no other
newline: the event is rendered as exactly one line. -/
theorem event_line_one_line (env : Env) (ev : libinput_event) (st : notify_state)
    (hv : event_valid ev = true)
    (hf : ∀ spec v, no_newline (env.printf_double spec v)) (hs : strings_clean env ev) :
    one_line (render env.printf_double (event_line env ev st).1) :=
  one_line_render _ _ (event_line_shaped env ev st hv hf hs)

/-- The reference rendering of the `%f` conversions writes no newline. -/
theorem printf_double_ref_clean (spec : String) (v : double) :
    no_newline (printf_double_ref spec v) := by
  have hfix : ∀ plus, no_newline (fixed2 plus v) := by
    intro plus
    have h1 := no_newline_toString_nat (round_half_even (v.num.natAbs * 100) v.den / 100)
    have h2 := no_newline_toString_nat (round_half_even (v.num.natAbs * 100) v.den % 100)
    simp only [no_newline] at h1 h2
    simp only [no_newline, fixed2, String.data_append, List.mem_append, not_or]
    refine ⟨⟨⟨⟨?_, h1⟩, by simp⟩, ?_⟩, h2⟩
    · split_ifs <;> simp
    · split_ifs <;> simp
  unfold printf_double_ref
  split_ifs
  · exact hfix false
  · exact no_newline_pad _ _ _ (hfix false)
  · exact no_newline_pad _ _ _ (hfix false)
  · exact no_newline_pad _ _ _ (hfix true)
  · simp [no_newline]

/-- The key event of the concrete inputs: it is valid, its strings hold no
newline, and it is written as one line. -/
theorem event_line_one_line_witness :
    event_valid ev_key = true ∧
    (∀ spec v, no_newline (env0.printf_double spec v)) ∧
    strings_clean env0 ev_key ∧
    one_line (render env0.printf_double (event_line env0 ev_key notify_state.initial).1) := by
  have hs : strings_clean env0 ev_key := by
    simp [strings_clean, no_newline, env0, ev_key, ev0, dev0, seat0]
  exact ⟨rfl, printf_double_ref_clean, hs,
    event_line_one_line env0 ev_key notify_state.initial rfl printf_double_ref_clean hs⟩

/-! ### Dispatch -/

/-- For a valid tag `print_event_header` writes sysname, tab, kind name and a
blank. -/
theorem print_event_header_eq (ev : libinput_event) (h : ev.type ≠ .NONE) :
    print_event_header ev = .ok (header_of ev) := by
  cases ht : ev.type <;>
    first
    | exact absurd ht h
    | simp [print_event_header, header_of, kind_name, ht, bind, Except.bind, pure, Except.pure]

/-- C17: for each of the 25 valid tags, `handle_and_print_events` handles the
event by writing the header and then running exactly one renderer, the one the
table assigns to the tag (followed by the applier call for the device-notify
tags); and the renderer for gestures with coordinates appends scale and
angle-delta if and only if the tag is GESTURE_PINCH_UPDATE. -/
theorem handle_event_dispatch (env : Env) (ev : libinput_event) (st : notify_state)
    (kind : renderer_kind) (hk : table_kind ev.type = some kind) :
    print_event_header ev = .ok (header_of ev) ∧
    handle_event env ev st =
      (match run_renderer env ev st kind with
       | .ok (body, st1) =>
         .ok (.stdout (header_of ev) :: .stdout body ::
           (if kind = .device_notify then
             [.apply_config ev.device env.options
               (tools_device_apply_config ev.device env.options)]
            else []), st1)
       | .error out => .error [.stdout (header_of ev), .stdout out]) ∧
    print_gesture_event_with_coords env ev =
      print_event_time env.start_time ev.gesture.time ++
        [.dec 0 ev.gesture.finger_count, .lit " ", .flt "%5.2f" ev.gesture.dx, .lit "/",
         .flt "%5.2f" ev.gesture.dy, .lit " (", .flt "%5.2f" ev.gesture.dx_unaccelerated,
         .lit "/", .flt "%5.2f" ev.gesture.dy_unaccelerated, .lit " unaccelerated)"] ++
        (if ev.type = .GESTURE_PINCH_UPDATE then
          [.lit " ", .flt "%5.2f" ev.gesture.scale, .lit " @ ",
           .flt "%5.2f" ev.gesture.angle_delta, .lit "\n"]
         else [.lit "\n"]) := by
  have hne : ev.type ≠ .NONE := by
    intro h
    simp [table_kind, h] at hk
  have hh := print_event_header_eq ev hne
  refine ⟨hh, ?_, ?_⟩
  · cases ht : ev.type <;> simp only [table_kind, ht, Option.some.injEq] at hk
    case NONE => cases hk
    case TABLET_TOOL_PROXIMITY =>
      subst hk
      cases hp : print_proximity_event env ev <;>
        simp [handle_event, hh, run_renderer, ht, hp]
    all_goals
      subst hk
      simp [handle_event, hh, run_renderer, ht]
  · by_cases hp : ev.type = .GESTURE_PINCH_UPDATE <;>
      simp [print_gesture_event_with_coords, hp, Id.run]

/-- A pointer-axis event: the table assigns the pointer-axis renderer, and the
event is handled by the header and that renderer alone. -/
theorem handle_event_dispatch_witness :
    table_kind ev0.type = some .pointer_axis ∧
    handle_event env0 ev0 notify_state.initial =
      .ok ([.stdout (header_of ev0), .stdout (print_pointer_axis_event env0 ev0)],
        notify_state.initial) :=
  ⟨rfl, (handle_event_dispatch env0 ev0 notify_state.initial .pointer_axis rfl).2.1⟩

/-! ### The header -/

/-- Left-justified padding keeps the whole string and fills with blanks up to
the width. -/
theorem pad_left_data (width : Nat) (s : String) :
    (pad true width s).data = s.data ++ List.replicate (width - s.length) ' ' := by
  simp [pad]

/-- Left-justified padding gives at least the width. -/
theorem pad_left_length (width : Nat) (s : String) :
    width ≤ (pad true width s).length := by
  have h : (pad true width s).length = s.length + (width - s.length) := by
    show (pad true width s).data.length = s.data.length + (width - s.data.length)
    rw [pad_left_data, List.length_append, List.length_replicate]
    rfl
  omega

/-- C18: for an event with a valid tag, `print_event_header` writes the
sysname left-justified and padded with blanks to at least 7 characters, a tab,
the kind name left-justified and padded with blanks to at least 16 characters,
and one blank; the kind name is the upper-case tag name, it is never cut
(POINTER_MOTION_ABSOLUTE, 23 characters, is written in full), and different
tags have different kind names. -/
theorem print_event_header_layout (f : String → double → String) (ev : libinput_event)
    (h : ev.type ≠ .NONE) :
    print_event_header ev = .ok (header_of ev) ∧
    (render f (header_of ev)).data =
      (ev.device.sysname.data ++ List.replicate (7 - ev.device.sysname.length) ' ') ++
        ['\t'] ++
        ((kind_name ev.type).data ++ List.replicate (16 - (kind_name ev.type).length) ' ') ++
        [' '] ∧
    7 ≤ (pad true 7 ev.device.sysname).length ∧
    16 ≤ (pad true 16 (kind_name ev.type)).length ∧
    pad true 16 (kind_name .POINTER_MOTION_ABSOLUTE) = "POINTER_MOTION_ABSOLUTE" ∧
    (∀ c ∈ (kind_name ev.type).data, c.isUpper = true ∨ c = '_') ∧
    (∀ t1 t2 : libinput_event_type, kind_name t1 = kind_name t2 → t1 = t2) := by
  refine ⟨print_event_header_eq ev h, ?_, ?_, ?_, ?_, ?_, ?_⟩
  · simp [header_of, render, Piece.render, pad]
  · exact pad_left_length 7 _
  · exact pad_left_length 16 _
  · decide
  · cases ev.type <;> decide
  · intro t1 t2 h12
    cases t1 <;> cases t2 <;> first | rfl | (simp [kind_name] at h12)

/-- An event of the device `event4` with the tag POINTER_AXIS: the header is
`event4`, one blank, a tab, `POINTER_AXIS`, four blanks and the closing
blank. -/
theorem print_event_header_layout_witness :
    ev0.type ≠ .NONE ∧
    print_event_header ev0 = .ok (header_of ev0) ∧
    render env0.printf_double (header_of ev0) = "event4 \tPOINTER_AXIS     " :=
  ⟨by decide, (print_event_header_layout env0.printf_double ev0 (by decide)).1, by decide⟩

/-! ### Timestamps first -/

/-- The device line holds no `%+6.2f` conversion. -/
theorem print_device_notify_line_no_time (dev : libinput_device) (group_id : Int) :
    ∀ p ∈ print_device_notify_line dev group_id, p.is_time = false := by
  have hall : List.all (print_device_notify_line dev group_id) (fun q => !q.is_time) = true := by
    simp only [print_device_notify_line, List.all_append, Bool.and_eq_true]
    repeat' constructor
    all_goals first | rfl | (repeat' split) <;> rfl
  intro p hp
  simpa using List.all_eq_true.1 hall p hp

/-- `print_pointer_axis_event` writes the timestamp first. -/
theorem print_pointer_axis_event_shape (env : Env) (ev : libinput_event) :
    print_pointer_axis_event env ev =
      print_event_time env.start_time ev.pointer.time ++
        [.lit "vert ",
         .flt "%.2f" (if ev.pointer.has_axis_vertical then ev.pointer.axis_value_vertical else 0),
         .str false 0 (if ev.pointer.has_axis_vertical then "*" else ""),
         .lit " horiz ",
         .flt "%.2f"
           (if ev.pointer.has_axis_horizontal then ev.pointer.axis_value_horizontal else 0),
         .str false 0 (if ev.pointer.has_axis_horizontal then "*" else ""),
         .lit "\n"] := by
  cases hv : ev.pointer.has_axis_vertical <;> cases hh : ev.pointer.has_axis_horizontal <;>
    simp [print_pointer_axis_event, hv, hh, Id.run]

/-- A proximity event with a tool type outside the enumeration aborts before
anything is written. -/
theorem print_proximity_event_bad_tool (env : Env) (ev : libinput_event) (raw : Nat)
    (h : ev.tablet_tool.tool.type = .invalid raw) :
    print_proximity_event env ev = .error [] := by
  simp [print_proximity_event, h, bind, Except.bind, pure, Except.pure]

/-- A proximity event with a tool type of the enumeration and a proximity
state that is neither in nor out aborts after the timestamp. -/
theorem print_proximity_event_bad_state (env : Env) (ev : libinput_event) (raw : Nat)
    (htype : ∀ raw, ev.tablet_tool.tool.type ≠ .invalid raw)
    (hs : ev.tablet_tool.proximity_state = .invalid raw) :
    print_proximity_event env ev =
      .error (print_event_time env.start_time ev.tablet_tool.time) := by
  cases hty : ev.tablet_tool.tool.type
  case invalid r => exact absurd hty (htype r)
  all_goals
    simp [print_proximity_event, hty, hs, bind, Except.bind, pure, Except.pure]

/-- The body written for an event that is not a device-notify event begins
with the timestamp of the event's own time field, unless the tag is the
no-event tag or the event is a proximity event with a tool type outside the
enumeration; a proximity state outside the enumeration cuts the line after
the timestamp. -/
theorem event_line_time_first (env : Env) (ev : libinput_event) (st : notify_state)
    (hne : ev.type ≠ .NONE) (hn : is_device_notify ev = false)
    (htool : ev.type = .TABLET_TOOL_PROXIMITY →
      ∀ raw, ev.tablet_tool.tool.type ≠ .invalid raw) :
    ∃ rest, (event_line env ev st).1 =
      header_of ev ++ (print_event_time env.start_time (own_time ev) ++ rest) := by
  have hh := print_event_header_eq ev hne
  cases ht : ev.type
  case NONE => exact absurd ht hne
  case DEVICE_ADDED => simp [is_device_notify, ht] at hn
  case DEVICE_REMOVED => simp [is_device_notify, ht] at hn
  case TABLET_TOOL_PROXIMITY =>
    have htype : ∀ raw, ev.tablet_tool.tool.type ≠ .invalid raw := htool ht
    cases hs : ev.tablet_tool.proximity_state with
    | IN =>
      have hp := (print_proximity_event_eq env ev htype).1 hs
      refine ⟨print_tablet_axes ev.tablet_tool ++ print_proximity_tail ev.tablet_tool.tool
        (tool_type_str ev.tablet_tool.tool.type) "proximity-in", ?_⟩
      simp [event_line, handle_event, hh, ht, hp, stdout_of, own_time]
    | OUT =>
      have hp := (print_proximity_event_eq env ev htype).2 hs
      refine ⟨[.lit "\t"] ++ print_proximity_tail ev.tablet_tool.tool
        (tool_type_str ev.tablet_tool.tool.type) "proximity-out", ?_⟩
      simp [event_line, handle_event, hh, ht, hp, stdout_of, own_time]
    | invalid raw =>
      have hp := print_proximity_event_bad_state env ev raw htype hs
      refine ⟨[], ?_⟩
      simp [event_line, handle_event, hh, ht, hp, stdout_of, own_time]
  case POINTER_AXIS =>
    simp only [event_line, handle_event, hh, ht, stdout_of, own_time, List.append_nil,
      print_pointer_axis_event_shape env ev]
    exact ⟨_, rfl⟩
  case TABLET_TOOL_AXIS =>
    refine ⟨print_tablet_axes ev.tablet_tool ++ [.lit "\n"], ?_⟩
    simp [event_line, handle_event, hh, ht, stdout_of, own_time, print_tablet_axis_event]
  case GESTURE_SWIPE_BEGIN =>
    simp only [event_line, handle_event, hh, ht, stdout_of, own_time, List.append_nil,
      print_gesture_event_without_coords, Id.run, pure, bind]
    split_ifs <;> exact ⟨_, rfl⟩
  case GESTURE_SWIPE_END =>
    simp only [event_line, handle_event, hh, ht, stdout_of, own_time, List.append_nil,
      print_gesture_event_without_coords, Id.run, pure, bind]
    split_ifs <;> exact ⟨_, rfl⟩
  case GESTURE_PINCH_BEGIN =>
    simp only [event_line, handle_event, hh, ht, stdout_of, own_time, List.append_nil,
      print_gesture_event_without_coords, Id.run, pure, bind]
    split_ifs <;> exact ⟨_, rfl⟩
  case GESTURE_PINCH_END =>
    simp only [event_line, handle_event, hh, ht, stdout_of, own_time, List.append_nil,
      print_gesture_event_without_coords, Id.run, pure, bind]
    split_ifs <;> exact ⟨_, rfl⟩
  case GESTURE_SWIPE_UPDATE =>
    simp only [event_line, handle_event, hh, ht, stdout_of, own_time, List.append_nil,
      print_gesture_event_with_coords, Id.run, pure, bind, List.append_assoc]
    exact ⟨_, rfl⟩
  case GESTURE_PINCH_UPDATE =>
    simp only [event_line, handle_event, hh, ht, stdout_of, own_time, List.append_nil,
      print_gesture_event_with_coords, Id.run, pure, bind, List.append_assoc]
    exact ⟨_, rfl⟩
  case KEYBOARD_KEY =>
    simp only [event_line, handle_event, hh, ht, stdout_of, own_time, List.append_nil, print_key_event]
    exact ⟨_, rfl⟩
  case POINTER_MOTION =>
    simp only [event_line, handle_event, hh, ht, stdout_of, own_time, List.append_nil, print_motion_event]
    exact ⟨_, rfl⟩
  case POINTER_MOTION_ABSOLUTE =>
    simp only [event_line, handle_event, hh, ht, stdout_of, own_time, List.append_nil, print_absmotion_event]
    exact ⟨_, rfl⟩
  case POINTER_BUTTON =>
    simp only [event_line, handle_event, hh, ht, stdout_of, own_time, List.append_nil, print_pointer_button_event]
    exact ⟨_, rfl⟩
  case TOUCH_DOWN =>
    simp only [event_line, handle_event, hh, ht, stdout_of, own_time, List.append_nil, print_touch_event_with_coords]
    exact ⟨_, rfl⟩
  case TOUCH_MOTION =>
    simp only [event_line, handle_event, hh, ht, stdout_of, own_time, List.append_nil, print_touch_event_with_coords]
    exact ⟨_, rfl⟩
  case TOUCH_UP =>
    simp only [event_line, handle_event, hh, ht, stdout_of, own_time, List.append_nil, print_touch_event_without_coords]
    exact ⟨_, rfl⟩
  case TOUCH_CANCEL =>
    simp only [event_line, handle_event, hh, ht, stdout_of, own_time, List.append_nil, print_touch_event_without_coords]
    exact ⟨_, rfl⟩
  case TOUCH_FRAME =>
    simp only [event_line, handle_event, hh, ht, stdout_of, own_time, List.append_nil, print_touch_event_without_coords]
    exact ⟨_, rfl⟩
  case TABLET_TOOL_TIP =>
    simp only [event_line, handle_event, hh, ht, stdout_of, own_time, List.append_nil, print_tablet_tip_event]
    exact ⟨_, rfl⟩
  case TABLET_TOOL_BUTTON =>
    simp only [event_line, handle_event, hh, ht, stdout_of, own_time, List.append_nil, print_tablet_button_event]
    exact ⟨_, rfl⟩
  case TABLET_PAD_BUTTON =>
    simp only [event_line, handle_event, hh, ht, stdout_of, own_time, List.append_nil, print_tablet_pad_button_event]
    exact ⟨_, rfl⟩
  case TABLET_PAD_RING =>
    simp only [event_line, handle_event, hh, ht, stdout_of, own_time, List.append_nil, print_tablet_pad_ring_event]
    exact ⟨_, rfl⟩
  case TABLET_PAD_STRIP =>
    simp only [event_line, handle_event, hh, ht, stdout_of, own_time, List.append_nil, print_tablet_pad_strip_event]
    exact ⟨_, rfl⟩


/-- Handling the proximity event with a tool type outside the enumeration: the
header is written, the renderer aborts with nothing written. -/
theorem handle_event_bad_tool :
    handle_event env0 ev_bad_tool notify_state.initial =
      .error [.stdout [.str true 7 "event4", .lit "\t", .str true 16 "TABLET_TOOL_PROXIMITY",
                .lit " "],
              .stdout []] := by
  have hp : print_proximity_event env0 ev_bad_tool = .error [] :=
    print_proximity_event_bad_tool env0 ev_bad_tool 99 rfl
  have ht : ev_bad_tool.type = .TABLET_TOOL_PROXIMITY := rfl
  have h0 := print_event_header_eq ev_bad_tool (by decide)
  simp only [handle_event, h0, ht, hp]
  rfl

/-- C19, the claim as stated fails: a proximity event whose tool type is
outside the enumeration has a tag that is neither DEVICE_ADDED nor
DEVICE_REMOVED, and its renderer aborts in the switch over the tool type,
before `print_event_time` is called: the header is all that is written, and
no piece of it is a timestamp. -/
theorem renderer_timestamp_first_counterexample :
    ev_bad_tool.type = .TABLET_TOOL_PROXIMITY ∧ is_device_notify ev_bad_tool = false ∧
    run_renderer env0 ev_bad_tool notify_state.initial .proximity = .error [] ∧
    handle_event env0 ev_bad_tool notify_state.initial =
      .error [.stdout [.str true 7 "event4", .lit "\t", .str true 16 "TABLET_TOOL_PROXIMITY",
                .lit " "],
              .stdout []] ∧
    (event_line env0 ev_bad_tool notify_state.initial).1 =
      [.str true 7 "event4", .lit "\t", .str true 16 "TABLET_TOOL_PROXIMITY", .lit " "] ∧
    ∀ p ∈ (event_line env0 ev_bad_tool notify_state.initial).1, p.is_time = false := by
  have hp : print_proximity_event env0 ev_bad_tool = .error [] :=
    print_proximity_event_bad_tool env0 ev_bad_tool 99 rfl
  have hh := handle_event_bad_tool
  have hl : (event_line env0 ev_bad_tool notify_state.initial).1 =
      [.str true 7 "event4", .lit "\t", .str true 16 "TABLET_TOOL_PROXIMITY", .lit " "] := by
    simp [event_line, hh, stdout_of]
  refine ⟨rfl, rfl, ?_, hh, hl, ?_⟩
  · simp [run_renderer, hp]
  · rw [hl]
    intro p hp
    simp only [List.mem_cons, List.mem_singleton, List.not_mem_nil, or_false] at hp
    rcases hp with h | h | h | h <;> subst h <;> rfl

/-- C19 as amended: for every event whose tag is a valid tag other than
DEVICE_ADDED and DEVICE_REMOVED and which is not a proximity event with a tool
type outside the enumeration, what is written after the header begins with the
output of `print_event_time` for the time field of the event's own family,
also when a proximity state outside the enumeration aborts the line after the
timestamp; a proximity event with a tool type outside the enumeration aborts
with the header alone written; the no-event tag aborts with nothing written;
for DEVICE_ADDED and DEVICE_REMOVED what is written after the header is the
device line, which holds no `%+6.2f` conversion, the conversion every
timestamp starts with. -/
theorem renderer_timestamp_first (env : Env) (ev : libinput_event) (st : notify_state) :
    (ev.type ≠ .NONE → is_device_notify ev = false →
      (ev.type = .TABLET_TOOL_PROXIMITY → ∀ raw, ev.tablet_tool.tool.type ≠ .invalid raw) →
      ∃ rest, (event_line env ev st).1 =
        header_of ev ++ (print_event_time env.start_time (own_time ev) ++ rest)) ∧
    (ev.type = .TABLET_TOOL_PROXIMITY → (∃ raw, ev.tablet_tool.tool.type = .invalid raw) →
      (event_line env ev st).1 = header_of ev ∧
      ∃ effects, handle_event env ev st = .error effects) ∧
    (ev.type = .NONE →
      (event_line env ev st).1 = [] ∧ ∃ effects, handle_event env ev st = .error effects) ∧
    (is_device_notify ev = true →
      (event_line env ev st).1 = header_of ev ++ (print_device_notify ev st).1 ∧
      ∀ p ∈ (print_device_notify ev st).1, p.is_time = false) ∧
    (∀ start time, ∃ p, (print_event_time start time).head? = some p ∧ p.is_time = true) := by
  refine ⟨event_line_time_first env ev st, ?_, ?_, ?_, ?_⟩
  · rintro ht ⟨raw, hraw⟩
    have hne : ev.type ≠ .NONE := by rw [ht]; decide
    have hh := print_event_header_eq ev hne
    have hp := print_proximity_event_bad_tool env ev raw hraw
    constructor
    · simp [event_line, handle_event, hh, ht, hp, stdout_of]
    · exact handle_event_invalid env ev st (by simp [event_valid, ht, hraw])
  · intro ht
    constructor
    · simp [event_line, handle_event, print_event_header, ht, stdout_of, bind, Except.bind]
    · exact handle_event_invalid env ev st (by simp [event_valid, ht])
  · intro hn
    have hne : ev.type ≠ .NONE := by
      intro h
      simp [is_device_notify, h] at hn
    have hh := print_event_header_eq ev hne
    refine ⟨?_, print_device_notify_line_no_time _ _⟩
    cases ht : ev.type <;> simp [is_device_notify, ht] at hn <;>
      simp [event_line, handle_event, hh, ht, stdout_of]
  · intro start time
    exact ⟨_, rfl, rfl⟩

/-- The proximity event of a pen with a proximity state outside the
enumeration: its tag is valid and not a device-notify tag and its tool type is
of the enumeration, and what follows its header begins with the timestamp of
the tablet-tool time, 3000 ms. -/
theorem renderer_timestamp_first_witness :
    ev_bad_state.type ≠ .NONE ∧ is_device_notify ev_bad_state = false ∧
    (ev_bad_state.type = .TABLET_TOOL_PROXIMITY →
      ∀ raw, ev_bad_state.tablet_tool.tool.type ≠ .invalid raw) ∧
    ∃ rest, (event_line env0 ev_bad_state notify_state.initial).1 =
      header_of ev_bad_state ++ (print_event_time 1000 3000 ++ rest) :=
  ⟨by decide, rfl, fun _ _ h => (by cases h),
   (renderer_timestamp_first env0 ev_bad_state notify_state.initial).1 (by decide) rfl
     (fun _ _ h => (by cases h))⟩

/-! ### The coordinates of the axis block -/

/-- C20, the code: the axis block starts with a tab, the x coordinate with the
x changed-marker, a slash, and then the x coordinate again, read where the y
coordinate was meant, with the y changed-marker; on the event of the concrete
inputs, with x = 11 and y = 22, the pair written is 11 and 11. -/
theorem print_tablet_axes_xy (t : libinput_event_tablet_tool) :
    (print_tablet_axes t).take 6 =
      [.lit "\t", .flt "%.2f" t.x, .str false 0 (changed_sym t.x_has_changed),
       .lit "/", .flt "%.2f" t.x, .str false 0 (changed_sym t.y_has_changed)] ∧
    ev0.tablet_tool.x = 11 ∧ ev0.tablet_tool.y = 22 ∧
    (print_tablet_axes ev0.tablet_tool).take 6 =
      [.lit "\t", .flt "%.2f" 11, .str false 0 "*", .lit "/", .flt "%.2f" 11,
       .str false 0 ""] := by
  refine ⟨?_, rfl, rfl, ?_⟩
  · simp [print_tablet_axes]
  · simp [print_tablet_axes, ev0, changed_sym]


/-! ## The disable-while-typing marker -/

/-- C21: `print_device_notify` ends the device line with the dwt marker and the
newline.  With dwt available and enabled the marker is ` dwt-on`; with dwt
available and not enabled the text written is ` dwt-off)`, with a closing
parenthesis before the newline, not ` dwt-off`; with dwt unavailable nothing
is written.  No other piece of the line is one of these literals.  The line
of `dev_dwt_off` is evaluated in full. -/
theorem print_device_notify_line_dwt (dev : libinput_device) (group_id : Int) :
    (∃ init, print_device_notify_line dev group_id =
        init ++
        (if dev.dwt_is_available then
          (if dev.dwt_enabled then [.lit " dwt-on"] else [.lit " dwt-off)"])
         else []) ++ [.lit "\n"] ∧
      ¬ has_field " dwt-on" init ∧ ¬ has_field " dwt-off)" init ∧
      ¬ has_field " dwt-off" init) ∧
    ¬ has_field " dwt-off" (print_device_notify_line dev group_id) ∧
    render env0.printf_double (print_device_notify_line dev_dwt_off 1) =
      "Touchpad                          seat0 default group1 cap:pg tap(dl off) left scroll-nat scroll-2fg-edge click-buttonareas-clickfinger dwt-off)\n" := by
  refine ⟨?_, ?_, ?_⟩
  · simp only [print_device_notify_line]
    refine ⟨_, rfl, ?_, ?_, ?_⟩ <;>
    · simp only [has_field]
      cases dev.size <;> simp <;> (repeat' split) <;> simp
  · simp only [print_device_notify_line, has_field]
    cases dev.size <;> simp <;> (repeat' split) <;> simp
  · rfl

/-! ## Decoding the capability letters -/

/-- The letters after `axes:` and after `btn:` in the descriptor of a
proximity line. -/
theorem print_proximity_tail_letters (tool : libinput_tablet_tool)
    (tool_str state_str : String) :
    print_proximity_tail tool tool_str state_str =
      [.lit "\t", .str false 0 tool_str, .lit " (", .hex tool.serial, .lit ", id ",
       .hex tool.tool_id, .lit ") ", .str false 0 state_str] ++
      [.lit "\taxes:"] ++ axes_letters tool ++
      [.lit "\tbtn:"] ++ btn_letters tool ++ [.lit "\n"] := by
  simp only [print_proximity_tail, axes_letters, btn_letters, btn_letters_of,
    List.append_assoc]

/-- The capability answers are read back from the letters after ` cap:`. -/
theorem cap_letters_decode (f : String → double → String) (dev : libinput_device) :
    letters_decode 'k' 'p' 't' 'g' 'T' 'P' (render f (cap_letters dev)) =
      [dev.cap_keyboard, dev.cap_pointer, dev.cap_touch, dev.cap_gesture,
       dev.cap_tablet_tool, dev.cap_tablet_pad] := by
  simp only [cap_letters]
  cases dev.cap_keyboard <;> cases dev.cap_pointer <;> cases dev.cap_touch <;>
    cases dev.cap_gesture <;> cases dev.cap_tablet_tool <;> cases dev.cap_tablet_pad <;> rfl

/-- The axis answers are read back from the letters after `axes:`. -/
theorem axes_letters_decode (f : String → double → String) (tool : libinput_tablet_tool) :
    letters_decode 'd' 'p' 't' 'r' 's' 'w' (render f (axes_letters tool)) =
      [tool.has_distance, tool.has_pressure, tool.has_tilt, tool.has_rotation,
       tool.has_slider, tool.has_wheel] := by
  simp only [axes_letters]
  cases tool.has_distance <;> cases tool.has_pressure <;> cases tool.has_tilt <;>
    cases tool.has_rotation <;> cases tool.has_slider <;> cases tool.has_wheel <;> rfl

/-- The eight button answers are read back from the letters after `btn:`. -/
theorem btn_letters_of_decode (f : String → double → String)
    (touch stylus stylus2 left middle right side extra : Bool) :
    btn_decode (render f (btn_letters_of touch stylus stylus2 left middle right side extra)) =
      [touch, stylus, stylus2, left, middle, right, side, extra] := by
  cases touch <;> cases stylus <;> cases stylus2 <;> cases left <;> cases middle <;>
    cases right <;> cases side <;> cases extra <;> rfl


/-- A prefix that starts with a separator makes the whole output start with it. -/
theorem starts_blank_append (a b : Out) (h : starts_blank a) : starts_blank (a ++ b) := by
  obtain ⟨s, rest, rfl, hs⟩ := h
  exact ⟨s, rest ++ b, rfl, hs⟩

/-- An optional group in front of an output: both start with a separator. -/
theorem starts_blank_ite (c : Prop) [Decidable c] (a b : Out) (ha : starts_blank a)
    (hb : starts_blank b) : starts_blank ((if c then a else []) ++ b) := by
  split
  · exact starts_blank_append a b ha
  · simpa using hb

/-- What follows the capability letters on the device line starts with a tab,
a blank or the newline, none of which is a capability letter. -/
theorem print_device_notify_line_cap_end (dev : libinput_device) (group_id : Int) :
    ∃ post, print_device_notify_line dev group_id =
      [.str true 33 dev.name, .lit " ", .str false 5 dev.seat.physical_name, .lit " ",
       .str false 7 dev.seat.logical_name, .lit " group", .dec 0 group_id] ++
      [.lit " cap:"] ++ cap_letters dev ++ post ∧ starts_blank post := by
  simp only [print_device_notify_line, cap_letters, List.append_assoc]
  refine ⟨_, rfl, ?_⟩
  have hb : ∀ (s : String) (rest : Out),
      (s.data.head? = some '\t' ∨ s.data.head? = some ' ' ∨ s.data.head? = some '\n') →
      starts_blank (.lit s :: rest) := fun s rest hs => ⟨s, rest, rfl, hs⟩
  rcases dev.size with _ | ⟨w, h⟩
  · simp only [List.nil_append]
    apply starts_blank_ite
    · exact hb _ _ (by decide)
    apply starts_blank_ite
    · exact hb _ _ (by decide)
    apply starts_blank_ite
    · exact hb _ _ (by decide)
    apply starts_blank_ite
    · exact hb _ _ (by decide)
    apply starts_blank_ite
    · exact hb _ _ (by decide)
    apply starts_blank_ite
    · exact hb _ _ (by decide)
    apply starts_blank_ite
    · split <;> exact hb _ _ (by decide)
    exact hb _ _ (by decide)
  · exact hb _ _ (by decide)

/-- C22: the capability letters are decodable.  On the device line the letters
follow ` cap:` and are followed by a piece that starts with a tab, a blank or
the newline; on the proximity line the axis letters stand between `axes:` and
the tab of `btn:`, the button letters between `btn:` and the newline.  Each
letter string is read back to the answers it was printed from, so that two
devices printing the same capability letters have the same six capabilities,
two tools printing the same axis letters have the same six axis
capabilities, and two tools printing the same button letters agree on
BTN_TOUCH, BTN_STYLUS, BTN_STYLUS2, BTN_LEFT, BTN_MIDDLE, BTN_RIGHT, BTN_SIDE
and BTN_EXTRA. -/
theorem capability_letters_decodable (f : String → double → String) :
    (∀ (dev : libinput_device) (group_id : Int), ∃ post,
      print_device_notify_line dev group_id =
        [.str true 33 dev.name, .lit " ", .str false 5 dev.seat.physical_name, .lit " ",
         .str false 7 dev.seat.logical_name, .lit " group", .dec 0 group_id] ++
        [.lit " cap:"] ++ cap_letters dev ++ post ∧ starts_blank post) ∧
    (∀ d1 d2 : libinput_device, render f (cap_letters d1) = render f (cap_letters d2) →
      d1.cap_keyboard = d2.cap_keyboard ∧ d1.cap_pointer = d2.cap_pointer ∧
      d1.cap_touch = d2.cap_touch ∧ d1.cap_gesture = d2.cap_gesture ∧
      d1.cap_tablet_tool = d2.cap_tablet_tool ∧ d1.cap_tablet_pad = d2.cap_tablet_pad) ∧
    (∀ (tool : libinput_tablet_tool) (tool_str state_str : String),
      print_proximity_tail tool tool_str state_str =
        [.lit "\t", .str false 0 tool_str, .lit " (", .hex tool.serial, .lit ", id ",
         .hex tool.tool_id, .lit ") ", .str false 0 state_str] ++
        [.lit "\taxes:"] ++ axes_letters tool ++
        [.lit "\tbtn:"] ++ btn_letters tool ++ [.lit "\n"]) ∧
    (∀ t1 t2 : libinput_tablet_tool, render f (axes_letters t1) = render f (axes_letters t2) →
      t1.has_distance = t2.has_distance ∧ t1.has_pressure = t2.has_pressure ∧
      t1.has_tilt = t2.has_tilt ∧ t1.has_rotation = t2.has_rotation ∧
      t1.has_slider = t2.has_slider ∧ t1.has_wheel = t2.has_wheel) ∧
    (∀ t1 t2 : libinput_tablet_tool, render f (btn_letters t1) = render f (btn_letters t2) →
      ∀ code ∈ [BTN_TOUCH, BTN_STYLUS, BTN_STYLUS2, BTN_LEFT, BTN_MIDDLE, BTN_RIGHT,
          BTN_SIDE, BTN_EXTRA],
        t1.has_button code = t2.has_button code) := by
  refine ⟨print_device_notify_line_cap_end, ?_, print_proximity_tail_letters, ?_, ?_⟩
  · intro d1 d2 h
    have h1 := cap_letters_decode f d1
    rw [h, cap_letters_decode f d2] at h1
    simpa using h1.symm
  · intro t1 t2 h
    have h1 := axes_letters_decode f t1
    rw [h, axes_letters_decode f t2] at h1
    simpa using h1.symm
  · intro t1 t2 h
    have h1 := btn_letters_of_decode f (t1.has_button BTN_TOUCH) (t1.has_button BTN_STYLUS)
      (t1.has_button BTN_STYLUS2) (t1.has_button BTN_LEFT) (t1.has_button BTN_MIDDLE)
      (t1.has_button BTN_RIGHT) (t1.has_button BTN_SIDE) (t1.has_button BTN_EXTRA)
    have h2 := btn_letters_of_decode f (t2.has_button BTN_TOUCH) (t2.has_button BTN_STYLUS)
      (t2.has_button BTN_STYLUS2) (t2.has_button BTN_LEFT) (t2.has_button BTN_MIDDLE)
      (t2.has_button BTN_RIGHT) (t2.has_button BTN_SIDE) (t2.has_button BTN_EXTRA)
    simp only [btn_letters] at h
    rw [h, h2] at h1
    simp only [List.cons.injEq, and_true] at h1
    obtain ⟨e1, e2, e3, e4, e5, e6, e7, e8⟩ := h1
    intro code hc
    simp only [List.mem_cons, List.mem_singleton, List.not_mem_nil, or_false] at hc
    rcases hc with rfl | rfl | rfl | rfl | rfl | rfl | rfl | rfl
    · exact e1.symm
    · exact e2.symm
    · exact e3.symm
    · exact e4.symm
    · exact e5.symm
    · exact e6.symm
    · exact e7.symm
    · exact e8.symm
/-! ## The applier in a drain that may abort -/

/-- Handling an event that is not valid aborts after writes only: the applier
is not called. -/
theorem handle_event_invalid_writes (env : Env) (ev : libinput_event) (st : notify_state)
    (hv : event_valid ev = false) :
    ∃ effects, handle_event env ev st = .error effects ∧
      ∀ e ∈ effects.map Effect.erase, e = .stdout [] := by
  rcases (event_valid_eq_false_iff ev).mp hv with ht | ⟨ht, hbad⟩
  · refine ⟨[.stdout []], ?_, by simp [Effect.erase]⟩
    simp [handle_event, print_event_header, ht, bind, Except.bind]
  · have hne : ev.type ≠ .NONE := by rw [ht]; decide
    have hh := print_event_header_eq ev hne
    by_cases htool : ∃ raw, ev.tablet_tool.tool.type = .invalid raw
    · obtain ⟨raw, hraw⟩ := htool
      have hp := print_proximity_event_bad_tool env ev raw hraw
      refine ⟨[.stdout (header_of ev), .stdout []], ?_, by simp [Effect.erase]⟩
      simp only [handle_event, hh, ht, hp]
    · rcases hbad with hb | ⟨raw, hs⟩
      · exact absurd hb htool
      · have htype : ∀ raw, ev.tablet_tool.tool.type ≠ .invalid raw :=
          fun raw h => htool ⟨raw, h⟩
        have hp := print_proximity_event_bad_state env ev raw htype hs
        refine ⟨[.stdout (header_of ev),
          .stdout (print_event_time env.start_time ev.tablet_tool.time)], ?_,
          by simp [Effect.erase]⟩
        simp only [handle_event, hh, ht, hp]

/-- A run of events, texts left out: per valid event in front of the first
event that is not valid two writes, then one call of the applier exactly for
the device-notify tags; the event that is not valid leaves writes only and
ends the run. -/
theorem erase_events_effects_prefix (env : Env) (evs : List libinput_event)
    (st : notify_state) :
    ∃ tail, (events_effects env evs st).1.map Effect.erase =
      (evs.takeWhile event_valid).flatMap (fun ev =>
        .stdout [] :: .stdout [] ::
          (if is_device_notify ev = true then
            [.apply_config ev.device env.options
              (tools_device_apply_config ev.device env.options)]
           else [])) ++ tail ∧
      (∀ e ∈ tail, e = .stdout []) ∧
      ((∀ ev ∈ evs, event_valid ev = true) → tail = []) := by
  induction evs generalizing st with
  | nil => exact ⟨[], by simp [events_effects], by simp, fun _ => rfl⟩
  | cons ev rest ih =>
    cases hv : event_valid ev
    · obtain ⟨effects, he, hw⟩ := handle_event_invalid_writes env ev st hv
      refine ⟨effects.map Effect.erase, ?_, hw, ?_⟩
      · simp [events_effects, he, List.takeWhile, hv]
      · intro hall
        have := hall ev (by simp)
        rw [hv] at this
        cases this
    · obtain ⟨r, hr, he⟩ := handle_event_valid env ev st hv
      obtain ⟨tail, h1, h2, h3⟩ := ih r.2
      refine ⟨tail, ?_, h2, fun hall => h3 (fun e hmem => hall e (by simp [hmem]))⟩
      simp only [events_effects, hr, List.map_append, he, h1, List.takeWhile, hv,
        List.flatMap_cons, List.append_assoc]

/-- A drain, whatever the events are and whatever arrives during it: its
effects are those of handling, one after the other and up to the first abort,
the events `libinput_get_event` hands out. -/
theorem drain_loop_trace (env : Env) (n : Nat) :
    ∀ (li : libinput) (st : notify_state) (rc : Int), li.remaining = n →
      (drain_loop env st li rc).trace = (events_effects env (handled_events li) st).1 := by
  induction n using Nat.strong_induction_on with
  | _ n ih =>
    intro li st rc hn
    obtain ⟨queue, inc⟩ := li
    cases queue with
    | nil =>
      rw [drain_loop, handled_events]
      simp [events_effects]
    | cons ev q =>
      have hlt := remaining_dispatch_lt ev q inc
      rw [hn] at hlt
      rw [drain_loop, handled_events]
      cases h : handle_event env ev st with
      | error effects => simp [events_effects, h]
      | ok r =>
        obtain ⟨effects, st1⟩ := r
        have h1 := ih _ hlt (libinput_dispatch { queue := q, incoming := inc }) st1 0 rfl
        simp [events_effects, h, h1]

/-- C7, the claim as stated fails: with the proximity event of a tool type
outside the enumeration queued in front of a DEVICE_ADDED event, the drain
aborts on the first event, after the header was written; the DEVICE_ADDED
event behind it is never handled and the applier is never called. -/
theorem handle_and_print_events_applies_config_counterexample :
    ev_added.type = .DEVICE_ADDED ∧
    (handle_and_print_events env0 notify_state.initial
      { queue := [ev_bad_tool, ev_added], incoming := [] }).trace =
      [.stdout [.str true 7 "event4", .lit "\t", .str true 16 "TABLET_TOOL_PROXIMITY",
         .lit " "],
       .stdout []] ∧
    (handle_and_print_events env0 notify_state.initial
      { queue := [ev_bad_tool, ev_added], incoming := [] }).rc = none := by
  have hd : libinput_dispatch { queue := [ev_bad_tool, ev_added], incoming := [] } =
      { queue := [ev_bad_tool, ev_added], incoming := [] } := rfl
  have hr : drain_loop env0 notify_state.initial
      { queue := [ev_bad_tool, ev_added], incoming := [] } (-1) =
      { trace := [.stdout [.str true 7 "event4", .lit "\t",
                    .str true 16 "TABLET_TOOL_PROXIMITY", .lit " "],
                  .stdout []],
        rc := none, st := notify_state.initial,
        li := { queue := [ev_added], incoming := [] } } := by
    rw [drain_loop]
    simp only [handle_event_bad_tool]
  refine ⟨rfl, ?_, ?_⟩ <;> simp only [handle_and_print_events, hd, hr]

/-- C7 as amended: in one call of `handle_and_print_events`, whatever the
events are and whatever arrives during the call, the trace with the texts left
out is, per event handled in front of the first event that aborts and in
order, the write of the header, the write of the renderer, and then one call
of `tools_device_apply_config` with the event's device and the global options
exactly when the tag is DEVICE_ADDED or DEVICE_REMOVED; what follows are the
writes of the event that aborts, and no call; when every event handed out is
valid nothing follows.  No call is made for an event of another kind, for the
event that aborts, or for an event behind it. -/
theorem handle_and_print_events_applies_config (env : Env) (st : notify_state)
    (li : libinput) :
    ∃ tail, (handle_and_print_events env st li).trace.map Effect.erase =
      ((handled_events (libinput_dispatch li)).takeWhile event_valid).flatMap (fun ev =>
        .stdout [] :: .stdout [] ::
          (if ev.type = .DEVICE_ADDED ∨ ev.type = .DEVICE_REMOVED then
            [.apply_config ev.device env.options
              (tools_device_apply_config ev.device env.options)]
           else [])) ++ tail ∧
      (∀ e ∈ tail, e = .stdout []) ∧
      ((∀ ev ∈ handled_events (libinput_dispatch li), event_valid ev = true) → tail = []) := by
  obtain ⟨tail, h1, h2, h3⟩ :=
    erase_events_effects_prefix env (handled_events (libinput_dispatch li)) st
  refine ⟨tail, ?_, h2, h3⟩
  simp only [handle_and_print_events]
  rw [drain_loop_trace env _ (libinput_dispatch li) st (-1) rfl, h1]
  congr 2
  funext ev
  cases ht : ev.type <;> simp [is_device_notify, ht]

/-- A device-added event followed by a key event, both valid: the applier is
called once, after the two writes of the first event, and nothing follows the
writes of the second. -/
theorem handle_and_print_events_applies_config_witness :
    (∀ ev ∈ handled_events (libinput_dispatch li0), event_valid ev = true) ∧
    (handle_and_print_events env0 notify_state.initial li0).trace.map Effect.erase =
      [.stdout [], .stdout [],
       .apply_config dev0 env0.options (tools_device_apply_config dev0 env0.options),
       .stdout [], .stdout []] := by
  have hh : handled_events (libinput_dispatch li0) = [ev_added, ev_key] :=
    handled_events_quiet _ _ (by simp)
  have hv : ∀ ev ∈ handled_events (libinput_dispatch li0), event_valid ev = true := by
    rw [hh]
    intro ev hev
    simp only [List.mem_cons, List.mem_singleton, List.not_mem_nil, or_false] at hev
    rcases hev with h | h <;> subst h <;> rfl
  obtain ⟨tail, h1, -, h3⟩ :=
    handle_and_print_events_applies_config env0 notify_state.initial li0
  refine ⟨hv, ?_⟩
  rw [h1, h3 hv, hh]
  rfl

end EventDebug
